import Mathlib

/-!
# The OGC (GameCube / Wii) port of SDL: a shallow embedding

Sources: `src/audio/ogc/SDL_ogcaudio.c` (the audio driver, the larger part of
this file), `src/thread/ogc/SDL_syssem.c` and `src/thread/ogc/SDL_systhread.c`
(semaphores and thread creation), `src/joystick/wii/SDL_sysjoystick.c` (the
joystick driver).

The driver keeps a ring of `NUM_BUFFERS` mixing buffers carved from one aligned
allocation, hands them one after another to the ASND mixer, and puts the
producer thread to sleep on an LWP thread queue until the mixer calls back.

Embedding conventions.

* C pointers are byte addresses in `Nat`, `0` is `NULL`.  The per-device record
  `this->hidden` is an `Option`: `none` is the null pointer, and a function that
  dereferences it when it is null returns `Except.error Fault.null_hidden`.
* Everything the driver calls but does not define (the allocator, the LWP
  thread queue, the ASND mixer, the error setter of SDL) is logged, in call order, in
  `World.trace`; the answers those calls give are inputs (`OpenEnv`,
  `Hardware`).
* `NUM_BUFFERS` is defined in `SDL_ogcaudio.h`, which is not among the sources;
  every function that uses it takes it as its first argument.
* The semaphore, thread and joystick functions log their external calls in the
  same way (`SemCall`, `ThreadCall`, `JoyCall`); conversions between C integer
  types are written out (`to_s8`, `to_u8`, `to_s16`, `to_u16`, `to_u32`).
-/

namespace OGC

/-! ## Constants and macros of the headers the driver includes -/

/-- Modelled from the spec: the sample formats of `SDL_audio.h` (not among the
sources).  A format is a 16-bit word: bits 0..7 hold the bit depth, bit 15 is
set for signed samples, bit 12 for big-endian ones. -/
def AUDIO_U8 : Nat := 0x0008

/-- Modelled from the spec: signed 8-bit samples, `AUDIO_S8` of `SDL_audio.h`
(not among the sources). -/
def AUDIO_S8 : Nat := 0x8008

/-- Modelled from the spec: signed 16-bit little-endian samples, `AUDIO_S16LSB`
of `SDL_audio.h` (not among the sources). -/
def AUDIO_S16LSB : Nat := 0x8010

/-- Modelled from the spec: signed 16-bit big-endian samples, `AUDIO_S16MSB` of
`SDL_audio.h` (not among the sources). -/
def AUDIO_S16MSB : Nat := 0x9010

/-- Modelled from the spec: unsigned 16-bit little-endian samples,
`AUDIO_U16LSB` of `SDL_audio.h` (not among the sources). -/
def AUDIO_U16LSB : Nat := 0x0010

/-- Modelled from the spec: signed 16-bit samples in native byte order,
`AUDIO_S16SYS` of `SDL_audio.h` (not among the sources); the consoles are
big-endian PowerPC machines. -/
def AUDIO_S16SYS : Nat := AUDIO_S16MSB

/-- Modelled from the spec: the bit depth of a sample format, the macro
`SDL_AUDIO_BITSIZE(x) = (x & 0xFF)` of `SDL_audio.h` (not among the sources). -/
def SDL_AUDIO_BITSIZE (x : Nat) : Nat := x &&& 0xFF

/-- Modelled from the spec: whether a sample format is signed, the macro
`SDL_AUDIO_ISSIGNED(x) = (x & (1 << 15))` of `SDL_audio.h` (not among the
sources), as a truth value. -/
def SDL_AUDIO_ISSIGNED (x : Nat) : Bool := (x &&& (1 <<< 15)) != 0

/-- Modelled from the spec: whether a sample format is unsigned, the macro
`SDL_AUDIO_ISUNSIGNED(x) = (!SDL_AUDIO_ISSIGNED(x))` of `SDL_audio.h` (not among
the sources). -/
def SDL_AUDIO_ISUNSIGNED (x : Nat) : Bool := !(SDL_AUDIO_ISSIGNED x)

/-- The macro `OGC_AUDIO_SAMPLE_ALIGN(s) = (((s) + 63) & ~63)`, evaluated in
32-bit `int`: `~63` is the bit pattern `0xFFFFFFC0`. -/
def OGC_AUDIO_SAMPLE_ALIGN (s : Nat) : Nat := (s + 63) &&& 0xFFFFFFC0

/-- The macro `OGC_AUDIO_MAX_VOLUME`. -/
def OGC_AUDIO_MAX_VOLUME : Nat := 255

/-- The status `SND_UNUSED` of the external library header `asndlib.h`: the
voice is not playing. -/
def SND_UNUSED : Int := 0

/-- The status `SND_WORKING` of the external library header `asndlib.h`: the
voice is playing. -/
def SND_WORKING : Int := 1

/-- The null queue handle `LWP_TQUEUE_NULL` of the external library libogc. -/
def LWP_TQUEUE_NULL : Nat := 0xffffffff

/-- Modelled from the spec: the negative error code `SDL_SetError` and
`SDL_OutOfMemory` (`SDL_error.c`, not among the sources) return, always `-1`. -/
def SDL_ERROR_RETURN : Int := -1

/-- The voice formats of the external library header `asndlib.h` the driver
chooses from. -/
inductive VoiceType where
  | VOICE_MONO_8BIT
  | VOICE_MONO_16BIT
  | VOICE_STEREO_8BIT
  | VOICE_STEREO_16BIT
  | VOICE_MONO_8BIT_U
  | VOICE_STEREO_8BIT_U
  deriving DecidableEq, Repr

/-- The messages the driver passes to the error setter of SDL:
`unsupported_format` is "OGC: Unsupported audio format",
`mixbuf_alloc` is the message about the mixing buffer that could not be
allocated, `out_of_memory` is what `SDL_OutOfMemory()` reports. -/
inductive ErrorMsg where
  | out_of_memory
  | unsupported_format
  | mixbuf_alloc
  deriving DecidableEq, Repr

/-! ## Data model -/

/-- Modelled from the spec: the device configuration, `SDL_AudioSpec` of
`SDL_audio.h` (not among the sources), reduced to the fields the driver reads
or writes.  `freq` is an `int`, `format` a 16-bit word, `channels` a `Uint8`,
`samples` (frames per buffer) a `Uint16`, `size` (buffer byte size) a
`Uint32`. -/
structure SDL_AudioSpec where
  freq : Int
  format : Nat
  channels : Nat
  samples : Nat
  size : Nat
  deriving DecidableEq, Repr

/-- Modelled from the spec: the per-device state record
`struct SDL_PrivateAudioData` behind `this->hidden`, declared in
`SDL_ogcaudio.h` (not among the sources), with the fields the driver uses. -/
structure SDL_PrivateAudioData where
  rawbuf : Nat
  mixbufs : List Nat
  next_buffer : Nat
  cur_buffer : Nat
  output_type : VoiceType
  volume : Nat
  channel : Nat
  first_time : Nat
  queue : Nat
  deriving DecidableEq, Repr

/-- The device `this`: its audio spec and its private record. -/
structure SDL_AudioDevice where
  spec : SDL_AudioSpec
  hidden : Option SDL_PrivateAudioData
  deriving DecidableEq, Repr

/-- What the ASND mixer answers at a given moment for the voice the driver
plays on: `status` is the answer of `ASND_StatusVoice`, and `held` lists the
buffer addresses for which `ASND_TestPointer` answers non-zero (the buffers the
voice is still playing or has queued). -/
structure Hardware where
  status : Int
  held : List Nat
  deriving DecidableEq, Repr

/-- A call the driver makes into code it does not define, with its
arguments.  The last argument of `ASND_SetVoice`, the completion callback, is
always `ogc_play_callback` and is left out. -/
inductive Call where
  | SDL_malloc
  | SDL_free
  | memalign (alignment size : Nat)
  | free (p : Nat)
  | SDL_memset (p c len : Nat)
  | SDL_SetError (msg : ErrorMsg)
  | LWP_InitQueue
  | LWP_ThreadSleep (q : Nat)
  | LWP_ThreadSignal (q : Nat)
  | LWP_CloseQueue (q : Nat)
  | ASND_Init
  | ASND_ChangeVolumeVoice (voice volume_l volume_r : Nat)
  | ASND_Pause (paused : Nat)
  | ASND_StatusVoice (voice : Nat)
  | ASND_TestPointer (voice p : Nat)
  | ASND_SetVoice (voice : Nat) (format : VoiceType) (pitch : Int) (delay : Nat)
      (snd size volume_l volume_r : Nat)
  | ASND_AddVoice (voice snd size : Nat)
  | ASND_StopVoice (voice : Nat)
  deriving DecidableEq, Repr

/-- The ways the C code can leave defined behaviour, plus the one way an event
can be impossible: the producer thread cannot call the driver while it sleeps
inside `LWP_ThreadSleep`. -/
inductive Fault where
  | null_hidden
  | out_of_bounds
  | producer_asleep
  deriving DecidableEq, Repr

/-- The whole state the driver works on: the device, the global table
`s_callback_data[8]` (`true` where the entry points to the device, `false`
where it is null), the queue the producer thread sleeps on (if it sleeps), the
mixer, and the log of external calls. -/
structure World where
  dev : SDL_AudioDevice
  s_callback_data : List Bool
  asleep : Option Nat
  hw : Hardware
  trace : List Call
  deriving DecidableEq, Repr

/-- The answers the allocator and libogc give during `OGCAUD_OpenDevice`:
whether `SDL_malloc` returns a record, the address `memalign` returns (`0` when
it fails) and the handle `LWP_InitQueue` stores. -/
structure OpenEnv where
  hidden_ok : Bool
  rawbuf : Nat
  queue : Nat
  deriving DecidableEq, Repr

/-- Appends one external call to the log. -/
def World.log (w : World) (c : Call) : World := { w with trace := w.trace ++ [c] }

/-- Replaces the private record of the device. -/
def World.setHidden (w : World) (h : Option SDL_PrivateAudioData) : World :=
  { w with dev := { w.dev with hidden := h } }

/-- Replaces the audio spec of the device. -/
def World.setSpec (w : World) (s : SDL_AudioSpec) : World :=
  { w with dev := { w.dev with spec := s } }

/-! ## `OGCAUD_OpenDevice` -/

/-- The record right after `SDL_malloc` and `SDL_zerop`: every field is zero
(voice type `0` is `VOICE_MONO_8BIT`); the array `mixbufs` has `NUM_BUFFERS`
entries. -/
def zeroed_hidden (NUM_BUFFERS : Nat) : SDL_PrivateAudioData :=
  { rawbuf := 0, mixbufs := List.replicate NUM_BUFFERS 0, next_buffer := 0,
    cur_buffer := 0, output_type := VoiceType.VOICE_MONO_8BIT, volume := 0,
    channel := 0, first_time := 0, queue := 0 }

/-- The body of `case 8:` (lines 69-86).  It has no `break`, so control runs on
into `case 16:`. -/
def OGCAUD_OpenDevice_case8 (spec : SDL_AudioSpec) (h : SDL_PrivateAudioData) :
    SDL_AudioSpec × SDL_PrivateAudioData :=
  if SDL_AUDIO_ISUNSIGNED spec.format then
    let spec := { spec with format := AUDIO_U8 }
    if spec.channels == 1 then
      (spec, { h with output_type := VoiceType.VOICE_MONO_8BIT_U })
    else
      ({ spec with channels := 2 }, { h with output_type := VoiceType.VOICE_STEREO_8BIT_U })
  else
    let spec := { spec with format := AUDIO_S8 }
    if spec.channels == 1 then
      (spec, { h with output_type := VoiceType.VOICE_MONO_8BIT })
    else
      ({ spec with channels := 2 }, { h with output_type := VoiceType.VOICE_STEREO_8BIT })

/-- The body of `case 16:` (lines 87-103).  The second component is `none` on
the branch that frees the record and returns the unsupported-format error. -/
def OGCAUD_OpenDevice_case16 (spec : SDL_AudioSpec) (h : SDL_PrivateAudioData) :
    SDL_AudioSpec × Option SDL_PrivateAudioData :=
  if SDL_AUDIO_ISSIGNED spec.format then
    let spec := { spec with format := AUDIO_S16SYS }
    if spec.channels == 1 then
      (spec, some { h with output_type := VoiceType.VOICE_MONO_16BIT })
    else
      ({ spec with channels := 2 }, some { h with output_type := VoiceType.VOICE_STEREO_16BIT })
  else
    (spec, none)

/-- The `switch (SDL_AUDIO_BITSIZE(this->spec.format))` of lines 68-110, with
the fall-through from `case 8:` into `case 16:`.  The second component is
`none` when the switch frees the record and returns the unsupported-format
error. -/
def OGCAUD_OpenDevice_switch (spec : SDL_AudioSpec) (h : SDL_PrivateAudioData) :
    SDL_AudioSpec × Option SDL_PrivateAudioData :=
  if SDL_AUDIO_BITSIZE spec.format == 8 then
    let r := OGCAUD_OpenDevice_case8 spec h
    OGCAUD_OpenDevice_case16 r.1 r.2
  else if SDL_AUDIO_BITSIZE spec.format == 16 then
    OGCAUD_OpenDevice_case16 spec h
  else
    (spec, none)

/-- Modelled from the spec: `SDL_CalculateAudioSpec` of `SDL_audio.c`, which is
not among the sources.  It derives the buffer byte size: bytes per sample
times channels times frames-per-buffer, in the `Uint32` field `size`.  (It
also sets the silence value, a field the driver never reads.) -/
def SDL_CalculateAudioSpec (spec : SDL_AudioSpec) : SDL_AudioSpec :=
  { spec with size := (SDL_AUDIO_BITSIZE spec.format / 8 * spec.channels * spec.samples) % 2 ^ 32 }

/-- Lines 112-122: the sample rate falls back to 32000 unless it is 32000 or
48000, the sample count is aligned (and stored back into the `Uint16` field),
and the byte size is derived. -/
def OGCAUD_OpenDevice_spec (spec : SDL_AudioSpec) : SDL_AudioSpec :=
  let spec := if spec.freq != 32000 && spec.freq != 48000 then { spec with freq := 32000 } else spec
  let spec := { spec with samples := OGC_AUDIO_SAMPLE_ALIGN spec.samples % 2 ^ 16 }
  SDL_CalculateAudioSpec spec

/-- The function `OGCAUD_OpenDevice` (lines 55-156).  Returns the `int` result
and the world it leaves. -/
def OGCAUD_OpenDevice (NUM_BUFFERS : Nat) (env : OpenEnv) (w : World) : Int × World :=
  let w := w.log Call.SDL_malloc
  if !env.hidden_ok then
    (SDL_ERROR_RETURN, (w.setHidden none).log (Call.SDL_SetError ErrorMsg.out_of_memory))
  else
    let r := OGCAUD_OpenDevice_switch w.dev.spec (zeroed_hidden NUM_BUFFERS)
    let w := w.setSpec r.1
    match r.2 with
    | none =>
      (SDL_ERROR_RETURN,
        ((w.log Call.SDL_free).setHidden none).log (Call.SDL_SetError ErrorMsg.unsupported_format))
    | some h =>
      let w := w.setSpec (OGCAUD_OpenDevice_spec w.dev.spec)
      let h := { h with volume := OGC_AUDIO_MAX_VOLUME }
      let mixlen := (w.dev.spec.size * NUM_BUFFERS) % 2 ^ 32
      let w := w.log (Call.memalign 64 mixlen)
      let h := { h with rawbuf := env.rawbuf }
      if h.rawbuf == 0 then
        (SDL_ERROR_RETURN,
          ((w.log Call.SDL_free).setHidden none).log (Call.SDL_SetError ErrorMsg.mixbuf_alloc))
      else
        let h := { h with channel := 0, first_time := 1, queue := LWP_TQUEUE_NULL }
        let w := w.log Call.LWP_InitQueue
        let h := { h with queue := env.queue }
        let w := w.log (Call.SDL_memset h.rawbuf 0 mixlen)
        let h := { h with mixbufs :=
          (List.range NUM_BUFFERS).map (fun i => h.rawbuf + (i * w.dev.spec.size) % 2 ^ 32) }
        let w := { w with s_callback_data := w.s_callback_data.set h.channel true }
        let h := { h with next_buffer := 0, cur_buffer := 0 }
        let w := w.log Call.ASND_Init
        let w := w.log (Call.ASND_ChangeVolumeVoice h.channel OGC_AUDIO_MAX_VOLUME OGC_AUDIO_MAX_VOLUME)
        let w := w.log (Call.ASND_Pause 0)
        (0, w.setHidden (some h))

/-! ## The mixer queries and the thread queue -/

/-- The answer of `ASND_StatusVoice` for the voice of the driver. -/
def ASND_StatusVoice (hw : Hardware) (_voice : Nat) : Int := hw.status

/-- The answer of `ASND_TestPointer`: non-zero when the voice still holds the
buffer at `p`. -/
def ASND_TestPointer (hw : Hardware) (_voice : Nat) (p : Nat) : Int :=
  if p ∈ hw.held then 1 else 0

/-- The libogc call `LWP_ThreadSignal(q)`: a thread sleeping on `q` is made
runnable; with nobody sleeping on `q` the signal is lost. -/
def LWP_ThreadSignal (q : Nat) (w : World) : World :=
  let w := w.log (Call.LWP_ThreadSignal q)
  if w.asleep = some q then { w with asleep := none } else w

/-- The libogc call `LWP_ThreadSleep(q)`: the calling (producer) thread sleeps
on `q` until a signal on `q` wakes it. -/
def LWP_ThreadSleep (q : Nat) (w : World) : World :=
  { w.log (Call.LWP_ThreadSleep q) with asleep := some q }

/-! ## The play loop -/

/-- The callback `ogc_play_callback` (lines 158-166). -/
def ogc_play_callback (voice : Nat) (w : World) : Except Fault World :=
  match w.s_callback_data[voice]? with
  | none => Except.error Fault.out_of_bounds
  | some false => Except.ok w
  | some true =>
    match w.dev.hidden with
    | none => Except.error Fault.null_hidden
    | some h => Except.ok (LWP_ThreadSignal h.queue w)

/-- The function `OGCAUD_PlayDevice` (lines 168-191). -/
def OGCAUD_PlayDevice (NUM_BUFFERS : Nat) (w : World) : Except Fault World :=
  match w.dev.hidden with
  | none => Except.error Fault.null_hidden
  | some h =>
    match h.mixbufs[h.next_buffer]? with
    | none => Except.error Fault.out_of_bounds
    | some mixbuf =>
      let h := { h with cur_buffer := h.next_buffer }
      let w := w.log (Call.ASND_StatusVoice h.channel)
      if ASND_StatusVoice w.hw h.channel == SND_UNUSED || h.first_time != 0 then
        let h := { h with first_time := 0 }
        let w := w.log (Call.ASND_SetVoice h.channel h.output_type w.dev.spec.freq 0 mixbuf
          w.dev.spec.size h.volume h.volume)
        Except.ok (w.setHidden (some { h with next_buffer := (h.next_buffer + 1) % NUM_BUFFERS }))
      else
        let w := w.log (Call.ASND_AddVoice h.channel mixbuf w.dev.spec.size)
        Except.ok (w.setHidden (some { h with next_buffer := (h.next_buffer + 1) % NUM_BUFFERS }))

/-- The function `OGCAUD_WaitDevice` (lines 194-200), up to the point where it
either has returned (`asleep` is `none`) or sleeps inside `LWP_ThreadSleep`.
Nothing follows the sleep in the body: when a signal wakes the thread the
function returns. -/
def OGCAUD_WaitDevice (w : World) : Except Fault World :=
  match w.dev.hidden with
  | none => Except.error Fault.null_hidden
  | some h =>
    match h.mixbufs[h.cur_buffer]? with
    | none => Except.error Fault.out_of_bounds
    | some buf =>
      let w := w.log (Call.ASND_TestPointer h.channel buf)
      if ASND_TestPointer w.hw h.channel buf != 0 then
        let w := w.log (Call.ASND_StatusVoice h.channel)
        if ASND_StatusVoice w.hw h.channel != SND_UNUSED then
          Except.ok (LWP_ThreadSleep h.queue w)
        else
          Except.ok w
      else
        Except.ok w

/-- The function `OGCAUD_GetDeviceBuf` (lines 202-205): the address of the
buffer the producer fills next. -/
def OGCAUD_GetDeviceBuf (w : World) : Except Fault Nat :=
  match w.dev.hidden with
  | none => Except.error Fault.null_hidden
  | some h =>
    match h.mixbufs[h.next_buffer]? with
    | none => Except.error Fault.out_of_bounds
    | some buf => Except.ok buf

/-- The function `OGCAUD_CloseDevice` (lines 207-228).  Its first statement
reads `this->hidden->channel`. -/
def OGCAUD_CloseDevice (w : World) : Except Fault World :=
  match w.dev.hidden with
  | none => Except.error Fault.null_hidden
  | some h =>
    let w := w.log (Call.ASND_StopVoice h.channel)
    let wh : World × SDL_PrivateAudioData :=
      if h.queue != LWP_TQUEUE_NULL then
        let w := LWP_ThreadSignal h.queue w
        let w := w.log (Call.LWP_CloseQueue h.queue)
        (w, { h with queue := LWP_TQUEUE_NULL })
      else (w, h)
    let wh : World × SDL_PrivateAudioData :=
      if wh.2.rawbuf != 0 then
        (wh.1.log (Call.free wh.2.rawbuf), { wh.2 with rawbuf := 0 })
      else wh
    let w := { wh.1 with s_callback_data := wh.1.s_callback_data.set wh.2.channel false }
    Except.ok ((w.log Call.SDL_free).setHidden none)

/-! ## Executions of the play loop -/

/-- One step of an execution after open.  The producer thread calls
`OGCAUD_PlayDevice`, `OGCAUD_WaitDevice` or `OGCAUD_GetDeviceBuf`; the mixer
invokes `ogc_play_callback` for a voice.  An event carries the state of the
mixer at the moment it happens. -/
inductive Event where
  | play (hw : Hardware)
  | wait (hw : Hardware)
  | getbuf
  | callback (voice : Nat) (hw : Hardware)
  deriving DecidableEq, Repr

/-- Whether the event is a submit (a call of `OGCAUD_PlayDevice`). -/
def Event.isPlay : Event → Bool
  | Event.play _ => true
  | _ => false

/-- Whether the event is an invocation of the completion callback. -/
def Event.isCallback : Event → Bool
  | Event.callback _ _ => true
  | _ => false

/-- The effect of one event.  A producer call is impossible while the producer
sleeps inside `LWP_ThreadSleep`. -/
def step (NUM_BUFFERS : Nat) (w : World) : Event → Except Fault World
  | Event.play hw =>
    if w.asleep.isSome then Except.error Fault.producer_asleep
    else OGCAUD_PlayDevice NUM_BUFFERS { w with hw := hw }
  | Event.wait hw =>
    if w.asleep.isSome then Except.error Fault.producer_asleep
    else OGCAUD_WaitDevice { w with hw := hw }
  | Event.getbuf =>
    if w.asleep.isSome then Except.error Fault.producer_asleep
    else
      match OGCAUD_GetDeviceBuf w with
      | Except.error f => Except.error f
      | Except.ok _ => Except.ok w
  | Event.callback voice hw => ogc_play_callback voice { w with hw := hw }

/-- The effect of a sequence of events, stopping at the first fault. -/
def run (NUM_BUFFERS : Nat) (w : World) : List Event → Except Fault World
  | [] => Except.ok w
  | e :: es =>
    match step NUM_BUFFERS w e with
    | Except.error f => Except.error f
    | Except.ok w1 => run NUM_BUFFERS w1 es

/-- The world before the device is opened: no private record, an empty
callback table of eight entries, the producer awake, an idle mixer and an empty
log. -/
def World.init (spec : SDL_AudioSpec) : World :=
  { dev := { spec := spec, hidden := none },
    s_callback_data := List.replicate 8 false,
    asleep := none,
    hw := { status := SND_UNUSED, held := [] },
    trace := [] }

/-- The two ways a buffer is handed to the mixer: `ASND_SetVoice` (arming) and
`ASND_AddVoice` (streaming). -/
inductive SubmitKind where
  | arming
  | streaming
  deriving DecidableEq, Repr

/-- The kind of submit a logged call is, if it is one. -/
def Call.submitKind : Call → Option SubmitKind
  | Call.ASND_SetVoice _ _ _ _ _ _ _ _ => some SubmitKind.arming
  | Call.ASND_AddVoice _ _ _ => some SubmitKind.streaming
  | _ => none

/-- The byte size a logged call passes to the mixer or the allocator, if it
passes one: the size argument of `ASND_SetVoice`, `ASND_AddVoice` and
`memalign`. -/
def Call.byteSize : Call → Option Nat
  | Call.ASND_SetVoice _ _ _ _ _ size _ _ => some size
  | Call.ASND_AddVoice _ _ size => some size
  | Call.memalign _ size => some size
  | _ => none

/-- The buffer address a logged call hands to the mixer, if it is a submit. -/
def Call.submitBuf : Call → Option Nat
  | Call.ASND_SetVoice _ _ _ _ snd _ _ _ => some snd
  | Call.ASND_AddVoice _ snd _ => some snd
  | _ => none

/-- The kinds of the submits in a log, in order. -/
def submits (t : List Call) : List SubmitKind := t.filterMap Call.submitKind

/-- A request for signed 16-bit stereo at 44100 Hz with 100 frames per
buffer; the examples below open it with two buffers. -/
def example_spec : SDL_AudioSpec :=
  { freq := 44100, format := AUDIO_S16LSB, channels := 2, samples := 100, size := 0 }

/-- An environment in which both allocations succeed: the pool is placed at
address `0x1000` and the queue handle is `7`. -/
def example_env : OpenEnv := { hidden_ok := true, rawbuf := 0x1000, queue := 7 }

/-- The world `OGCAUD_OpenDevice` leaves for `example_spec` with two buffers. -/
def example_open : World := (OGCAUD_OpenDevice 2 example_env (World.init example_spec)).2

/-- A mixer whose voice is unused and holds no buffer. -/
def hw_idle : Hardware := { status := SND_UNUSED, held := [] }

/-- A mixer whose voice is playing and still holds the first slot of
`example_open`. -/
def hw_busy : Hardware := { status := SND_WORKING, held := [0x1000] }

/-- A request for unsigned 8-bit mono samples, otherwise like `example_spec`. -/
def example_spec_u8 : SDL_AudioSpec := { example_spec with format := AUDIO_U8, channels := 1 }

/-- A request like `example_spec` but for 65535 frames per buffer, the largest
value the 16-bit field `samples` holds. -/
def example_spec_max : SDL_AudioSpec := { example_spec with samples := 65535 }

/-- One round of the play loop and the start of the next on `example_open`: the
first submit finds the voice unused, the wait finds the first slot still held
by the playing voice and sleeps, the callback of voice 0 wakes the producer,
which asks for the next slot and submits it. -/
def example_events : List Event :=
  [Event.play hw_idle, Event.wait hw_busy, Event.callback 0 hw_busy, Event.getbuf,
    Event.play hw_busy]

/-- The world `example_events` leads to from `example_open`. -/
def example_final : World :=
  match run 2 example_open example_events with
  | Except.ok w => w
  | Except.error _ => example_open

/-- Three rounds of the play loop on `example_open` during which the mixer
reports the voice playing at every submit. -/
def example_stream_events : List Event :=
  [Event.play hw_busy, Event.wait hw_busy, Event.callback 0 hw_busy,
    Event.getbuf, Event.play hw_busy, Event.wait hw_busy, Event.callback 0 hw_busy,
    Event.getbuf, Event.play hw_busy]

/-- The world `example_stream_events` leads to from `example_open`. -/
def example_stream_final : World :=
  match run 2 example_open example_stream_events with
  | Except.ok w => w
  | Except.error _ => example_open

/-- The private record of `example_open` after its first submit. -/
def example_armed_hidden : SDL_PrivateAudioData :=
  { rawbuf := 4096, mixbufs := [4096, 4608], next_buffer := 1, cur_buffer := 0,
    output_type := VoiceType.VOICE_STEREO_16BIT, volume := 255, channel := 0,
    first_time := 0, queue := 7 }

/-- The world after the first submit on `example_open`, with the mixer playing
the first slot. -/
def example_armed : World :=
  match run 2 example_open [Event.play hw_idle] with
  | Except.ok w => { w with hw := hw_busy }
  | Except.error _ => example_open

/-- The world in which the producer of `example_armed` has called
`OGCAUD_WaitDevice` and sleeps. -/
def example_sleeping : World :=
  match step 2 example_armed (Event.wait hw_busy) with
  | Except.ok w => w
  | Except.error _ => example_open

/-- The world after the callback of voice 0 has woken `example_sleeping`. -/
def example_woken : World :=
  match run 2 example_sleeping [Event.callback 0 hw_busy] with
  | Except.ok w => w
  | Except.error _ => example_open

/-- The submit kinds the play events of an execution produce by the test of
line 174: a submit arms when the mixer reports the voice unused or the record
is unarmed.  The flag says whether `first_time` is set before the first
event; every submit clears it. -/
def expectedSubmits (unarmed : Bool) : List Event → List SubmitKind
  | [] => []
  | Event.play hw :: es =>
    (if hw.status == SND_UNUSED || unarmed then SubmitKind.arming else SubmitKind.streaming)
      :: expectedSubmits false es
  | Event.wait _ :: es => expectedSubmits unarmed es
  | Event.getbuf :: es => expectedSubmits unarmed es
  | Event.callback _ _ :: es => expectedSubmits unarmed es

/-- The call by which `OGCAUD_PlayDevice` hands the buffer at `mixbuf` to the
mixer, for the record `h` and spec `spec` it starts from: `ASND_SetVoice` when
the mixer reports the voice unused or `first_time` is set, `ASND_AddVoice`
otherwise. -/
def submitCall (hw : Hardware) (spec : SDL_AudioSpec) (h : SDL_PrivateAudioData)
    (mixbuf : Nat) : Call :=
  if ASND_StatusVoice hw h.channel == SND_UNUSED || h.first_time != 0 then
    Call.ASND_SetVoice h.channel h.output_type spec.freq 0 mixbuf spec.size h.volume h.volume
  else
    Call.ASND_AddVoice h.channel mixbuf spec.size

end OGC

namespace OGC

/-! ## Worlds used as concrete inputs for the teardown claims -/

/-- The world a failed `OGCAUD_OpenDevice` leaves for the unsigned 8-bit request
`example_spec_u8`. -/
def example_failed_open : World :=
  (OGCAUD_OpenDevice 2 example_env (World.init example_spec_u8)).2

/-- An environment like `example_env` in which `LWP_InitQueue` fails and leaves
the handle at `LWP_TQUEUE_NULL`, the value line 138 has just stored; the
driver does not look at the result of `LWP_InitQueue`. -/
def example_env_nogate : OpenEnv := { example_env with queue := LWP_TQUEUE_NULL }

/-- The world `OGCAUD_OpenDevice` leaves for `example_spec` in
`example_env_nogate`. -/
def example_open_nogate : World :=
  (OGCAUD_OpenDevice 2 example_env_nogate (World.init example_spec)).2

/-- The world `OGCAUD_CloseDevice` leaves when it closes `example_sleeping`, the
device whose producer sleeps inside `OGCAUD_WaitDevice`. -/
def example_closed_while_sleeping : World :=
  match OGCAUD_CloseDevice example_sleeping with
  | Except.ok w => w
  | Except.error _ => example_open

/-- An environment like `example_env` in which `memalign` fails. -/
def example_env_nopool : OpenEnv := { example_env with rawbuf := 0 }

/-- An environment like `example_env` in which `SDL_malloc` fails. -/
def example_env_nomem : OpenEnv := { example_env with hidden_ok := false }

/-! ## What the names of the voice formats say -/

/-- Whether a voice format of `asndlib.h` is a mono format (`VOICE_MONO_...`)
rather than a stereo one (`VOICE_STEREO_...`). -/
def VoiceType.isMono : VoiceType → Bool
  | VoiceType.VOICE_MONO_8BIT => true
  | VoiceType.VOICE_MONO_16BIT => true
  | VoiceType.VOICE_MONO_8BIT_U => true
  | VoiceType.VOICE_STEREO_8BIT => false
  | VoiceType.VOICE_STEREO_16BIT => false
  | VoiceType.VOICE_STEREO_8BIT_U => false

/-- The bit depth of the samples of a voice format of `asndlib.h`
(`..._8BIT...` or `..._16BIT`). -/
def VoiceType.bits : VoiceType → Nat
  | VoiceType.VOICE_MONO_8BIT => 8
  | VoiceType.VOICE_MONO_16BIT => 16
  | VoiceType.VOICE_MONO_8BIT_U => 8
  | VoiceType.VOICE_STEREO_8BIT => 8
  | VoiceType.VOICE_STEREO_16BIT => 16
  | VoiceType.VOICE_STEREO_8BIT_U => 8

/-- Whether the samples of a voice format of `asndlib.h` are signed: all are,
except the two formats marked `_U`; the driver pairs `AUDIO_S8` with the
`..._8BIT` formats, `AUDIO_U8` with the `..._8BIT_U` formats and
`AUDIO_S16SYS` with the `..._16BIT` formats. -/
def VoiceType.isSigned : VoiceType → Bool
  | VoiceType.VOICE_MONO_8BIT => true
  | VoiceType.VOICE_MONO_16BIT => true
  | VoiceType.VOICE_MONO_8BIT_U => false
  | VoiceType.VOICE_STEREO_8BIT => true
  | VoiceType.VOICE_STEREO_16BIT => true
  | VoiceType.VOICE_STEREO_8BIT_U => false

/-! ## The semaphore of `src/thread/ogc/SDL_syssem.c`

An `SDL_sem` wraps the handle of a counting semaphore of libogc.  The functions
below take the pointer as an `Option` (`none` is `NULL`) and work on a
`SemWorld`: the count of the libogc semaphore the handle names and the log of
the external calls made.  A non-null `SDL_sem` is taken to name a live libogc
semaphore (`SDL_CreateSemaphore` returns `NULL` when `LWP_SemInit` fails), so
the libogc calls on it succeed. -/

/-- Modelled from the spec: the result `SDL_MUTEX_TIMEDOUT` of `SDL_mutex.h`
(not among the sources), which is `1`. -/
def SDL_MUTEX_TIMEDOUT : Int := 1

/-- Modelled from the spec: the timeout `SDL_MUTEX_MAXWAIT` of `SDL_mutex.h`
(not among the sources), which is `~(Uint32)0`: wait without a time limit. -/
def SDL_MUTEX_MAXWAIT : Nat := 0xFFFFFFFF

/-- The record `struct SDL_semaphore`: the handle `semid`. -/
structure SDL_semaphore where
  semid : Nat
  deriving DecidableEq, Repr

/-- A call the semaphore functions make into code they do not define. -/
inductive SemCall where
  | SDL_InvalidParamError
  | LWP_SemGetValue (semid : Nat)
  | LWP_SemWait (semid : Nat)
  | LWP_SemPost (semid : Nat)
  | SDL_GetTicks
  | SDL_Delay (ms : Nat)
  deriving DecidableEq, Repr

/-- The count of the libogc semaphore and the log of external calls. -/
structure SemWorld where
  count : Nat
  calls : List SemCall
  deriving DecidableEq, Repr

/-- How a call of a semaphore function ends: it returns a result, or the thread
blocks inside `LWP_SemWait` (the count is 0 and nobody posts), or the model has
no further clock reading to give to `SDL_GetTicks`. -/
inductive SemResult where
  | returned (ret : Int) (w : SemWorld)
  | blocked (w : SemWorld)
  | clock_exhausted (w : SemWorld)
  deriving DecidableEq, Repr

/-- Appends one external call to the log. -/
def SemWorld.log (w : SemWorld) (c : SemCall) : SemWorld := { w with calls := w.calls ++ [c] }

/-- The libogc call `LWP_SemGetValue(semid, &val)` on a live semaphore: the
result `0` and the count stored into `val`. -/
def LWP_SemGetValue (semid : Nat) (w : SemWorld) : Int × Nat × SemWorld :=
  (0, w.count, w.log (SemCall.LWP_SemGetValue semid))

/-- The libogc call `LWP_SemWait(semid)` on a live semaphore: with a positive
count it takes one unit and returns `0`; with count 0 the thread blocks
(`none`). -/
def LWP_SemWait (semid : Nat) (w : SemWorld) : SemWorld × Option Int :=
  let w := w.log (SemCall.LWP_SemWait semid)
  if 0 < w.count then ({ w with count := w.count - 1 }, some 0) else (w, none)

/-- The function `SDL_SemValue` (lines 134-150). -/
def SDL_SemValue (sem : Option SDL_semaphore) (w : SemWorld) : Nat × SemWorld :=
  match sem with
  | none => (0, w.log SemCall.SDL_InvalidParamError)
  | some s =>
    let r := LWP_SemGetValue s.semid w
    if r.1 ≥ 0 then (r.2.1, r.2.2) else (0, r.2.2)

/-- The polling loop of `SDL_SemWaitTimeout` (lines 111-120).  `ticks` is the
reading taken before the loop, the list holds the later readings of
`SDL_GetTicks`, one per evaluation of the loop condition; the difference is
taken in `Uint32`. -/
def SDL_SemWaitTimeout_loop (s : SDL_semaphore) (ticks timeout : Nat) :
    List Nat → SemWorld → SemResult
  | [], w => SemResult.clock_exhausted w
  | now :: clock, w =>
    let w := w.log SemCall.SDL_GetTicks
    if (now + 2 ^ 32 - ticks) % 2 ^ 32 < timeout then
      let r := SDL_SemValue (some s) w
      if r.1 > 0 then
        match LWP_SemWait s.semid r.2 with
        | (w, some _) => SemResult.returned 0 w
        | (w, none) => SemResult.blocked w
      else
        SDL_SemWaitTimeout_loop s ticks timeout clock (r.2.log (SemCall.SDL_Delay 1))
    else
      SemResult.returned SDL_MUTEX_TIMEDOUT w

/-- The function `SDL_SemWaitTimeout` (lines 81-121).  `clock` holds the
readings `SDL_GetTicks` will give. -/
def SDL_SemWaitTimeout (sem : Option SDL_semaphore) (timeout : Nat) (clock : List Nat)
    (w : SemWorld) : SemResult :=
  match sem with
  | none => SemResult.returned 0 (w.log SemCall.SDL_InvalidParamError)
  | some s =>
    if timeout == 0 then
      let r := LWP_SemGetValue s.semid w
      if r.2.1 == 0 then
        SemResult.returned SDL_MUTEX_TIMEDOUT r.2.2
      else
        match LWP_SemWait s.semid r.2.2 with
        | (w, some _) => SemResult.returned 0 w
        | (w, none) => SemResult.blocked w
    else if timeout == SDL_MUTEX_MAXWAIT then
      match LWP_SemWait s.semid w with
      | (w, some res) =>
        if res < 0 then SemResult.returned SDL_MUTEX_TIMEDOUT w else SemResult.returned 0 w
      | (w, none) => SemResult.blocked w
    else
      match clock with
      | [] => SemResult.clock_exhausted w
      | ticks :: clock =>
        SDL_SemWaitTimeout_loop s ticks timeout clock (w.log SemCall.SDL_GetTicks)

/-- The function `SDL_SemTryWait` (lines 123-126). -/
def SDL_SemTryWait (sem : Option SDL_semaphore) (clock : List Nat) (w : SemWorld) : SemResult :=
  SDL_SemWaitTimeout sem 0 clock w

/-- The function `SDL_SemWait` (lines 128-131). -/
def SDL_SemWait (sem : Option SDL_semaphore) (clock : List Nat) (w : SemWorld) : SemResult :=
  SDL_SemWaitTimeout sem SDL_MUTEX_MAXWAIT clock w

/-- A request for signed 8-bit mono samples, otherwise like `example_spec`. -/
def example_spec_s8 : SDL_AudioSpec := { example_spec with format := AUDIO_S8, channels := 1 }

/-- The world `OGCAUD_OpenDevice` leaves for the signed 8-bit request
`example_spec_s8` with two buffers. -/
def example_open_s8 : World :=
  (OGCAUD_OpenDevice 2 example_env (World.init example_spec_s8)).2

/-! ## More of the semaphore of `src/thread/ogc/SDL_syssem.c` -/

/-- Modelled from the spec: the negative error code `SDL_InvalidParamError`
returns; it expands to a call of `SDL_SetError` (`SDL_error.h`, not among the
sources), which always returns `-1`. -/
def SDL_InvalidParamError : Int := SDL_ERROR_RETURN

/-- The function `SDL_SemPost` (lines 152-166).  `res` is the result of the
libogc call `LWP_SemPost` and `count` the count that call leaves; both are
inputs. -/
def SDL_SemPost (sem : Option SDL_semaphore) (res : Int) (count : Nat) (w : SemWorld) :
    Int × SemWorld :=
  match sem with
  | none => (SDL_InvalidParamError, w.log SemCall.SDL_InvalidParamError)
  | some s =>
    let w := { (w.log (SemCall.LWP_SemPost s.semid)) with count := count }
    if res < 0 then (SDL_ERROR_RETURN, w) else (0, w)

/-! ## The thread creation of `src/thread/ogc/SDL_systhread.c` -/

/-- The macro `OGC_THREAD_STACK_MIN_SIZE`. -/
def OGC_THREAD_STACK_MIN_SIZE : Nat := 0x1000

/-- The macro `OGC_THREAD_STACK_MAX_SIZE`. -/
def OGC_THREAD_STACK_MAX_SIZE : Nat := 0x2000000

/-- The macro `OGC_THREAD_STACK_SIZE_DEFAULT`. -/
def OGC_THREAD_STACK_SIZE_DEFAULT : Nat := 0x10000

/-- The macro `OGC_THREAD_PRIORITY_NORMAL`. -/
def OGC_THREAD_PRIORITY_NORMAL : Nat := 80

/-- The null thread handle `LWP_THREAD_NULL` of the external library libogc. -/
def LWP_THREAD_NULL : Nat := 0xffffffff

/-- Modelled from the spec: the fields of `SDL_Thread` (`SDL_thread_c.h`, not
among the sources) that `SDL_SYS_CreateThread` uses: the handle, whether a
name is set, and the requested stack size (a `size_t`). -/
structure SDL_Thread where
  handle : Nat
  has_name : Bool
  stacksize : Nat
  deriving DecidableEq, Repr

/-- The one external call of `SDL_SYS_CreateThread` that matters here, with the
stack size and the priority it passes. -/
inductive ThreadCall where
  | LWP_CreateThread (stack_size prio : Nat)
  deriving DecidableEq, Repr

/-- The function `SDL_SYS_CreateThread` (lines 54-91).  `ret` is the result of
`LWP_CreateThread` and `handle` the handle it leaves in `thread->handle`.  The
local buffer `thread_name` is filled and never read, so it is left out. -/
def SDL_SYS_CreateThread (thread : SDL_Thread) (ret : Int) (handle : Nat) :
    Int × SDL_Thread × List ThreadCall :=
  let stack_size := OGC_THREAD_STACK_SIZE_DEFAULT
  let thread := { thread with handle := LWP_THREAD_NULL }
  let ts : SDL_Thread × Nat :=
    if thread.stacksize != 0 then
      let thread :=
        if thread.stacksize < OGC_THREAD_STACK_MAX_SIZE then
          { thread with stacksize := OGC_THREAD_STACK_MAX_SIZE }
        else thread
      let thread :=
        if thread.stacksize > OGC_THREAD_STACK_MAX_SIZE then
          { thread with stacksize := OGC_THREAD_STACK_MAX_SIZE }
        else thread
      (thread, thread.stacksize)
    else (thread, stack_size)
  let thread := { ts.1 with handle := handle }
  let calls := [ThreadCall.LWP_CreateThread ts.2 OGC_THREAD_PRIORITY_NORMAL]
  if ret < 0 then (SDL_ERROR_RETURN, thread, calls) else (0, thread, calls)

/-! ## The joystick driver of `src/joystick/wii/SDL_sysjoystick.c`

The driver polls the Wii remotes (through `wiiuse/wpad.h`) and the GameCube
pads (through `ogc/pad.h`), compares what it reads with the state it remembers
in `joystick->hwdata`, and reports the differences through
`SDL_PrivateJoystickHat`, `SDL_PrivateJoystickButton` and
`SDL_PrivateJoystickAxis`.  The external calls are logged in call order; the
readings are inputs (`PadHardware`).  `WPAD_Stick` and `WPAD_Orient` compute in
floating point; the `s16` they return is taken as a reading.  C integer
conversions are explicit: `to_s8`, `to_u8`, `to_s16`, `to_u16`, `to_u32`. -/

/-- Conversion of an `int` to `s8` (two's complement wrap). -/
def to_s8 (x : Int) : Int := (x + 128) % 256 - 128

/-- Conversion of an `int` to `u8`. -/
def to_u8 (x : Int) : Int := x % 256

/-- Conversion of an `int` to `s16` (two's complement wrap). -/
def to_s16 (x : Int) : Int := (x + 32768) % 65536 - 32768

/-- Conversion to `u16`. -/
def to_u16 (x : Nat) : Nat := x % 2 ^ 16

/-- Conversion to `u32`. -/
def to_u32 (x : Nat) : Nat := x % 2 ^ 32

/-- The macro `AXIS_MIN`. -/
def AXIS_MIN : Int := -32768

/-- The macro `AXIS_MAX`. -/
def AXIS_MAX : Int := 32767

/-- The macro `MAX_GC_AXES`. -/
def MAX_GC_AXES : Nat := 6

/-- The macro `MAX_GC_BUTTONS`. -/
def MAX_GC_BUTTONS : Nat := 8

/-- The macro `MAX_GC_HATS`. -/
def MAX_GC_HATS : Nat := 1

/-- The macro `MAX_WII_AXES`. -/
def MAX_WII_AXES : Nat := 9

/-- The macro `MAX_WII_BUTTONS`. -/
def MAX_WII_BUTTONS : Nat := 20

/-- The macro `MAX_WII_HATS`. -/
def MAX_WII_HATS : Nat := 1

/-- The static variable `__jswpad_enabled`, never assigned after its
initialisation. -/
def __jswpad_enabled : Int := 1

/-- The static variable `__jspad_enabled`, never assigned after its
initialisation. -/
def __jspad_enabled : Int := 1

/-- The static variable `__numwiijoysticks`, never assigned after its
initialisation. -/
def __numwiijoysticks : Int := 4

/-- The static variable `__numgcjoysticks`, never assigned after its
initialisation. -/
def __numgcjoysticks : Int := 4

/-- The expansion type `WPAD_EXP_NONE` of the external header `wiiuse/wpad.h`. -/
def WPAD_EXP_NONE : Nat := 0

/-- The expansion type `WPAD_EXP_NUNCHUK` of `wiiuse/wpad.h`. -/
def WPAD_EXP_NUNCHUK : Nat := 1

/-- The expansion type `WPAD_EXP_CLASSIC` of `wiiuse/wpad.h`. -/
def WPAD_EXP_CLASSIC : Nat := 2

/-- The button mask `WPAD_BUTTON_2` of `wiiuse/wpad.h`. -/
def WPAD_BUTTON_2 : Nat := 0x0001

/-- The button mask `WPAD_BUTTON_1` of `wiiuse/wpad.h`. -/
def WPAD_BUTTON_1 : Nat := 0x0002

/-- The button mask `WPAD_BUTTON_B` of `wiiuse/wpad.h`. -/
def WPAD_BUTTON_B : Nat := 0x0004

/-- The button mask `WPAD_BUTTON_A` of `wiiuse/wpad.h`. -/
def WPAD_BUTTON_A : Nat := 0x0008

/-- The button mask `WPAD_BUTTON_MINUS` of `wiiuse/wpad.h`. -/
def WPAD_BUTTON_MINUS : Nat := 0x0010

/-- The button mask `WPAD_BUTTON_HOME` of `wiiuse/wpad.h`. -/
def WPAD_BUTTON_HOME : Nat := 0x0080

/-- The button mask `WPAD_BUTTON_LEFT` of `wiiuse/wpad.h`. -/
def WPAD_BUTTON_LEFT : Nat := 0x0100

/-- The button mask `WPAD_BUTTON_RIGHT` of `wiiuse/wpad.h`. -/
def WPAD_BUTTON_RIGHT : Nat := 0x0200

/-- The button mask `WPAD_BUTTON_DOWN` of `wiiuse/wpad.h`. -/
def WPAD_BUTTON_DOWN : Nat := 0x0400

/-- The button mask `WPAD_BUTTON_UP` of `wiiuse/wpad.h`. -/
def WPAD_BUTTON_UP : Nat := 0x0800

/-- The button mask `WPAD_BUTTON_PLUS` of `wiiuse/wpad.h`. -/
def WPAD_BUTTON_PLUS : Nat := 0x1000

/-- The button mask `WPAD_NUNCHUK_BUTTON_Z` of `wiiuse/wpad.h`. -/
def WPAD_NUNCHUK_BUTTON_Z : Nat := 0x0001 <<< 16

/-- The button mask `WPAD_NUNCHUK_BUTTON_C` of `wiiuse/wpad.h`. -/
def WPAD_NUNCHUK_BUTTON_C : Nat := 0x0002 <<< 16

/-- The button mask `WPAD_CLASSIC_BUTTON_UP` of `wiiuse/wpad.h`. -/
def WPAD_CLASSIC_BUTTON_UP : Nat := 0x0001 <<< 16

/-- The button mask `WPAD_CLASSIC_BUTTON_LEFT` of `wiiuse/wpad.h`. -/
def WPAD_CLASSIC_BUTTON_LEFT : Nat := 0x0002 <<< 16

/-- The button mask `WPAD_CLASSIC_BUTTON_ZR` of `wiiuse/wpad.h`. -/
def WPAD_CLASSIC_BUTTON_ZR : Nat := 0x0004 <<< 16

/-- The button mask `WPAD_CLASSIC_BUTTON_X` of `wiiuse/wpad.h`. -/
def WPAD_CLASSIC_BUTTON_X : Nat := 0x0008 <<< 16

/-- The button mask `WPAD_CLASSIC_BUTTON_A` of `wiiuse/wpad.h`. -/
def WPAD_CLASSIC_BUTTON_A : Nat := 0x0010 <<< 16

/-- The button mask `WPAD_CLASSIC_BUTTON_Y` of `wiiuse/wpad.h`. -/
def WPAD_CLASSIC_BUTTON_Y : Nat := 0x0020 <<< 16

/-- The button mask `WPAD_CLASSIC_BUTTON_B` of `wiiuse/wpad.h`. -/
def WPAD_CLASSIC_BUTTON_B : Nat := 0x0040 <<< 16

/-- The button mask `WPAD_CLASSIC_BUTTON_ZL` of `wiiuse/wpad.h`. -/
def WPAD_CLASSIC_BUTTON_ZL : Nat := 0x0080 <<< 16

/-- The button mask `WPAD_CLASSIC_BUTTON_FULL_R` of `wiiuse/wpad.h`. -/
def WPAD_CLASSIC_BUTTON_FULL_R : Nat := 0x0200 <<< 16

/-- The button mask `WPAD_CLASSIC_BUTTON_PLUS` of `wiiuse/wpad.h`. -/
def WPAD_CLASSIC_BUTTON_PLUS : Nat := 0x0400 <<< 16

/-- The button mask `WPAD_CLASSIC_BUTTON_HOME` of `wiiuse/wpad.h`. -/
def WPAD_CLASSIC_BUTTON_HOME : Nat := 0x0800 <<< 16

/-- The button mask `WPAD_CLASSIC_BUTTON_MINUS` of `wiiuse/wpad.h`. -/
def WPAD_CLASSIC_BUTTON_MINUS : Nat := 0x1000 <<< 16

/-- The button mask `WPAD_CLASSIC_BUTTON_FULL_L` of `wiiuse/wpad.h`. -/
def WPAD_CLASSIC_BUTTON_FULL_L : Nat := 0x2000 <<< 16

/-- The button mask `WPAD_CLASSIC_BUTTON_DOWN` of `wiiuse/wpad.h`. -/
def WPAD_CLASSIC_BUTTON_DOWN : Nat := 0x4000 <<< 16

/-- The button mask `WPAD_CLASSIC_BUTTON_RIGHT` of `wiiuse/wpad.h`. -/
def WPAD_CLASSIC_BUTTON_RIGHT : Nat := 0x8000 <<< 16

/-- The button mask `PAD_BUTTON_LEFT` of the external header `ogc/pad.h`. -/
def PAD_BUTTON_LEFT : Nat := 0x0001

/-- The button mask `PAD_BUTTON_RIGHT` of `ogc/pad.h`. -/
def PAD_BUTTON_RIGHT : Nat := 0x0002

/-- The button mask `PAD_BUTTON_DOWN` of `ogc/pad.h`. -/
def PAD_BUTTON_DOWN : Nat := 0x0004

/-- The button mask `PAD_BUTTON_UP` of `ogc/pad.h`. -/
def PAD_BUTTON_UP : Nat := 0x0008

/-- The button mask `PAD_TRIGGER_Z` of `ogc/pad.h`. -/
def PAD_TRIGGER_Z : Nat := 0x0010

/-- The button mask `PAD_TRIGGER_R` of `ogc/pad.h`. -/
def PAD_TRIGGER_R : Nat := 0x0020

/-- The button mask `PAD_TRIGGER_L` of `ogc/pad.h`. -/
def PAD_TRIGGER_L : Nat := 0x0040

/-- The button mask `PAD_BUTTON_A` of `ogc/pad.h`. -/
def PAD_BUTTON_A : Nat := 0x0100

/-- The button mask `PAD_BUTTON_B` of `ogc/pad.h`. -/
def PAD_BUTTON_B : Nat := 0x0200

/-- The button mask `PAD_BUTTON_X` of `ogc/pad.h`. -/
def PAD_BUTTON_X : Nat := 0x0400

/-- The button mask `PAD_BUTTON_Y` of `ogc/pad.h`. -/
def PAD_BUTTON_Y : Nat := 0x0800

/-- The button mask `PAD_BUTTON_START` of `ogc/pad.h`. -/
def PAD_BUTTON_START : Nat := 0x1000

/-- Modelled from the spec: the hat position `SDL_HAT_CENTERED` of
`SDL_joystick.h` (not among the sources). -/
def SDL_HAT_CENTERED : Nat := 0x00

/-- Modelled from the spec: the hat position `SDL_HAT_UP` of `SDL_joystick.h`
(not among the sources). -/
def SDL_HAT_UP : Nat := 0x01

/-- Modelled from the spec: the hat position `SDL_HAT_RIGHT` of
`SDL_joystick.h` (not among the sources). -/
def SDL_HAT_RIGHT : Nat := 0x02

/-- Modelled from the spec: the hat position `SDL_HAT_DOWN` of `SDL_joystick.h`
(not among the sources). -/
def SDL_HAT_DOWN : Nat := 0x04

/-- Modelled from the spec: the hat position `SDL_HAT_LEFT` of `SDL_joystick.h`
(not among the sources). -/
def SDL_HAT_LEFT : Nat := 0x08

/-- Modelled from the spec: the button state `SDL_PRESSED` of `SDL_events.h`
(not among the sources). -/
def SDL_PRESSED : Nat := 1

/-- Modelled from the spec: the button state `SDL_RELEASED` of `SDL_events.h`
(not among the sources). -/
def SDL_RELEASED : Nat := 0

/-- The table `sdl_buttons_wii` (lines 99-121). -/
def sdl_buttons_wii : List Nat :=
  [WPAD_BUTTON_A, WPAD_BUTTON_B, WPAD_BUTTON_1, WPAD_BUTTON_2, WPAD_BUTTON_MINUS,
    WPAD_BUTTON_PLUS, WPAD_BUTTON_HOME, WPAD_NUNCHUK_BUTTON_Z, WPAD_NUNCHUK_BUTTON_C,
    WPAD_CLASSIC_BUTTON_A, WPAD_CLASSIC_BUTTON_B, WPAD_CLASSIC_BUTTON_X, WPAD_CLASSIC_BUTTON_Y,
    WPAD_CLASSIC_BUTTON_FULL_L, WPAD_CLASSIC_BUTTON_FULL_R, WPAD_CLASSIC_BUTTON_ZL,
    WPAD_CLASSIC_BUTTON_ZR, WPAD_CLASSIC_BUTTON_MINUS, WPAD_CLASSIC_BUTTON_PLUS,
    WPAD_CLASSIC_BUTTON_HOME]

/-- The table `sdl_buttons_gc` (lines 123-133). -/
def sdl_buttons_gc : List Nat :=
  [PAD_BUTTON_A, PAD_BUTTON_B, PAD_BUTTON_X, PAD_BUTTON_Y, PAD_TRIGGER_Z, PAD_TRIGGER_R,
    PAD_TRIGGER_L, PAD_BUTTON_START]

/-- The function `wii_button_is_nunchuk` (lines 145-148). -/
def wii_button_is_nunchuk (idx : Nat) : Bool := idx == 7 || idx == 8

/-- The function `wii_button_is_classic` (lines 150-153). -/
def wii_button_is_classic (idx : Nat) : Bool := decide (idx ≥ 9)

/-- The record `joystick_paddata`: the remembered state of a GameCube pad.
`prev_buttons` is a `u16`, the sticks are `s8`, the triggers `u8`. -/
structure joystick_paddata where
  prev_buttons : Nat
  stickX : Int
  stickY : Int
  substickX : Int
  substickY : Int
  triggerL : Int
  triggerR : Int
  deriving DecidableEq, Repr

/-- The record `joystick_wpaddata`: the remembered state of a Wii remote.
`prev_buttons` is a `u32`, sticks and orientation are `s8`, the triggers
`u8`. -/
structure joystick_wpaddata where
  prev_buttons : Nat
  nunchuk_stickX : Int
  nunchuk_stickY : Int
  classicL_stickX : Int
  classicL_stickY : Int
  classicR_stickX : Int
  classicR_stickY : Int
  classic_triggerL : Int
  classic_triggerR : Int
  wiimote_pitch : Int
  wiimote_roll : Int
  wiimote_yaw : Int
  deriving DecidableEq, Repr

/-- The record `struct joystick_hwdata`.  In C the two remembered states share
storage (a union); a joystick only ever uses the one its `type` selects, so
they are kept as two fields. -/
structure joystick_hwdata where
  index : Int
  type : Int
  gamecube : joystick_paddata
  wiimote : joystick_wpaddata
  deriving DecidableEq, Repr

/-- Modelled from the spec: the fields of `SDL_Joystick` (`SDL_sysjoystick.h`,
not among the sources) the driver uses; `hwdata` is `none` for a null
pointer. -/
structure SDL_Joystick where
  hwdata : Option joystick_hwdata
  nbuttons : Nat
  naxes : Nat
  nhats : Nat
  deriving DecidableEq, Repr

/-- What `ogc/pad.h` answers for one GameCube pad. -/
structure GCReading where
  buttons : Nat
  stickX : Int
  stickY : Int
  substickX : Int
  substickY : Int
  triggerL : Int
  triggerR : Int
  deriving DecidableEq, Repr

/-- What `wiiuse/wpad.h` answers for one Wii remote channel: the held buttons,
the result of `WPAD_Probe` and the expansion type it stores, and the values of
the expressions the driver computes in floating point from the data of the
remote: the four results of `WPAD_Stick` (left or right stick, x or y), the
two shoulder values `exp.classic.r_shoulder*255` and
`exp.classic.l_shoulder*255` as converted to `int`, and the results of
`WPAD_Pitch`, `WPAD_Roll` and `WPAD_Yaw`. -/
structure WiiReading where
  buttons : Nat
  probe : Int
  exp_type : Nat
  stickL_X : Int
  stickL_Y : Int
  stickR_X : Int
  stickR_Y : Int
  r_shoulder : Int
  l_shoulder : Int
  pitch : Int
  roll : Int
  yaw : Int
  deriving DecidableEq, Repr

/-- The readings of all pads at one poll, by GameCube pad number and by Wii
remote channel (both `int` arguments of the library calls). -/
structure PadHardware where
  gc : Int → GCReading
  wii : Int → WiiReading

/-- A call the joystick driver makes into code it does not define, with the
values of its argument expressions.  For `SDL_PrivateJoystickAxis` the logged
value is the `int` the driver computes; the callee declares the parameter as
`Sint16`, so what it receives is `to_s16` of the logged value. -/
inductive JoyCall where
  | SDL_malloc
  | SDL_OutOfMemory
  | WPAD_Init
  | PAD_Init
  | SDL_PrivateJoystickAdded (device_index : Int)
  | WPAD_ScanPads
  | PAD_ScanPads
  | WPAD_ButtonsHeld (chan : Int)
  | WPAD_Probe (chan : Int)
  | WPAD_Data (chan : Int)
  | WPAD_Expansion (chan : Int)
  | PAD_ButtonsHeld (pad : Int)
  | PAD_StickX (pad : Int)
  | PAD_StickY (pad : Int)
  | PAD_SubStickX (pad : Int)
  | PAD_SubStickY (pad : Int)
  | PAD_TriggerL (pad : Int)
  | PAD_TriggerR (pad : Int)
  | SDL_PrivateJoystickHat (hat value : Nat)
  | SDL_PrivateJoystickButton (button state : Nat)
  | SDL_PrivateJoystickAxis (axis : Nat) (value : Int)
  deriving DecidableEq, Repr

/-- The remembered state and the log while an update handler runs. -/
structure JoyState where
  hwdata : joystick_hwdata
  log : List JoyCall
  deriving DecidableEq, Repr

/-- Appends one external call to the log. -/
def JoyState.call (st : JoyState) (c : JoyCall) : JoyState := { st with log := st.log ++ [c] }

/-- The button loops of lines 276-285 and 401-406: for every table index that is
not skipped and whose mask has a changed bit, one call of
`SDL_PrivateJoystickButton`. -/
def button_calls (table : List Nat) (skip : Nat → Bool) (changed buttons : Nat) :
    List JoyCall :=
  (List.range table.length).filterMap (fun i =>
    if skip i then none
    else if changed &&& table.getD i 0 != 0 then
      some (JoyCall.SDL_PrivateJoystickButton i
        (if buttons &&& table.getD i 0 != 0 then SDL_PRESSED else SDL_RELEASED))
    else none)

/-- Stores into the `wiimote` member of the remembered state. -/
def JoyState.setWiimote (st : JoyState) (f : joystick_wpaddata → joystick_wpaddata) :
    JoyState :=
  { st with hwdata := { st.hwdata with wiimote := f st.hwdata.wiimote } }

/-- Stores into the `gamecube` member of the remembered state. -/
def JoyState.setGamecube (st : JoyState) (f : joystick_paddata → joystick_paddata) :
    JoyState :=
  { st with hwdata := { st.hwdata with gamecube := f st.hwdata.gamecube } }

/-- The function `WPAD_Orient` (lines 155-167).  The floating point expression
`(out / 180.0) * 128.0` is the reading; the function returns it as `s16`. -/
def WPAD_Orient (data : WiiReading) (motion : Int) : Int :=
  to_s16 (if motion = 0 then data.pitch else if motion = 1 then data.roll else data.yaw)

/-- The function `WPAD_Pitch` (lines 169-172). -/
def WPAD_Pitch (data : WiiReading) : Int := WPAD_Orient data 0

/-- The function `WPAD_Roll` (lines 174-177). -/
def WPAD_Roll (data : WiiReading) : Int := WPAD_Orient data 1

/-- The function `WPAD_Yaw` (lines 179-182). -/
def WPAD_Yaw (data : WiiReading) : Int := WPAD_Orient data 2

/-- The function `WPAD_Stick` (lines 184-227).  The floating point expression
`val * 128.0f` for the chosen stick (`right`) and direction (`axis`) is the
reading; the function returns it as `s16`. -/
def WPAD_Stick (data : WiiReading) (right : Nat) (axis : Int) : Int :=
  to_s16 (if right = 0 then (if axis = 0 then data.stickL_X else data.stickL_Y)
    else (if axis = 0 then data.stickR_X else data.stickR_Y))

/-- The clamping of lines 293-296, written out again at lines 303-306, 340-343
and 350-353: the local `s16 value`. -/
def clamped_value (axis : Int) : Int :=
  if axis ≥ 128 then AXIS_MAX
  else if axis ≤ -128 then AXIS_MIN
  else to_s16 (axis * 256)

/-- The pattern every axis block of the two update handlers follows, for
instance lines 311-315: `if (prev != axis) { SDL_PrivateJoystickAxis(joystick,
number, value); prev = axis; }`, where `store` is the assignment to the
remembered field. -/
def axis_block (st : JoyState) (prev axis : Int) (number : Nat) (value : Int)
    (store : JoyState → JoyState) : JoyState :=
  if prev ≠ axis then store (st.call (JoyCall.SDL_PrivateJoystickAxis number value)) else st

/-- The hat value of lines 255-259: the classic controller d-pad. -/
def classic_hat (buttons : Nat) : Nat :=
  let hat : Nat := SDL_HAT_CENTERED
  let hat : Nat := if buttons &&& WPAD_CLASSIC_BUTTON_UP ≠ 0 then hat ||| SDL_HAT_UP else hat
  let hat : Nat := if buttons &&& WPAD_CLASSIC_BUTTON_DOWN ≠ 0 then hat ||| SDL_HAT_DOWN else hat
  let hat : Nat := if buttons &&& WPAD_CLASSIC_BUTTON_LEFT ≠ 0 then hat ||| SDL_HAT_LEFT else hat
  let hat : Nat :=
    if buttons &&& WPAD_CLASSIC_BUTTON_RIGHT ≠ 0 then hat ||| SDL_HAT_RIGHT else hat
  hat

/-- The hat value of lines 267-271: the d-pad of the remote, held sideways. -/
def wiimote_hat (buttons : Nat) : Nat :=
  let hat : Nat := SDL_HAT_CENTERED
  let hat : Nat := if buttons &&& WPAD_BUTTON_UP ≠ 0 then hat ||| SDL_HAT_LEFT else hat
  let hat : Nat := if buttons &&& WPAD_BUTTON_DOWN ≠ 0 then hat ||| SDL_HAT_RIGHT else hat
  let hat : Nat := if buttons &&& WPAD_BUTTON_LEFT ≠ 0 then hat ||| SDL_HAT_DOWN else hat
  let hat : Nat := if buttons &&& WPAD_BUTTON_RIGHT ≠ 0 then hat ||| SDL_HAT_UP else hat
  hat

/-- The hat value of lines 393-397: the d-pad of a GameCube pad. -/
def gc_hat (buttons : Nat) : Nat :=
  let hat : Nat := SDL_HAT_CENTERED
  let hat : Nat := if buttons &&& PAD_BUTTON_UP ≠ 0 then hat ||| SDL_HAT_UP else hat
  let hat : Nat := if buttons &&& PAD_BUTTON_DOWN ≠ 0 then hat ||| SDL_HAT_DOWN else hat
  let hat : Nat := if buttons &&& PAD_BUTTON_LEFT ≠ 0 then hat ||| SDL_HAT_LEFT else hat
  let hat : Nat := if buttons &&& PAD_BUTTON_RIGHT ≠ 0 then hat ||| SDL_HAT_RIGHT else hat
  hat

/-- Lines 250-274 of `_HandleWiiJoystickUpdate`: the hat report. -/
def wii_hat_block (st : JoyState) (exp_type changed buttons : Nat) : JoyState :=
  if exp_type = WPAD_EXP_CLASSIC then
    if changed &&& (WPAD_CLASSIC_BUTTON_LEFT ||| WPAD_CLASSIC_BUTTON_RIGHT |||
        WPAD_CLASSIC_BUTTON_DOWN ||| WPAD_CLASSIC_BUTTON_UP) ≠ 0 then
      st.call (JoyCall.SDL_PrivateJoystickHat 0 (classic_hat buttons))
    else st
  else
    if changed &&& (WPAD_BUTTON_LEFT ||| WPAD_BUTTON_RIGHT ||| WPAD_BUTTON_DOWN |||
        WPAD_BUTTON_UP) ≠ 0 then
      st.call (JoyCall.SDL_PrivateJoystickHat 0 (wiimote_hat buttons))
    else st

/-- Lines 276-286 of `_HandleWiiJoystickUpdate`: the button loop and the store
of the held buttons. -/
def wii_button_block (st : JoyState) (exp_type changed buttons : Nat) : JoyState :=
  let st : JoyState :=
    { st with
      log := st.log ++ button_calls sdl_buttons_wii
        (fun i => (decide (exp_type = WPAD_EXP_CLASSIC) && wii_button_is_nunchuk i) ||
          (decide (exp_type = WPAD_EXP_NUNCHUK) && wii_button_is_classic i))
        changed buttons }
  st.setWiimote (fun p => { p with prev_buttons := buttons })

/-- Lines 290-333 of `_HandleWiiJoystickUpdate`: the axes of a classic
controller. -/
def wii_classic_block (st : JoyState) (data exp : WiiReading) : JoyState :=
  let axis : Int := WPAD_Stick data 0 0
  let st : JoyState := axis_block st st.hwdata.wiimote.classicL_stickX axis 0
    (clamped_value axis)
    (fun s => s.setWiimote (fun p => { p with classicL_stickX := to_s8 axis }))
  let axis : Int := WPAD_Stick data 0 1
  let st : JoyState := axis_block st st.hwdata.wiimote.classicL_stickY axis 1
    (-(clamped_value axis))
    (fun s => s.setWiimote (fun p => { p with classicL_stickY := to_s8 axis }))
  let axis : Int := WPAD_Stick data 1 0
  let st : JoyState := axis_block st st.hwdata.wiimote.classicR_stickX axis 2
    (axis * 256)
    (fun s => s.setWiimote (fun p => { p with classicR_stickX := to_s8 axis }))
  let axis : Int := WPAD_Stick data 1 1
  let st : JoyState := axis_block st st.hwdata.wiimote.classicR_stickY axis 3
    (-(axis * 256))
    (fun s => s.setWiimote (fun p => { p with classicR_stickY := to_s8 axis }))
  let axis : Int := exp.r_shoulder
  let st : JoyState := axis_block st st.hwdata.wiimote.classic_triggerR axis 4
    (axis * 128)
    (fun s => s.setWiimote (fun p => { p with classic_triggerR := to_u8 axis }))
  let axis : Int := exp.l_shoulder
  let st : JoyState := axis_block st st.hwdata.wiimote.classic_triggerL axis 5
    (axis * 128)
    (fun s => s.setWiimote (fun p => { p with classic_triggerL := to_u8 axis }))
  st

/-- Lines 337-356 of `_HandleWiiJoystickUpdate`: the axes of a nunchuk. -/
def wii_nunchuk_block (st : JoyState) (data : WiiReading) : JoyState :=
  let axis : Int := WPAD_Stick data 0 0
  let st : JoyState := axis_block st st.hwdata.wiimote.nunchuk_stickX axis 0
    (clamped_value axis)
    (fun s => s.setWiimote (fun p => { p with nunchuk_stickX := to_s8 axis }))
  let axis : Int := WPAD_Stick data 0 1
  let st : JoyState := axis_block st st.hwdata.wiimote.nunchuk_stickY axis 1
    (-(clamped_value axis))
    (fun s => s.setWiimote (fun p => { p with nunchuk_stickY := to_s8 axis }))
  st

/-- Lines 359-376 of `_HandleWiiJoystickUpdate`: the orientation axes. -/
def wii_orient_block (st : JoyState) (data : WiiReading) : JoyState :=
  let axis : Int := WPAD_Pitch data
  let st : JoyState := axis_block st st.hwdata.wiimote.wiimote_pitch axis 6
    (-(axis * 256))
    (fun s => s.setWiimote (fun p => { p with wiimote_pitch := to_s8 axis }))
  let axis : Int := WPAD_Roll data
  let st : JoyState := axis_block st st.hwdata.wiimote.wiimote_roll axis 7
    (axis * 256)
    (fun s => s.setWiimote (fun p => { p with wiimote_roll := to_s8 axis }))
  let axis : Int := WPAD_Yaw data
  let st : JoyState := axis_block st st.hwdata.wiimote.wiimote_yaw axis 8
    (axis * 256)
    (fun s => s.setWiimote (fun p => { p with wiimote_yaw := to_s8 axis }))
  st

/-- The function `_HandleWiiJoystickUpdate` (lines 229-377), as the sequence of
its blocks.  `axis << 8` is `axis * 256` and `axis << 7` is `axis * 128` on
`int`; an assignment to a remembered field converts to the type of the
field. -/
def _HandleWiiJoystickUpdate (hw : PadHardware) (st : JoyState) (device_index : Int) :
    JoyState :=
  let buttons : Nat := to_u32 (hw.wii device_index).buttons
  let st : JoyState := st.call (JoyCall.WPAD_ButtonsHeld device_index)
  let st : JoyState := st.call (JoyCall.WPAD_Probe device_index)
  let exp_type : Nat :=
    if (hw.wii device_index).probe ≠ 0 then WPAD_EXP_NONE else (hw.wii device_index).exp_type
  let data : WiiReading := hw.wii device_index
  let st : JoyState := st.call (JoyCall.WPAD_Data device_index)
  let exp : WiiReading := hw.wii device_index
  let st : JoyState := st.call (JoyCall.WPAD_Expansion device_index)
  let prev_buttons : Nat := st.hwdata.wiimote.prev_buttons
  let changed : Nat := buttons ^^^ prev_buttons
  let st : JoyState := wii_hat_block st exp_type changed buttons
  let st : JoyState := wii_button_block st exp_type changed buttons
  let st : JoyState :=
    if exp_type = WPAD_EXP_CLASSIC then wii_classic_block st data exp
    else if exp_type = WPAD_EXP_NUNCHUK then wii_nunchuk_block st data
    else st
  wii_orient_block st data

/-- Lines 386-408 of `_HandleGCJoystickUpdate`: the held buttons, the hat
report, the button loop and the store of the held buttons. -/
def gc_button_block (hw : PadHardware) (st : JoyState) (device_index : Int) : JoyState :=
  let buttons : Nat := to_u16 (hw.gc (device_index - 4)).buttons
  let st : JoyState := st.call (JoyCall.PAD_ButtonsHeld (device_index - 4))
  let prev_buttons : Nat := st.hwdata.gamecube.prev_buttons
  let changed : Nat := buttons ^^^ prev_buttons
  let st : JoyState :=
    if changed &&& (PAD_BUTTON_LEFT ||| PAD_BUTTON_RIGHT ||| PAD_BUTTON_DOWN |||
        PAD_BUTTON_UP) ≠ 0 then
      st.call (JoyCall.SDL_PrivateJoystickHat 0 (gc_hat buttons))
    else st
  let st : JoyState :=
    { st with log := st.log ++ button_calls sdl_buttons_gc (fun _ => false) changed buttons }
  st.setGamecube (fun p => { p with prev_buttons := buttons })

/-- Lines 409-435 of `_HandleGCJoystickUpdate`: the two sticks. -/
def gc_stick_block (hw : PadHardware) (st : JoyState) (device_index : Int) : JoyState :=
  let axis : Int := to_s8 (hw.gc (device_index - 4)).stickX
  let st : JoyState := st.call (JoyCall.PAD_StickX (device_index - 4))
  let st : JoyState := axis_block st st.hwdata.gamecube.stickX axis 0
    (axis * 256)
    (fun s => s.setGamecube (fun p => { p with stickX := to_s8 axis }))
  let axis : Int := to_s8 (hw.gc (device_index - 4)).stickY
  let st : JoyState := st.call (JoyCall.PAD_StickY (device_index - 4))
  let st : JoyState := axis_block st st.hwdata.gamecube.stickY axis 1
    ((-axis) * 256)
    (fun s => s.setGamecube (fun p => { p with stickY := to_s8 axis }))
  let axis : Int := to_s8 (hw.gc (device_index - 4)).substickX
  let st : JoyState := st.call (JoyCall.PAD_SubStickX (device_index - 4))
  let st : JoyState := axis_block st st.hwdata.gamecube.substickX axis 2
    (axis * 256)
    (fun s => s.setGamecube (fun p => { p with substickX := to_s8 axis }))
  let axis : Int := to_s8 (hw.gc (device_index - 4)).substickY
  let st : JoyState := st.call (JoyCall.PAD_SubStickY (device_index - 4))
  let st : JoyState := axis_block st st.hwdata.gamecube.substickY axis 3
    ((-axis) * 256)
    (fun s => s.setGamecube (fun p => { p with substickY := to_s8 axis }))
  st

/-- Lines 437-449 of `_HandleGCJoystickUpdate`: the two triggers. -/
def gc_trigger_block (hw : PadHardware) (st : JoyState) (device_index : Int) : JoyState :=
  let axis : Int := to_u8 (hw.gc (device_index - 4)).triggerL
  let st : JoyState := st.call (JoyCall.PAD_TriggerL (device_index - 4))
  let st : JoyState := axis_block st st.hwdata.gamecube.triggerL axis 4
    (axis * 128)
    (fun s => s.setGamecube (fun p => { p with triggerL := to_u8 axis }))
  let axis : Int := to_u8 (hw.gc (device_index - 4)).triggerR
  let st : JoyState := st.call (JoyCall.PAD_TriggerR (device_index - 4))
  let st : JoyState := axis_block st st.hwdata.gamecube.triggerR axis 5
    (axis * 128)
    (fun s => s.setGamecube (fun p => { p with triggerR := to_u8 axis }))
  st

/-- The function `_HandleGCJoystickUpdate` (lines 379-450), as the sequence of
its blocks.  The library returns the held buttons as `u16`, the sticks as `s8`
and the triggers as `u8`; every read is made at pad `device_index - 4`. -/
def _HandleGCJoystickUpdate (hw : PadHardware) (st : JoyState) (device_index : Int) :
    JoyState :=
  let st : JoyState := gc_button_block hw st device_index
  let st : JoyState := gc_stick_block hw st device_index
  gc_trigger_block hw st device_index

/-- The all-zero `struct joystick_hwdata` that `SDL_memset` leaves (line 566). -/
def zeroed_hwdata : joystick_hwdata :=
  { index := 0, type := 0,
    gamecube :=
      { prev_buttons := 0, stickX := 0, stickY := 0, substickX := 0, substickY := 0,
        triggerL := 0, triggerR := 0 },
    wiimote :=
      { prev_buttons := 0, nunchuk_stickX := 0, nunchuk_stickY := 0, classicL_stickX := 0,
        classicL_stickY := 0, classicR_stickX := 0, classicR_stickY := 0,
        classic_triggerL := 0, classic_triggerR := 0, wiimote_pitch := 0, wiimote_roll := 0,
        wiimote_yaw := 0 } }

/-- The function `Wii_JoystickOpen` (lines 556-591).  `malloc_ok` tells whether
`SDL_malloc` returns memory.  The result is the return value, the joystick and
the external calls made. -/
def Wii_JoystickOpen (joystick : SDL_Joystick) (device_index : Int) (malloc_ok : Bool) :
    Int × SDL_Joystick × List JoyCall :=
  if !malloc_ok then
    (-1, { joystick with hwdata := none }, [JoyCall.SDL_malloc, JoyCall.SDL_OutOfMemory])
  else
    let joystick := { joystick with hwdata := some zeroed_hwdata }
    let joystick :=
      if device_index < 4 ∧ __jswpad_enabled ≠ 0 then
        if device_index < __numwiijoysticks then
          { joystick with
            hwdata := some { zeroed_hwdata with index := device_index, type := 0 },
            nbuttons := MAX_WII_BUTTONS, naxes := MAX_WII_AXES, nhats := MAX_WII_HATS }
        else joystick
      else if device_index < 8 ∧ __jspad_enabled ≠ 0 then
        if device_index < __numgcjoysticks + 4 then
          { joystick with
            hwdata := some { zeroed_hwdata with index := device_index - 4, type := 1 },
            nbuttons := MAX_GC_BUTTONS, naxes := MAX_GC_AXES, nhats := MAX_GC_HATS }
        else joystick
      else joystick
    (0, joystick, [JoyCall.SDL_malloc])

/-- The function `Wii_JoystickUpdate` (lines 670-698); `joystick` is `none` for
a null pointer.  The result is the joystick after the update and the external
calls made, in call order. -/
def Wii_JoystickUpdate (hw : PadHardware) (joystick : Option SDL_Joystick) :
    Option SDL_Joystick × List JoyCall :=
  match joystick with
  | none => (none, [])
  | some js =>
    match js.hwdata with
    | none => (some js, [])
    | some j =>
      let st : JoyState := { hwdata := j, log := [JoyCall.WPAD_ScanPads, JoyCall.PAD_ScanPads] }
      let st :=
        if j.type = 0 then
          if __jswpad_enabled ≠ 0 then _HandleWiiJoystickUpdate hw st j.index else st
        else if j.type = 1 then
          if __jspad_enabled ≠ 0 then _HandleGCJoystickUpdate hw st j.index else st
        else st
      (some { js with hwdata := some st.hwdata }, st.log)

/-- Example: a GameCube pad at rest. -/
def gc_rest : GCReading :=
  { buttons := 0, stickX := 0, stickY := 0, substickX := 0, substickY := 0, triggerL := 0,
    triggerR := 0 }

/-- Example: a Wii remote at rest with no expansion. -/
def wii_rest : WiiReading :=
  { buttons := 0, probe := 0, exp_type := WPAD_EXP_NONE, stickL_X := 0, stickL_Y := 0,
    stickR_X := 0, stickR_Y := 0, r_shoulder := 0, l_shoulder := 0, pitch := 0, roll := 0,
    yaw := 0 }

/-- Example: a joystick record before it is opened. -/
def example_joystick : SDL_Joystick := { hwdata := none, nbuttons := 0, naxes := 0, nhats := 0 }

/-- Example: a classic controller on every channel whose left stick is pushed
fully up (`WPAD_Stick` gives 128 for its y direction), everything else at
rest. -/
def example_pads_classic_up : PadHardware :=
  { gc := fun _ => gc_rest,
    wii := fun _ => { wii_rest with exp_type := WPAD_EXP_CLASSIC, stickL_Y := 128 } }

/-- Example: a bare remote on every channel rolled to 180 degrees (`WPAD_Roll`
gives 128), everything else at rest. -/
def example_pads_rolled : PadHardware :=
  { gc := fun _ => gc_rest,
    wii := fun _ => { wii_rest with roll := 128 } }

/-- Example: a classic controller on every channel whose right stick is pushed
fully right (`WPAD_Stick` gives 128 for its x direction). -/
def example_pads_classic_right : PadHardware :=
  { gc := fun _ => gc_rest,
    wii := fun _ => { wii_rest with exp_type := WPAD_EXP_CLASSIC, stickR_X := 128 } }

/-- Example: a classic controller on every channel whose left stick is pushed
fully down (`WPAD_Stick` gives -128 for its y direction). -/
def example_pads_classic_down : PadHardware :=
  { gc := fun _ => gc_rest,
    wii := fun _ => { wii_rest with exp_type := WPAD_EXP_CLASSIC, stickL_Y := -128 } }

/-- Example: every GameCube pad number has its main stick at the reading -128
in the y direction. -/
def example_pads_gc_down : PadHardware :=
  { gc := fun _ => { gc_rest with stickY := -128 },
    wii := fun _ => wii_rest }

/-- Example: the joystick opened at device index 0 (the first Wii remote). -/
def example_wii_joystick : SDL_Joystick := (Wii_JoystickOpen example_joystick 0 true).2.1

/-- Example: the joystick opened at device index 4 (the first GameCube pad). -/
def example_gc_joystick : SDL_Joystick := (Wii_JoystickOpen example_joystick 4 true).2.1

/-! ## Executions that end in a teardown -/

/-- One step in the life of an open device: an event of the play loop, or the
call of `OGCAUD_CloseDevice` that tears the device down.  The close is made by
the thread that destroys the device, not by the producer, so it can happen
while the producer sleeps inside `LWP_ThreadSleep`. -/
inductive DeviceEvent where
  | loop (e : Event)
  | close
  deriving DecidableEq, Repr

/-- The effect of one step in the life of an open device. -/
def step_with_close (NUM_BUFFERS : Nat) (w : World) : DeviceEvent → Except Fault World
  | DeviceEvent.loop e => step NUM_BUFFERS w e
  | DeviceEvent.close => OGCAUD_CloseDevice w

/-- The effect of a sequence of steps in the life of an open device, stopping at
the first fault. -/
def run_with_close (NUM_BUFFERS : Nat) (w : World) : List DeviceEvent → Except Fault World
  | [] => Except.ok w
  | e :: es =>
    match step_with_close NUM_BUFFERS w e with
    | Except.error f => Except.error f
    | Except.ok w1 => run_with_close NUM_BUFFERS w1 es

/-! ## Facts about `OGCAUD_OpenDevice` -/

/-- The mask `~63` clears the low six bits of a 32-bit value. -/
theorem land_mask64 (x : Nat) (hx : x < 2 ^ 32) : x &&& 0xFFFFFFC0 = x / 64 * 64 := by
  apply Nat.eq_of_testBit_eq
  intro i
  have h1 : (0xFFFFFFC0 : Nat) = 2 ^ 6 * (2 ^ 26 - 1) := by norm_num
  have h2 : x / 64 * 64 = 2 ^ 6 * (x >>> 6) := by
    rw [Nat.shiftRight_eq_div_pow]; norm_num [Nat.mul_comm]
  rw [Nat.testBit_and, h1, h2, Nat.testBit_mul_pow_two, Nat.testBit_mul_pow_two,
    Nat.testBit_two_pow_sub_one, Nat.testBit_shiftRight]
  by_cases h6 : 6 ≤ i
  · have : 6 + (i - 6) = i := by omega
    simp only [ge_iff_le, h6, decide_True, Bool.true_and, this]
    by_cases h32 : i - 6 < 26
    · simp [h32]
    · have hi : 32 ≤ i := by omega
      have : x.testBit i = false := by
        apply Nat.testBit_lt_two_pow
        exact lt_of_lt_of_le hx (Nat.pow_le_pow_right (by norm_num) hi)
      simp [this]
  · simp [h6]

/-- The alignment macro rounds up to a multiple of 64. -/
theorem OGC_AUDIO_SAMPLE_ALIGN_eq (s : Nat) (hs : s < 2 ^ 16) :
    OGC_AUDIO_SAMPLE_ALIGN s = (s + 63) / 64 * 64 := by
  unfold OGC_AUDIO_SAMPLE_ALIGN
  apply land_mask64
  have : (2 : Nat) ^ 16 + 63 < 2 ^ 32 := by norm_num
  omega

/-- What a successful `OGCAUD_OpenDevice` leaves behind. -/
theorem OGCAUD_OpenDevice_ok {N : Nat} {env : OpenEnv} {w0 w : World}
    (h : OGCAUD_OpenDevice N env w0 = (0, w)) :
    ∃ hd, (OGCAUD_OpenDevice_switch w0.dev.spec (zeroed_hidden N)).2 = some hd ∧
      env.hidden_ok = true ∧ env.rawbuf ≠ 0 ∧
      w.dev.spec =
        OGCAUD_OpenDevice_spec (OGCAUD_OpenDevice_switch w0.dev.spec (zeroed_hidden N)).1 ∧
      w.dev.hidden = some { hd with
        rawbuf := env.rawbuf, volume := OGC_AUDIO_MAX_VOLUME, channel := 0, first_time := 1,
        queue := env.queue,
        mixbufs := (List.range N).map (fun i => env.rawbuf + (i * w.dev.spec.size) % 2 ^ 32),
        next_buffer := 0, cur_buffer := 0 } ∧
      w.s_callback_data = w0.s_callback_data.set 0 true ∧
      w.asleep = w0.asleep ∧ w.hw = w0.hw ∧
      w.trace = w0.trace ++ [Call.SDL_malloc, Call.memalign 64 ((w.dev.spec.size * N) % 2 ^ 32),
        Call.LWP_InitQueue, Call.SDL_memset env.rawbuf 0 ((w.dev.spec.size * N) % 2 ^ 32),
        Call.ASND_Init, Call.ASND_ChangeVolumeVoice 0 OGC_AUDIO_MAX_VOLUME OGC_AUDIO_MAX_VOLUME,
        Call.ASND_Pause 0] := by
  unfold OGCAUD_OpenDevice at h
  simp only [] at h
  split at h
  · simp [SDL_ERROR_RETURN] at h
  · rename_i hok
    split at h
    · simp [SDL_ERROR_RETURN] at h
    · rename_i hd hsw
      split at h
      · simp [SDL_ERROR_RETURN] at h
      · rename_i hraw
        simp only [Prod.mk.injEq, true_and] at h
        subst h
        refine ⟨hd, ?_, ?_, ?_, ?_, ?_, ?_, ?_, ?_, ?_⟩
        · simpa [World.log, World.setSpec] using hsw
        · simpa using hok
        · simpa using hraw
        all_goals simp [World.log, World.setSpec, World.setHidden]

/-- When the format switch lets a request through, the request was signed with
8 or 16 bits, and the outcome is signed 16-bit with one or two channels and the
matching 16-bit voice type. -/
theorem OGCAUD_OpenDevice_switch_some {spec : SDL_AudioSpec} {h h1 : SDL_PrivateAudioData}
    (hs : (OGCAUD_OpenDevice_switch spec h).2 = some h1) :
    (SDL_AUDIO_BITSIZE spec.format = 8 ∨ SDL_AUDIO_BITSIZE spec.format = 16) ∧
      SDL_AUDIO_ISSIGNED spec.format = true ∧
      (OGCAUD_OpenDevice_switch spec h).1 =
        { spec with format := AUDIO_S16SYS, channels := if spec.channels = 1 then 1 else 2 } ∧
      h1 = { h with output_type :=
        if spec.channels = 1 then VoiceType.VOICE_MONO_16BIT else VoiceType.VOICE_STEREO_16BIT } := by
  have s8 : SDL_AUDIO_ISSIGNED AUDIO_S8 = true := by decide
  have u8 : SDL_AUDIO_ISSIGNED AUDIO_U8 = false := by decide
  unfold OGCAUD_OpenDevice_switch at hs ⊢
  by_cases h8 : SDL_AUDIO_BITSIZE spec.format = 8
  · by_cases hsg : SDL_AUDIO_ISSIGNED spec.format = true
    · by_cases hch : spec.channels = 1
      · simp [h8, hsg, hch, OGCAUD_OpenDevice_case8, OGCAUD_OpenDevice_case16,
          SDL_AUDIO_ISUNSIGNED, s8] at hs ⊢
        exact hs.symm
      · simp [h8, hsg, hch, OGCAUD_OpenDevice_case8, OGCAUD_OpenDevice_case16,
          SDL_AUDIO_ISUNSIGNED, s8] at hs ⊢
        exact hs.symm
    · by_cases hch : spec.channels = 1
      · simp [h8, hsg, hch, OGCAUD_OpenDevice_case8, OGCAUD_OpenDevice_case16,
          SDL_AUDIO_ISUNSIGNED, u8] at hs
      · simp [h8, hsg, hch, OGCAUD_OpenDevice_case8, OGCAUD_OpenDevice_case16,
          SDL_AUDIO_ISUNSIGNED, u8] at hs
  · by_cases h16 : SDL_AUDIO_BITSIZE spec.format = 16
    · by_cases hsg : SDL_AUDIO_ISSIGNED spec.format = true
      · by_cases hch : spec.channels = 1
        · simp [h8, h16, hsg, hch, OGCAUD_OpenDevice_case16] at hs ⊢
          exact hs.symm
        · simp [h8, h16, hsg, hch, OGCAUD_OpenDevice_case16] at hs ⊢
          exact hs.symm
      · simp [h8, h16, hsg, OGCAUD_OpenDevice_case16] at hs
    · simp [h8, h16] at hs

/-- The alignment macro always yields a multiple of 64. -/
theorem OGC_AUDIO_SAMPLE_ALIGN_dvd (s : Nat) : 64 ∣ OGC_AUDIO_SAMPLE_ALIGN s := by
  unfold OGC_AUDIO_SAMPLE_ALIGN
  have hle : (s + 63) &&& 0xFFFFFFC0 ≤ 0xFFFFFFC0 := Nat.and_le_right
  have hlt : (s + 63) &&& 0xFFFFFFC0 < 2 ^ 32 := lt_of_le_of_lt hle (by norm_num)
  have h := land_mask64 _ hlt
  rw [Nat.land_assoc, Nat.and_self] at h
  exact Dvd.intro_left _ h.symm

/-- The sample count `OGCAUD_OpenDevice` stores is a multiple of 64 that fits
the 16-bit field. -/
theorem OGCAUD_OpenDevice_spec_samples (spec : SDL_AudioSpec) :
    (OGCAUD_OpenDevice_spec spec).samples = OGC_AUDIO_SAMPLE_ALIGN spec.samples % 2 ^ 16 ∧
      64 ∣ (OGCAUD_OpenDevice_spec spec).samples ∧ (OGCAUD_OpenDevice_spec spec).samples < 2 ^ 16 := by
  have h1 : (OGCAUD_OpenDevice_spec spec).samples = OGC_AUDIO_SAMPLE_ALIGN spec.samples % 2 ^ 16 := by
    unfold OGCAUD_OpenDevice_spec SDL_CalculateAudioSpec
    split <;> simp
  refine ⟨h1, ?_, ?_⟩
  · rw [h1, Nat.dvd_mod_iff (by norm_num : 64 ∣ 2 ^ 16)]
    exact OGC_AUDIO_SAMPLE_ALIGN_dvd _
  · rw [h1]
    exact Nat.mod_lt _ (by norm_num)

/-- The derived byte size in terms of the final fields, and the fields the
derivation leaves alone. -/
theorem OGCAUD_OpenDevice_spec_size (spec : SDL_AudioSpec) :
    (OGCAUD_OpenDevice_spec spec).size =
        (SDL_AUDIO_BITSIZE spec.format / 8 * spec.channels * (OGCAUD_OpenDevice_spec spec).samples)
          % 2 ^ 32 ∧
      (OGCAUD_OpenDevice_spec spec).format = spec.format ∧
      (OGCAUD_OpenDevice_spec spec).channels = spec.channels := by
  unfold OGCAUD_OpenDevice_spec SDL_CalculateAudioSpec
  split <;> simp

/-- The spec a successful `OGCAUD_OpenDevice` leaves: signed 16-bit samples, one
or two channels, an aligned sample count, and a byte size that is the exact
product frames times channels times bytes per sample and a multiple of 64. -/
theorem OGCAUD_OpenDevice_ok_spec {N : Nat} {env : OpenEnv} {w0 w : World}
    (h : OGCAUD_OpenDevice N env w0 = (0, w)) :
    w.dev.spec.format = AUDIO_S16SYS ∧
      w.dev.spec.channels = (if w0.dev.spec.channels = 1 then 1 else 2) ∧
      w.dev.spec.samples = OGC_AUDIO_SAMPLE_ALIGN w0.dev.spec.samples % 2 ^ 16 ∧
      w.dev.spec.size =
        w.dev.spec.samples * w.dev.spec.channels * (SDL_AUDIO_BITSIZE w.dev.spec.format / 8) ∧
      64 ∣ w.dev.spec.size := by
  obtain ⟨hd, hsw, -, -, hspec, -⟩ := OGCAUD_OpenDevice_ok h
  obtain ⟨-, -, hs1, -⟩ := OGCAUD_OpenDevice_switch_some hsw
  rw [hs1] at hspec
  obtain ⟨e1, e2, e3⟩ := OGCAUD_OpenDevice_spec_samples
    { w0.dev.spec with format := AUDIO_S16SYS, channels := if w0.dev.spec.channels = 1 then 1 else 2 }
  obtain ⟨f1, f2, f3⟩ := OGCAUD_OpenDevice_spec_size
    { w0.dev.spec with format := AUDIO_S16SYS, channels := if w0.dev.spec.channels = 1 then 1 else 2 }
  rw [← hspec] at e1 e2 e3 f1 f2 f3
  simp only [] at e1 f1 f2 f3
  have hbits : SDL_AUDIO_BITSIZE AUDIO_S16SYS / 8 = 2 := by decide
  have hch : w.dev.spec.channels ≤ 2 := by
    rw [f3]; split <;> omega
  have hsize : w.dev.spec.size = w.dev.spec.samples * w.dev.spec.channels * 2 := by
    rw [f1, hbits, ← f3]
    have hlt : 2 * w.dev.spec.channels * w.dev.spec.samples < 2 ^ 32 := by
      have h1 : 2 * w.dev.spec.channels * w.dev.spec.samples ≤ 2 * 2 * 2 ^ 16 :=
        Nat.mul_le_mul (Nat.mul_le_mul_left 2 hch) (Nat.le_of_lt e3)
      have h2 : 2 * 2 * 2 ^ 16 < 2 ^ 32 := by norm_num
      omega
    rw [Nat.mod_eq_of_lt hlt]
    ring
  refine ⟨f2, f3, e1, ?_, ?_⟩
  · rw [f2, hbits]
    exact hsize
  · rw [hsize]
    exact Dvd.dvd.mul_right (Dvd.dvd.mul_right e2 _) _

/-- The private record a successful `OGCAUD_OpenDevice` leaves: `NUM_BUFFERS`
slots, both cursors at slot 0, and `first_time` set. -/
theorem OGCAUD_OpenDevice_ok_hidden {N : Nat} {env : OpenEnv} {w0 w : World}
    (h : OGCAUD_OpenDevice N env w0 = (0, w)) :
    ∃ hd, w.dev.hidden = some hd ∧ hd.mixbufs.length = N ∧ hd.next_buffer = 0 ∧
      hd.cur_buffer = 0 ∧ hd.first_time = 1 ∧ hd.channel = 0 ∧ hd.queue = env.queue ∧
      hd.mixbufs = (List.range N).map (fun i => env.rawbuf + (i * w.dev.spec.size) % 2 ^ 32) := by
  obtain ⟨hd, -, -, -, -, hhid, -⟩ := OGCAUD_OpenDevice_ok h
  exact ⟨_, hhid, by simp, rfl, rfl, rfl, rfl, rfl, rfl⟩

/-! ## Facts about the play loop -/

/-- The result of `OGCAUD_PlayDevice` on an open device whose cursor is inside
the slot table. -/
theorem OGCAUD_PlayDevice_eq (N : Nat) (w : World) (h : SDL_PrivateAudioData) (mixbuf : Nat)
    (hh : w.dev.hidden = some h) (hb : h.mixbufs[h.next_buffer]? = some mixbuf) :
    OGCAUD_PlayDevice N w = Except.ok
      { w with
        dev := { w.dev with hidden := some { h with
          cur_buffer := h.next_buffer, first_time := 0,
          next_buffer := (h.next_buffer + 1) % N } },
        trace := w.trace ++ [Call.ASND_StatusVoice h.channel, submitCall w.hw w.dev.spec h mixbuf] } := by
  unfold OGCAUD_PlayDevice
  rw [hh]
  simp only [hb]
  by_cases hc : (ASND_StatusVoice w.hw h.channel == SND_UNUSED || h.first_time != 0) = true
  · simp [submitCall, World.log, World.setHidden, hc]
  · have hft : h.first_time = 0 := by
      simp only [Bool.or_eq_true, not_or, bne_iff_ne, ne_eq, not_not] at hc
      exact hc.2
    simp [submitCall, World.log, World.setHidden, hc]
    cases h
    simp_all

/-- A successful play step: the cursor was inside the slot table and the result
is the one `OGCAUD_PlayDevice_eq` gives. -/
theorem step_play {N : Nat} {w w1 : World} {hw : Hardware} {h : SDL_PrivateAudioData}
    (hh : w.dev.hidden = some h) (hs : step N w (Event.play hw) = Except.ok w1) :
    ∃ mixbuf, h.mixbufs[h.next_buffer]? = some mixbuf ∧ w.asleep = none ∧
      w1 = { w with
        hw := hw,
        dev := { w.dev with hidden := some { h with
          cur_buffer := h.next_buffer, first_time := 0,
          next_buffer := (h.next_buffer + 1) % N } },
        trace := w.trace ++ [Call.ASND_StatusVoice h.channel, submitCall hw w.dev.spec h mixbuf] } := by
  simp only [step] at hs
  split at hs
  · simp at hs
  · rename_i hsl
    cases hb : h.mixbufs[h.next_buffer]? with
    | none =>
      unfold OGCAUD_PlayDevice at hs
      simp [hh, hb] at hs
    | some mixbuf =>
      rw [OGCAUD_PlayDevice_eq N { w with hw := hw } h mixbuf hh hb] at hs
      refine ⟨mixbuf, rfl, by simpa using hsl, ?_⟩
      simp only [Except.ok.injEq] at hs
      exact hs.symm

/-- A step that is not a submit leaves the device (spec and private record) and
the callback table alone and logs no submit and no allocation. -/
theorem step_nonplay {N : Nat} {w w1 : World} {e : Event}
    (he : e.isPlay = false) (hs : step N w e = Except.ok w1) :
    w1.dev = w.dev ∧ w1.s_callback_data = w.s_callback_data ∧
      ∃ t, w1.trace = w.trace ++ t ∧ ∀ c ∈ t, c.submitKind = none ∧ c.byteSize = none := by
  cases e with
  | play hw => simp [Event.isPlay] at he
  | wait hw =>
    simp only [step] at hs
    split at hs
    · simp at hs
    · unfold OGCAUD_WaitDevice at hs
      simp only [] at hs
      split at hs
      · simp at hs
      · split at hs
        · simp at hs
        · split at hs
          · split at hs
            all_goals
              simp only [Except.ok.injEq] at hs
              subst hs
              simp [World.log, LWP_ThreadSleep, Call.submitKind, Call.byteSize]
          · simp only [Except.ok.injEq] at hs
            subst hs
            simp [World.log, Call.submitKind, Call.byteSize]
  | getbuf =>
    simp only [step] at hs
    split at hs
    · simp at hs
    · split at hs
      · simp at hs
      · simp only [Except.ok.injEq] at hs
        subst hs
        exact ⟨rfl, rfl, [], by simp, by simp⟩
  | callback voice hw =>
    simp only [step, ogc_play_callback] at hs
    split at hs
    · simp at hs
    · simp only [Except.ok.injEq] at hs
      subst hs
      exact ⟨rfl, rfl, [], by simp, by simp⟩
    · split at hs
      · simp at hs
      · simp only [Except.ok.injEq] at hs
        subst hs
        unfold LWP_ThreadSignal
        simp only [World.log]
        split <;> simp [Call.submitKind, Call.byteSize]

/-- The submit call is an arming one exactly under the test of line 174. -/
theorem submitCall_kind (hw : Hardware) (spec : SDL_AudioSpec) (h : SDL_PrivateAudioData)
    (mixbuf : Nat) :
    (submitCall hw spec h mixbuf).submitKind =
      some (if hw.status == SND_UNUSED || h.first_time != 0 then SubmitKind.arming
        else SubmitKind.streaming) := by
  unfold submitCall ASND_StatusVoice
  split <;> simp [Call.submitKind]

/-- The submit call passes the buffer byte size of the spec. -/
theorem submitCall_byteSize (hw : Hardware) (spec : SDL_AudioSpec) (h : SDL_PrivateAudioData)
    (mixbuf : Nat) : (submitCall hw spec h mixbuf).byteSize = some spec.size := by
  unfold submitCall
  split <;> simp [Call.byteSize]

/-- Events other than submits do not contribute to the expected submits. -/
theorem expectedSubmits_nonplay (b : Bool) (e : Event) (es : List Event)
    (he : e.isPlay = false) : expectedSubmits b (e :: es) = expectedSubmits b es := by
  cases e <;> simp_all [expectedSubmits, Event.isPlay]

/-- A log without submit calls has no submits. -/
theorem submits_eq_nil (t : List Call) (ht : ∀ c ∈ t, c.submitKind = none) : submits t = [] := by
  unfold submits
  rw [List.filterMap_eq_nil_iff]
  exact ht

/-- The submits of a concatenated log. -/
theorem submits_append (t1 t2 : List Call) : submits (t1 ++ t2) = submits t1 ++ submits t2 := by
  unfold submits
  exact List.filterMap_append t1 t2 _

/-- The invariant of the play loop.  From an open device whose cursor is inside
the ring, any execution that does not fault keeps the private record except for
the cursor fields and `first_time`, moves `next_buffer` once per submit, keeps
`next_buffer` one past `cur_buffer` after the first submit, and logs only
submits of `spec.size` bytes, of the kinds `expectedSubmits` lists. -/
theorem run_inv {N : Nat} : ∀ (evs : List Event) (w w1 : World) (h : SDL_PrivateAudioData),
    w.dev.hidden = some h → h.next_buffer < N → run N w evs = Except.ok w1 →
    ∃ h1 t, w1.dev.hidden = some h1 ∧ w1.dev.spec = w.dev.spec ∧
      w1.s_callback_data = w.s_callback_data ∧
      h1 = { h with next_buffer := h1.next_buffer, cur_buffer := h1.cur_buffer,
                    first_time := h1.first_time } ∧
      h1.next_buffer = (h.next_buffer + evs.countP Event.isPlay) % N ∧
      (evs.countP Event.isPlay = 0 →
        h1.cur_buffer = h.cur_buffer ∧ h1.first_time = h.first_time) ∧
      (0 < evs.countP Event.isPlay →
        h1.next_buffer = (h1.cur_buffer + 1) % N ∧ h1.cur_buffer < N ∧ h1.first_time = 0) ∧
      w1.trace = w.trace ++ t ∧
      (∀ c ∈ t, ∀ sz, c.byteSize = some sz → sz = w.dev.spec.size) ∧
      submits t = expectedSubmits (h.first_time != 0) evs := by
  intro evs
  induction evs with
  | nil =>
    intro w w1 h hh hn hr
    simp only [run, Except.ok.injEq] at hr
    subst hr
    refine ⟨h, [], hh, rfl, rfl, rfl, ?_, ?_, ?_, by simp, by simp, by simp [submits, expectedSubmits]⟩
    · simp [Nat.mod_eq_of_lt hn]
    · intro _; exact ⟨rfl, rfl⟩
    · simp
  | cons e es ih =>
    intro w w1 h hh hn hr
    simp only [run] at hr
    cases hs : step N w e with
    | error f => simp [hs] at hr
    | ok w2 =>
      simp only [hs] at hr
      cases hp : e.isPlay with
      | false =>
        obtain ⟨hdev, hcb, t0, ht0, hnone⟩ := step_nonplay hp hs
        obtain ⟨h1, t, a1, a2, a3, a4, a5, a6, a7, a8, a9, a10⟩ :=
          ih w2 w1 h (by rw [hdev]; exact hh) hn hr
        have hc : (e :: es).countP Event.isPlay = es.countP Event.isPlay := by
          simp [List.countP_cons, hp]
        refine ⟨h1, t0 ++ t, a1, by rw [a2, hdev], by rw [a3, hcb], a4, by rw [hc]; exact a5,
          by rw [hc]; exact a6, by rw [hc]; exact a7, by rw [a8, ht0, List.append_assoc], ?_, ?_⟩
        · intro c hc1 sz hsz
          rcases List.mem_append.mp hc1 with hc2 | hc2
          · rw [(hnone c hc2).2] at hsz
            simp at hsz
          · rw [← hdev]
            exact a9 c hc2 sz hsz
        · rw [submits_append, submits_eq_nil t0 (fun c hc1 => (hnone c hc1).1), List.nil_append,
            a10, expectedSubmits_nonplay _ _ _ hp]
      | true =>
        cases e with
        | play hw =>
          obtain ⟨mixbuf, hb, -, hw2⟩ := step_play hh hs
          have hNpos : 0 < N := Nat.lt_of_le_of_lt (Nat.zero_le _) hn
          obtain ⟨h1, t, a1, a2, a3, a4, a5, a6, a7, a8, a9, a10⟩ :=
            ih w2 w1 { h with cur_buffer := h.next_buffer, first_time := 0,
                              next_buffer := (h.next_buffer + 1) % N }
              (by rw [hw2]) (Nat.mod_lt _ hNpos) hr
          have hc : (Event.play hw :: es).countP Event.isPlay = es.countP Event.isPlay + 1 := by
            simp [List.countP_cons, Event.isPlay]
          have hspec : w2.dev.spec = w.dev.spec := by rw [hw2]
          have hnext : h1.next_buffer = (h.next_buffer + (es.countP Event.isPlay + 1)) % N := by
            rw [a5]
            simp only []
            rw [Nat.mod_add_mod]
            congr 1
            omega
          refine ⟨h1, [Call.ASND_StatusVoice h.channel, submitCall hw w.dev.spec h mixbuf] ++ t,
            a1, by rw [a2, hspec], by rw [a3, hw2], ?_, by rw [hc]; exact hnext, ?_, ?_, ?_, ?_, ?_⟩
          · rw [a4]
          · rw [hc]; intro h0; omega
          · intro _
            rcases Nat.eq_zero_or_pos (es.countP Event.isPlay) with hz | hpos
            · obtain ⟨b1, b2⟩ := a6 hz
              simp only [] at b1 b2
              refine ⟨?_, by rw [b1]; exact hn, b2⟩
              rw [hnext, hz, b1]
            · exact a7 hpos
          · rw [a8, hw2]
            simp
          · intro c hc1 sz hsz
            rcases List.mem_append.mp hc1 with hc2 | hc2
            · simp only [List.mem_cons, List.mem_singleton, List.not_mem_nil, or_false] at hc2
              rcases hc2 with hc3 | hc3
              · subst hc3
                simp [Call.byteSize] at hsz
              · subst hc3
                rw [submitCall_byteSize] at hsz
                simp only [Option.some.injEq] at hsz
                exact hsz.symm
            · rw [← hspec]
              exact a9 c hc2 sz hsz
          · have hk := submitCall_kind hw w.dev.spec h mixbuf
            have h2 : submits [Call.ASND_StatusVoice h.channel, submitCall hw w.dev.spec h mixbuf]
                = [if hw.status == SND_UNUSED || h.first_time != 0 then SubmitKind.arming
                    else SubmitKind.streaming] := by
              unfold submits
              rw [List.filterMap_cons_none (by rfl), List.filterMap_cons_some hk]
              rfl
            rw [submits_append, a10, h2]
            simp [expectedSubmits]
        | wait hw => simp [Event.isPlay] at hp
        | getbuf => simp [Event.isPlay] at hp
        | callback v hw => simp [Event.isPlay] at hp

/-- A call that is no submit hands over no buffer. -/
theorem submitBuf_eq_none {c : Call} (h : c.submitKind = none) : c.submitBuf = none := by
  cases c <;> simp_all [Call.submitKind, Call.submitBuf]

/-- The submit call hands over the buffer it is given. -/
theorem submitCall_buf (hw : Hardware) (spec : SDL_AudioSpec) (h : SDL_PrivateAudioData)
    (mixbuf : Nat) : (submitCall hw spec h mixbuf).submitBuf = some mixbuf := by
  unfold submitCall
  split <;> simp [Call.submitBuf]

/-- The buffer most recently handed to the mixer is the slot at `cur_buffer`:
an execution without submits logs no submit, and after an execution with at
least one submit the last buffer address passed to `ASND_SetVoice` or
`ASND_AddVoice` is `mixbufs[cur_buffer]`. -/
theorem run_last_submit {N : Nat} : ∀ (evs : List Event) (w w1 : World)
    (h : SDL_PrivateAudioData),
    w.dev.hidden = some h → h.next_buffer < N → run N w evs = Except.ok w1 →
    ∃ h1 t, w1.dev.hidden = some h1 ∧ w1.trace = w.trace ++ t ∧
      (evs.countP Event.isPlay = 0 → t.filterMap Call.submitBuf = []) ∧
      (0 < evs.countP Event.isPlay →
        ∃ buf, h.mixbufs[h1.cur_buffer]? = some buf ∧
          (t.filterMap Call.submitBuf).getLast? = some buf) := by
  intro evs
  induction evs with
  | nil =>
    intro w w1 h hh hn hr
    simp only [run, Except.ok.injEq] at hr
    subst hr
    exact ⟨h, [], hh, by simp, by simp, by simp⟩
  | cons e es ih =>
    intro w w1 h hh hn hr
    simp only [run] at hr
    cases hs : step N w e with
    | error f => simp [hs] at hr
    | ok w2 =>
      simp only [hs] at hr
      cases hp : e.isPlay with
      | false =>
        obtain ⟨hdev, -, t0, ht0, hnone⟩ := step_nonplay hp hs
        obtain ⟨h1, t, a1, a2, a3, a4⟩ := ih w2 w1 h (by rw [hdev]; exact hh) hn hr
        have hc : (e :: es).countP Event.isPlay = es.countP Event.isPlay := by
          simp [List.countP_cons, hp]
        have ht0nil : t0.filterMap Call.submitBuf = [] := by
          rw [List.filterMap_eq_nil_iff]
          exact fun c hc1 => submitBuf_eq_none (hnone c hc1).1
        refine ⟨h1, t0 ++ t, a1, by rw [a2, ht0, List.append_assoc], ?_, ?_⟩
        · rw [hc, List.filterMap_append, ht0nil]
          exact a3
        · rw [hc, List.filterMap_append, ht0nil]
          exact a4
      | true =>
        cases e with
        | play hw =>
          obtain ⟨mixbuf, hb, -, hw2⟩ := step_play hh hs
          have hNpos : 0 < N := Nat.lt_of_le_of_lt (Nat.zero_le _) hn
          have hh2 : w2.dev.hidden = some
              { h with cur_buffer := h.next_buffer, first_time := 0,
                       next_buffer := (h.next_buffer + 1) % N } := by
            rw [hw2]
          obtain ⟨h1, t, a1, a2, a3, a4⟩ := ih w2 w1 _ hh2 (Nat.mod_lt _ hNpos) hr
          obtain ⟨g1, -, g1h, -, -, -, -, g6, -⟩ := run_inv es w2 w1 _ hh2 (Nat.mod_lt _ hNpos) hr
          have hg : g1 = h1 := by
            rw [a1] at g1h
            exact (Option.some.inj g1h).symm
          subst hg
          have hc : (Event.play hw :: es).countP Event.isPlay = es.countP Event.isPlay + 1 := by
            simp [List.countP_cons, Event.isPlay]
          have hfm : ([Call.ASND_StatusVoice h.channel, submitCall hw w.dev.spec h mixbuf] ++ t).filterMap
              Call.submitBuf = mixbuf :: t.filterMap Call.submitBuf := by
            rw [List.filterMap_append, List.filterMap_cons_none (by rfl),
              List.filterMap_cons_some (submitCall_buf _ _ _ _)]
            rfl
          refine ⟨g1, [Call.ASND_StatusVoice h.channel, submitCall hw w.dev.spec h mixbuf] ++ t,
            a1, by rw [a2, hw2]; simp, by rw [hc]; intro h0; omega, ?_⟩
          intro _
          rw [hfm]
          rcases Nat.eq_zero_or_pos (es.countP Event.isPlay) with hz | hpos
          · obtain ⟨b1, -⟩ := g6 hz
            simp only [] at b1
            refine ⟨mixbuf, by rw [b1]; exact hb, ?_⟩
            rw [a3 hz]
            rfl
          · obtain ⟨buf, c1, c2⟩ := a4 hpos
            refine ⟨buf, c1, ?_⟩
            rw [List.getLast?_cons, c2]
            rfl
        | wait hw => simp [Event.isPlay] at hp
        | getbuf => simp [Event.isPlay] at hp
        | callback v hw => simp [Event.isPlay] at hp

/-- Running a concatenation is running its parts one after the other. -/
theorem run_append {N : Nat} : ∀ (pre post : List Event) (w w1 : World),
    run N w (pre ++ post) = Except.ok w1 ↔
      ∃ wm, run N w pre = Except.ok wm ∧ run N wm post = Except.ok w1 := by
  intro pre
  induction pre with
  | nil =>
    intro post w w1
    simp [run]
  | cons e es ih =>
    intro post w w1
    simp only [List.cons_append, run]
    cases hs : step N w e with
    | error f => simp
    | ok w2 => simpa using ih post w2 w1

/-- Without an unused report at a submit, an armed device only streams. -/
theorem expectedSubmits_armed (es : List Event)
    (h : ∀ hw, Event.play hw ∈ es → hw.status ≠ SND_UNUSED) :
    expectedSubmits false es = List.replicate (es.countP Event.isPlay) SubmitKind.streaming := by
  induction es with
  | nil => rfl
  | cons e es ih =>
    have ih1 := ih (fun hw hm => h hw (List.mem_cons_of_mem _ hm))
    cases e with
    | play hw =>
      have hst : hw.status ≠ SND_UNUSED := h hw (List.mem_cons_self _ _)
      simp [expectedSubmits, Event.isPlay, ih1, hst, List.replicate_succ]
    | wait hw => simpa [expectedSubmits, Event.isPlay] using ih1
    | getbuf => simpa [expectedSubmits, Event.isPlay] using ih1
    | callback v hw => simpa [expectedSubmits, Event.isPlay] using ih1

/-- Without an unused report at a submit, an unarmed device arms once, at its
first submit, and streams afterwards. -/
theorem expectedSubmits_unarmed (es : List Event)
    (h : ∀ hw, Event.play hw ∈ es → hw.status ≠ SND_UNUSED) :
    expectedSubmits true es =
      (List.replicate (es.countP Event.isPlay) SubmitKind.streaming).set 0 SubmitKind.arming := by
  induction es with
  | nil => rfl
  | cons e es ih =>
    have ih1 := ih (fun hw hm => h hw (List.mem_cons_of_mem _ hm))
    cases e with
    | play hw =>
      have h2 := expectedSubmits_armed es (fun hw hm => h hw (List.mem_cons_of_mem _ hm))
      simp [expectedSubmits, Event.isPlay, h2, List.replicate_succ]
    | wait hw => simpa [expectedSubmits, Event.isPlay] using ih1
    | getbuf => simpa [expectedSubmits, Event.isPlay] using ih1
    | callback v hw => simpa [expectedSubmits, Event.isPlay] using ih1

/-- A list of events with a submit in it has a positive number of submits. -/
theorem countP_isPlay_pos {es : List Event} (h : ∃ hw, Event.play hw ∈ es) :
    0 < es.countP Event.isPlay := by
  obtain ⟨hw, hm⟩ := h
  exact List.countP_pos_iff.mpr ⟨_, hm, rfl⟩

/-- The result of `OGCAUD_WaitDevice` on an open device whose `cur_buffer` is
inside the slot table: it sleeps exactly when the mixer still holds the slot and
the voice is not unused. -/
theorem OGCAUD_WaitDevice_eq (w : World) (h : SDL_PrivateAudioData) (buf : Nat)
    (hh : w.dev.hidden = some h) (hb : h.mixbufs[h.cur_buffer]? = some buf) :
    OGCAUD_WaitDevice w = Except.ok
      (if ASND_TestPointer w.hw h.channel buf != 0 then
        if ASND_StatusVoice w.hw h.channel != SND_UNUSED then
          LWP_ThreadSleep h.queue
            ((w.log (Call.ASND_TestPointer h.channel buf)).log (Call.ASND_StatusVoice h.channel))
        else (w.log (Call.ASND_TestPointer h.channel buf)).log (Call.ASND_StatusVoice h.channel)
      else w.log (Call.ASND_TestPointer h.channel buf)) := by
  unfold OGCAUD_WaitDevice
  rw [hh]
  simp only [hb, World.log]
  split
  · split <;> rfl
  · rfl

/-- The two outcomes of a callback that does not fault: nothing happens (the
table entry is null), or the queue of the device is signalled. -/
theorem ogc_play_callback_cases {voice : Nat} {w w1 : World}
    (hc : ogc_play_callback voice w = Except.ok w1) :
    w1 = w ∨ ∃ h, w.dev.hidden = some h ∧ w.s_callback_data[voice]? = some true ∧
      w1 = LWP_ThreadSignal h.queue w := by
  unfold ogc_play_callback at hc
  split at hc
  · simp at hc
  · simp only [Except.ok.injEq] at hc
    exact Or.inl hc.symm
  · rename_i hreg
    split at hc
    · simp at hc
    · rename_i h hh
      simp only [Except.ok.injEq] at hc
      exact Or.inr ⟨h, hh, hreg, hc.symm⟩

/-- While the producer sleeps, only a callback that signals the queue it sleeps
on lets the execution reach a state in which it is awake. -/
theorem run_asleep_woken {N : Nat} : ∀ (post : List Event) (wb w1 : World) (q : Nat),
    wb.asleep = some q → run N wb post = Except.ok w1 → w1.asleep = none →
    ∃ p1 v hwc p2 wc wd, post = p1 ++ Event.callback v hwc :: p2 ∧
      run N wb p1 = Except.ok wc ∧ wc.asleep = some q ∧
      step N wc (Event.callback v hwc) = Except.ok wd ∧ wd.asleep = none ∧
      wd.trace = wc.trace ++ [Call.LWP_ThreadSignal q] ∧ run N wd p2 = Except.ok w1 := by
  intro post
  induction post with
  | nil =>
    intro wb w1 q hq hr hret
    simp only [run, Except.ok.injEq] at hr
    subst hr
    rw [hq] at hret
    simp at hret
  | cons e es ih =>
    intro wb w1 q hq hr hret
    simp only [run] at hr
    cases hs : step N wb e with
    | error f => simp [hs] at hr
    | ok w2 =>
      simp only [hs] at hr
      cases e with
      | play hw => simp [step, hq] at hs
      | wait hw => simp [step, hq] at hs
      | getbuf => simp [step, hq] at hs
      | callback v hwc =>
        have hstill : w2.asleep = some q →
            ∃ p1 v1 hwc1 p2 wc wd, Event.callback v hwc :: es = p1 ++ Event.callback v1 hwc1 :: p2 ∧
              run N wb p1 = Except.ok wc ∧ wc.asleep = some q ∧
              step N wc (Event.callback v1 hwc1) = Except.ok wd ∧ wd.asleep = none ∧
              wd.trace = wc.trace ++ [Call.LWP_ThreadSignal q] ∧ run N wd p2 = Except.ok w1 := by
          intro h2
          obtain ⟨p1, v1, hwc1, p2, wc, wd, e1, e2, e3, e4, e5, e6, e7⟩ := ih w2 w1 q h2 hr hret
          refine ⟨Event.callback v hwc :: p1, v1, hwc1, p2, wc, wd, ?_, ?_, e3, e4, e5, e6, e7⟩
          · rw [e1]; rfl
          · simp only [run, hs]
            exact e2
        have hs1 := hs
        simp only [step] at hs1
        rcases ogc_play_callback_cases hs1 with hw2 | ⟨h, -, -, hw2⟩
        · exact hstill (by rw [hw2]; exact hq)
        · by_cases hqq : q = h.queue
          · refine ⟨[], v, hwc, es, wb, w2, rfl, rfl, hq, hs, ?_, ?_, hr⟩
            · rw [hw2]; simp [LWP_ThreadSignal, World.log, hq, hqq]
            · rw [hw2]; simp [LWP_ThreadSignal, World.log, hq, hqq]
          · apply hstill
            rw [hw2]
            have : ¬ (some q = some h.queue) := by simpa using hqq
            simp [LWP_ThreadSignal, World.log, hq, this]

/-- What `OGCAUD_CloseDevice` does to a sleeping producer: either it leaves the
sleep state as it is (no gate, or the producer does not sleep on the gate), or
the producer sleeps on the gate and the signal of line 213 wakes it. -/
theorem OGCAUD_CloseDevice_asleep {w w2 : World} (hc : OGCAUD_CloseDevice w = Except.ok w2) :
    ∃ h, w.dev.hidden = some h ∧ w2.dev.hidden = none ∧
      (w2.asleep = w.asleep ∨
        (w.asleep = some h.queue ∧ w2.asleep = none ∧
          ∃ rest, w2.trace = w.trace ++ [Call.ASND_StopVoice h.channel,
            Call.LWP_ThreadSignal h.queue, Call.LWP_CloseQueue h.queue] ++ rest)) := by
  unfold OGCAUD_CloseDevice at hc
  cases hh : w.dev.hidden with
  | none => simp [hh] at hc
  | some h =>
    simp only [hh, Except.ok.injEq] at hc
    subst hc
    refine ⟨h, rfl, rfl, ?_⟩
    by_cases hq : h.queue = LWP_TQUEUE_NULL
    · left
      by_cases hr : h.rawbuf = 0 <;> simp [hq, hr, World.log, World.setHidden]
    · by_cases hs : w.asleep = some h.queue
      · right
        refine ⟨hs, ?_, ?_⟩
        · by_cases hr : h.rawbuf = 0 <;>
            simp [hq, hr, hs, World.log, World.setHidden, LWP_ThreadSignal]
        · by_cases hr : h.rawbuf = 0
          · exact ⟨[Call.SDL_free], by
              simp [hq, hr, hs, World.log, World.setHidden, LWP_ThreadSignal]⟩
          · exact ⟨[Call.free h.rawbuf, Call.SDL_free], by
              simp [hq, hr, hs, World.log, World.setHidden, LWP_ThreadSignal]⟩
      · left
        by_cases hr : h.rawbuf = 0 <;>
          simp [hq, hr, hs, World.log, World.setHidden, LWP_ThreadSignal]

/-- While the producer sleeps, the execution reaches a state in which it is
awake only through a step that signals the queue it sleeps on: an invocation
of the callback, or the close of the device. -/
theorem run_with_close_asleep_woken {N : Nat} :
    ∀ (post : List DeviceEvent) (wb w1 : World) (q : Nat),
    wb.asleep = some q → run_with_close N wb post = Except.ok w1 → w1.asleep = none →
    ∃ p1 ev p2 wc wd, post = p1 ++ ev :: p2 ∧
      run_with_close N wb p1 = Except.ok wc ∧ wc.asleep = some q ∧
      step_with_close N wc ev = Except.ok wd ∧ wd.asleep = none ∧
      ((∃ v hwc, ev = DeviceEvent.loop (Event.callback v hwc) ∧
          wd.trace = wc.trace ++ [Call.LWP_ThreadSignal q]) ∨
        (ev = DeviceEvent.close ∧ wd.dev.hidden = none ∧
          ∃ h rest, wc.dev.hidden = some h ∧ h.queue = q ∧
            wd.trace = wc.trace ++ [Call.ASND_StopVoice h.channel,
              Call.LWP_ThreadSignal q, Call.LWP_CloseQueue q] ++ rest)) ∧
      run_with_close N wd p2 = Except.ok w1 := by
  intro post
  induction post with
  | nil =>
    intro wb w1 q hq hr hret
    simp only [run_with_close, Except.ok.injEq] at hr
    subst hr
    rw [hq] at hret
    simp at hret
  | cons e es ih =>
    intro wb w1 q hq hr hret
    simp only [run_with_close] at hr
    cases hs : step_with_close N wb e with
    | error f => simp [hs] at hr
    | ok w2 =>
      simp only [hs] at hr
      have hstill : w2.asleep = some q →
          ∃ p1 ev p2 wc wd, e :: es = p1 ++ ev :: p2 ∧
            run_with_close N wb p1 = Except.ok wc ∧ wc.asleep = some q ∧
            step_with_close N wc ev = Except.ok wd ∧ wd.asleep = none ∧
            ((∃ v hwc, ev = DeviceEvent.loop (Event.callback v hwc) ∧
                wd.trace = wc.trace ++ [Call.LWP_ThreadSignal q]) ∨
              (ev = DeviceEvent.close ∧ wd.dev.hidden = none ∧
                ∃ h rest, wc.dev.hidden = some h ∧ h.queue = q ∧
                  wd.trace = wc.trace ++ [Call.ASND_StopVoice h.channel,
                    Call.LWP_ThreadSignal q, Call.LWP_CloseQueue q] ++ rest)) ∧
            run_with_close N wd p2 = Except.ok w1 := by
        intro h2
        obtain ⟨p1, ev, p2, wc, wd, e1, e2, e3, e4, e5, e6, e7⟩ := ih w2 w1 q h2 hr hret
        refine ⟨e :: p1, ev, p2, wc, wd, ?_, ?_, e3, e4, e5, e6, e7⟩
        · rw [e1]; rfl
        · simp only [run_with_close, hs]
          exact e2
      cases e with
      | close =>
        have hs1 := hs
        simp only [step_with_close] at hs1
        obtain ⟨h, hh, hnone, hcase | ⟨ha, hw2, rest, htr⟩⟩ := OGCAUD_CloseDevice_asleep hs1
        · exact hstill (by rw [hcase]; exact hq)
        · have hqq : h.queue = q := by
            rw [hq] at ha
            exact (Option.some.inj ha).symm
          refine ⟨[], DeviceEvent.close, es, wb, w2, rfl, rfl, hq, hs, hw2, ?_, hr⟩
          right
          refine ⟨rfl, hnone, h, rest, hh, hqq, ?_⟩
          rw [htr, hqq]
      | loop e0 =>
        cases e0 with
        | play hw => simp [step_with_close, step, hq] at hs
        | wait hw => simp [step_with_close, step, hq] at hs
        | getbuf => simp [step_with_close, step, hq] at hs
        | callback v hwc =>
          have hs1 := hs
          simp only [step_with_close, step] at hs1
          rcases ogc_play_callback_cases hs1 with hw2 | ⟨h, -, -, hw2⟩
          · exact hstill (by rw [hw2]; exact hq)
          · by_cases hqq : q = h.queue
            · refine ⟨[], DeviceEvent.loop (Event.callback v hwc), es, wb, w2, rfl, rfl, hq, hs,
                ?_, ?_, hr⟩
              · rw [hw2]; simp [LWP_ThreadSignal, World.log, hq, hqq]
              · left
                refine ⟨v, hwc, rfl, ?_⟩
                rw [hw2]; simp [LWP_ThreadSignal, World.log, hq, hqq]
            · apply hstill
              rw [hw2]
              have : ¬ (some q = some h.queue) := by simpa using hqq
              simp [LWP_ThreadSignal, World.log, hq, this]

/-! ## The claims about submits -/

/-- C1: on an open device whose cursor `next_buffer = n` is inside the ring of
`NUM_BUFFERS` slots, one call of `OGCAUD_PlayDevice` returns, hands the slot
`mixbufs[n]` with byte size `spec.size` to the mixer (by `ASND_SetVoice` or by
`ASND_AddVoice`, the only call after the status query), and leaves
`cur_buffer = n` and `next_buffer = (n + 1) mod NUM_BUFFERS`. -/
theorem C1_play_hands_over_next_slot (N : Nat) (w : World) (h : SDL_PrivateAudioData)
    (hh : w.dev.hidden = some h) (hlen : h.mixbufs.length = N) (hn : h.next_buffer < N) :
    ∃ w1 h1 buf c, OGCAUD_PlayDevice N w = Except.ok w1 ∧ w1.dev.hidden = some h1 ∧
      h.mixbufs[h.next_buffer]? = some buf ∧
      w1.trace = w.trace ++ [Call.ASND_StatusVoice h.channel, c] ∧
      (c = Call.ASND_SetVoice h.channel h.output_type w.dev.spec.freq 0 buf w.dev.spec.size
            h.volume h.volume ∨
        c = Call.ASND_AddVoice h.channel buf w.dev.spec.size) ∧
      h1.cur_buffer = h.next_buffer ∧ h1.next_buffer = (h.next_buffer + 1) % N := by
  have hlt : h.next_buffer < h.mixbufs.length := by omega
  have hb : h.mixbufs[h.next_buffer]? = some (h.mixbufs[h.next_buffer]) :=
    List.getElem?_eq_getElem hlt
  refine ⟨_, _, _, _, OGCAUD_PlayDevice_eq N w h _ hh hb, rfl, hb, rfl, ?_, rfl, rfl⟩
  unfold submitCall
  split
  · exact Or.inl rfl
  · exact Or.inr rfl

/-- C1 at a concrete input: the first submit on `example_open`. -/
theorem C1_play_hands_over_next_slot_witness :
    ∃ w1 h1 buf c, OGCAUD_PlayDevice 2 example_open = Except.ok w1 ∧ w1.dev.hidden = some h1 ∧
      [4096, 4608][0]? = some buf ∧
      w1.trace = example_open.trace ++ [Call.ASND_StatusVoice 0, c] ∧
      (c = Call.ASND_SetVoice 0 VoiceType.VOICE_STEREO_16BIT 32000 0 buf 512 255 255 ∨
        c = Call.ASND_AddVoice 0 buf 512) ∧
      h1.cur_buffer = 0 ∧ h1.next_buffer = (0 + 1) % 2 :=
  C1_play_hands_over_next_slot 2 example_open
    { rawbuf := 4096, mixbufs := [4096, 4608], next_buffer := 0, cur_buffer := 0,
      output_type := VoiceType.VOICE_STEREO_16BIT, volume := 255, channel := 0,
      first_time := 1, queue := 7 }
    (by decide) (by decide) (by decide)

/-- C2: on an open device whose cursor is inside the ring, `OGCAUD_PlayDevice`
performs the arming submit (`ASND_SetVoice` with voice format, rate, buffer,
size and volume) if and only if `first_time` is set or the mixer reports the
voice unused at that moment, performs the streaming submit (`ASND_AddVoice`
with buffer and size only) if and only if neither holds, and in both cases
leaves `first_time` clear. -/
theorem C2_arming_iff_unarmed_or_unused (N : Nat) (w : World) (h : SDL_PrivateAudioData)
    (hh : w.dev.hidden = some h) (hlen : h.mixbufs.length = N) (hn : h.next_buffer < N) :
    ∃ w1 h1 buf, OGCAUD_PlayDevice N w = Except.ok w1 ∧ w1.dev.hidden = some h1 ∧
      h.mixbufs[h.next_buffer]? = some buf ∧ h1.first_time = 0 ∧
      (w1.trace = w.trace ++ [Call.ASND_StatusVoice h.channel,
          Call.ASND_SetVoice h.channel h.output_type w.dev.spec.freq 0 buf w.dev.spec.size
            h.volume h.volume] ↔
        (h.first_time ≠ 0 ∨ ASND_StatusVoice w.hw h.channel = SND_UNUSED)) ∧
      (w1.trace = w.trace ++ [Call.ASND_StatusVoice h.channel,
          Call.ASND_AddVoice h.channel buf w.dev.spec.size] ↔
        ¬ (h.first_time ≠ 0 ∨ ASND_StatusVoice w.hw h.channel = SND_UNUSED)) := by
  have hlt : h.next_buffer < h.mixbufs.length := by omega
  have hb : h.mixbufs[h.next_buffer]? = some (h.mixbufs[h.next_buffer]) :=
    List.getElem?_eq_getElem hlt
  refine ⟨_, _, _, OGCAUD_PlayDevice_eq N w h _ hh hb, rfl, hb, rfl, ?_, ?_⟩
  · by_cases hc : h.first_time ≠ 0 ∨ ASND_StatusVoice w.hw h.channel = SND_UNUSED
    · have hc2 : (ASND_StatusVoice w.hw h.channel == SND_UNUSED || h.first_time != 0) = true := by
        rcases hc with hc | hc <;> simp [hc]
      simp [submitCall, hc2, hc]
    · have hc2 : ¬ (ASND_StatusVoice w.hw h.channel == SND_UNUSED || h.first_time != 0) = true := by
        simp only [not_or, ne_eq, not_not] at hc
        simp [hc.1, hc.2]
      simp [submitCall, hc2, hc]
  · by_cases hc : h.first_time ≠ 0 ∨ ASND_StatusVoice w.hw h.channel = SND_UNUSED
    · have hc2 : (ASND_StatusVoice w.hw h.channel == SND_UNUSED || h.first_time != 0) = true := by
        rcases hc with hc | hc <;> simp [hc]
      simp [submitCall, hc2, hc]
    · have hc2 : ¬ (ASND_StatusVoice w.hw h.channel == SND_UNUSED || h.first_time != 0) = true := by
        simp only [not_or, ne_eq, not_not] at hc
        simp [hc.1, hc.2]
      simp [submitCall, hc2, hc]

/-- C2 at a concrete input: the first submit on `example_open`, where
`first_time` is set. -/
theorem C2_arming_iff_unarmed_or_unused_witness :
    ∃ w1 h1 buf, OGCAUD_PlayDevice 2 example_open = Except.ok w1 ∧ w1.dev.hidden = some h1 ∧
      [4096, 4608][0]? = some buf ∧ h1.first_time = 0 ∧
      (w1.trace = example_open.trace ++ [Call.ASND_StatusVoice 0,
          Call.ASND_SetVoice 0 VoiceType.VOICE_STEREO_16BIT 32000 0 buf 512 255 255] ↔
        ((1 : Nat) ≠ 0 ∨ ASND_StatusVoice example_open.hw 0 = SND_UNUSED)) ∧
      (w1.trace = example_open.trace ++ [Call.ASND_StatusVoice 0, Call.ASND_AddVoice 0 buf 512] ↔
        ¬ ((1 : Nat) ≠ 0 ∨ ASND_StatusVoice example_open.hw 0 = SND_UNUSED)) :=
  C2_arming_iff_unarmed_or_unused 2 example_open
    { rawbuf := 4096, mixbufs := [4096, 4608], next_buffer := 0, cur_buffer := 0,
      output_type := VoiceType.VOICE_STEREO_16BIT, volume := 255, channel := 0,
      first_time := 1, queue := 7 }
    (by decide) (by decide) (by decide)

/-! ## The claims about `OGCAUD_OpenDevice` -/

/-- C3: evaluation of `OGCAUD_OpenDevice` at an unsigned 8-bit request with both
allocations succeeding.  `case 8:` stores `AUDIO_U8`, control falls through
into `case 16:`, whose signedness test fails: the record is freed and the call
returns `-1` with the unsupported-format error. -/
theorem C3_unsigned_8bit_rejected :
    SDL_AUDIO_BITSIZE example_spec_u8.format = 8 ∧
    SDL_AUDIO_ISUNSIGNED example_spec_u8.format = true ∧
    OGCAUD_OpenDevice 2 example_env (World.init example_spec_u8) =
      (-1, { World.init example_spec_u8 with
        trace := [Call.SDL_malloc, Call.SDL_free, Call.SDL_SetError ErrorMsg.unsupported_format] }) := by
  decide

/-- C5: after a successful `OGCAUD_OpenDevice` with a positive `NUM_BUFFERS`,
whatever format, channel count and frames-per-buffer were requested, the byte
size `spec.size` equals frames-per-buffer times channels times bytes per
sample and is a multiple of 64, so is the pool size `NUM_BUFFERS * spec.size`,
the spec is not changed by the play loop, and every size passed to `memalign`,
`ASND_SetVoice` or `ASND_AddVoice` from the open call on is a multiple of
64. -/
theorem C5_sizes_are_multiples_of_64 (N : Nat) (env : OpenEnv) (w0 w w1 : World)
    (evs : List Event) (hN : 0 < N)
    (hopen : OGCAUD_OpenDevice N env w0 = (0, w)) (hrun : run N w evs = Except.ok w1) :
    w.dev.spec.size =
        w.dev.spec.samples * w.dev.spec.channels * (SDL_AUDIO_BITSIZE w.dev.spec.format / 8) ∧
      64 ∣ w.dev.spec.size ∧ 64 ∣ N * w.dev.spec.size ∧ w1.dev.spec = w.dev.spec ∧
      ∃ t, w1.trace = w0.trace ++ t ∧ ∀ c ∈ t, ∀ sz, c.byteSize = some sz → 64 ∣ sz := by
  obtain ⟨-, -, -, hsize, hdvd⟩ := OGCAUD_OpenDevice_ok_spec hopen
  obtain ⟨hd, hhid, -, hnext, -⟩ := OGCAUD_OpenDevice_ok_hidden hopen
  obtain ⟨-, -, -, -, -, -, -, -, -, htr⟩ := OGCAUD_OpenDevice_ok hopen
  obtain ⟨h1, t, -, a2, -, -, -, -, -, a8, a9, -⟩ :=
    run_inv evs w w1 hd hhid (by rw [hnext]; exact hN) hrun
  refine ⟨hsize, hdvd, Dvd.dvd.mul_left hdvd N, a2, ?_⟩
  rw [a8, htr, List.append_assoc]
  refine ⟨_, rfl, ?_⟩
  intro c hc sz hsz
  rcases List.mem_append.mp hc with hc1 | hc1
  · simp only [List.mem_cons, List.mem_singleton, List.not_mem_nil, or_false] at hc1
    rcases hc1 with e | e | e | e | e | e | e <;> subst e <;> simp [Call.byteSize] at hsz
    subst hsz
    exact (Nat.dvd_mod_iff (by norm_num : 64 ∣ 4294967296)).mpr (Dvd.dvd.mul_right hdvd N)
  · rw [a9 c hc1 sz hsz]
    exact hdvd

/-- C5 at a concrete input: `example_spec` opened with two buffers gives 512-byte
slots, and the run `example_events` submits only such slots. -/
theorem C5_sizes_are_multiples_of_64_witness :
    example_open.dev.spec.size = 512 ∧
    (example_open.dev.spec.size =
        example_open.dev.spec.samples * example_open.dev.spec.channels *
          (SDL_AUDIO_BITSIZE example_open.dev.spec.format / 8) ∧
      64 ∣ example_open.dev.spec.size ∧ 64 ∣ 2 * example_open.dev.spec.size ∧
      example_final.dev.spec = example_open.dev.spec ∧
      ∃ t, example_final.trace = (World.init example_spec).trace ++ t ∧
        ∀ c ∈ t, ∀ sz, c.byteSize = some sz → 64 ∣ sz) :=
  ⟨by decide,
    C5_sizes_are_multiples_of_64 2 example_env (World.init example_spec) example_open
      example_final example_events (by decide) (by decide) (by rfl)⟩

/-- C6, counterexample: 65535 fits the 16-bit field `samples`, the open succeeds,
and the stored frames-per-buffer is 0: the rounded value 65536 does not fit the
field.  The result is below the request, so it is not the smallest multiple of
64 that is not less than it.  (The stored value is 0 as well when `memalign`
then fails.) -/
theorem C6_counterexample :
    example_spec_max.samples < 2 ^ 16 ∧
    (OGCAUD_OpenDevice 2 example_env (World.init example_spec_max)).1 = 0 ∧
    (OGCAUD_OpenDevice 2 example_env (World.init example_spec_max)).2.dev.spec.samples = 0 ∧
    ¬ (example_spec_max.samples ≤
      (OGCAUD_OpenDevice 2 example_env (World.init example_spec_max)).2.dev.spec.samples) ∧
    (OGCAUD_OpenDevice 2 { example_env with rawbuf := 0 }
      (World.init example_spec_max)).2.dev.spec.samples = 0 := by
  decide

/-- C6, amended: a successful `OGCAUD_OpenDevice` always stores a multiple of 64
as frames-per-buffer, equal to `OGC_AUDIO_SAMPLE_ALIGN(s)` reduced to 16 bits;
when the request `s` is at most 65472 the stored value `r` is the smallest
multiple of 64 that is not less than `s`: it satisfies `s <= r < s + 64`, no
smaller multiple of 64 reaches `s`, and a request that already is a multiple of
64 is unchanged. -/
theorem C6_samples_rounded_up_to_64 (N : Nat) (env : OpenEnv) (w0 w : World)
    (hopen : OGCAUD_OpenDevice N env w0 = (0, w)) :
    w.dev.spec.samples = OGC_AUDIO_SAMPLE_ALIGN w0.dev.spec.samples % 2 ^ 16 ∧
      64 ∣ w.dev.spec.samples ∧
      (w0.dev.spec.samples ≤ 65472 →
        w.dev.spec.samples = OGC_AUDIO_SAMPLE_ALIGN w0.dev.spec.samples ∧
        w0.dev.spec.samples ≤ w.dev.spec.samples ∧
        w.dev.spec.samples < w0.dev.spec.samples + 64 ∧
        (∀ m, 64 ∣ m → w0.dev.spec.samples ≤ m → w.dev.spec.samples ≤ m) ∧
        (64 ∣ w0.dev.spec.samples → w.dev.spec.samples = w0.dev.spec.samples)) := by
  obtain ⟨-, -, hsamp, -, -⟩ := OGCAUD_OpenDevice_ok_spec hopen
  have hdvd : 64 ∣ w.dev.spec.samples := by
    rw [hsamp, Nat.dvd_mod_iff (by norm_num : 64 ∣ 2 ^ 16)]
    exact OGC_AUDIO_SAMPLE_ALIGN_dvd _
  refine ⟨hsamp, hdvd, ?_⟩
  intro hs
  have hal := OGC_AUDIO_SAMPLE_ALIGN_eq w0.dev.spec.samples (by norm_num; omega)
  have hlt : OGC_AUDIO_SAMPLE_ALIGN w0.dev.spec.samples < 2 ^ 16 := by
    rw [hal]; norm_num; omega
  have hr : w.dev.spec.samples = (w0.dev.spec.samples + 63) / 64 * 64 := by
    rw [hsamp, Nat.mod_eq_of_lt hlt, hal]
  refine ⟨by rw [hr, hal], by omega, by omega, ?_, ?_⟩
  · intro m hm hle
    obtain ⟨k, rfl⟩ := hm
    omega
  · intro hm
    obtain ⟨k, hk⟩ := hm
    omega

/-- C6 at a concrete input: the request of 100 frames of `example_spec` is
opened with 128 frames. -/
theorem C6_samples_rounded_up_to_64_witness :
    example_open.dev.spec.samples = 128 ∧
    (example_open.dev.spec.samples = OGC_AUDIO_SAMPLE_ALIGN 100 % 2 ^ 16 ∧
      64 ∣ example_open.dev.spec.samples ∧
      (100 ≤ 65472 →
        example_open.dev.spec.samples = OGC_AUDIO_SAMPLE_ALIGN 100 ∧
        100 ≤ example_open.dev.spec.samples ∧
        example_open.dev.spec.samples < 100 + 64 ∧
        (∀ m, 64 ∣ m → 100 ≤ m → example_open.dev.spec.samples ≤ m) ∧
        (64 ∣ 100 → example_open.dev.spec.samples = 100))) :=
  ⟨by decide,
    C6_samples_rounded_up_to_64 2 example_env (World.init example_spec) example_open
      (by decide)⟩

/-! ## The claims about executions of the play loop -/

/-- C4: with `NUM_BUFFERS = N >= 2`, in every state reached from a successful
open by an execution (submits, waits, write-target lookups and completion
callbacks in any order) that contains at least one submit, both cursors are
inside the ring, `next_buffer = (cur_buffer + 1) mod N`, hence
`next_buffer != cur_buffer`, `OGCAUD_GetDeviceBuf` returns the slot at
`next_buffer`, and the buffer most recently handed to the mixer (the last one
passed to `ASND_SetVoice` or `ASND_AddVoice`) is the slot at `cur_buffer`: the
slot given to the producer is not the slot most recently handed to the
mixer. -/
theorem C4_write_target_is_not_current_slot (N : Nat) (env : OpenEnv) (w0 w w1 : World)
    (evs : List Event) (hN : 2 ≤ N)
    (hopen : OGCAUD_OpenDevice N env w0 = (0, w)) (hrun : run N w evs = Except.ok w1)
    (hplay : ∃ hw, Event.play hw ∈ evs) :
    ∃ h1 buf cur t, w1.dev.hidden = some h1 ∧ h1.cur_buffer < N ∧ h1.next_buffer < N ∧
      h1.next_buffer = (h1.cur_buffer + 1) % N ∧ h1.next_buffer ≠ h1.cur_buffer ∧
      h1.mixbufs[h1.next_buffer]? = some buf ∧ OGCAUD_GetDeviceBuf w1 = Except.ok buf ∧
      w1.trace = w.trace ++ t ∧ h1.mixbufs[h1.cur_buffer]? = some cur ∧
      (t.filterMap Call.submitBuf).getLast? = some cur := by
  obtain ⟨hd, hhid, hlen, hnext, -⟩ := OGCAUD_OpenDevice_ok_hidden hopen
  have hn0 : hd.next_buffer < N := by rw [hnext]; omega
  obtain ⟨h1, t, a1, -, -, a4, -, -, a7, -⟩ := run_inv evs w w1 hd hhid hn0 hrun
  obtain ⟨g1, t1, c1, c2, -, c4⟩ := run_last_submit evs w w1 hd hhid hn0 hrun
  have hg : g1 = h1 := by
    rw [a1] at c1
    exact (Option.some.inj c1).symm
  subst hg
  obtain ⟨cur, d1, d2⟩ := c4 (countP_isPlay_pos hplay)
  obtain ⟨b1, b2, -⟩ := a7 (countP_isPlay_pos hplay)
  have hlt : g1.next_buffer < N := by rw [b1]; exact Nat.mod_lt _ (by omega)
  have hne : g1.next_buffer ≠ g1.cur_buffer := by
    rw [b1]
    rcases Nat.lt_or_ge (g1.cur_buffer + 1) N with hc | hc
    · rw [Nat.mod_eq_of_lt hc]; omega
    · have : g1.cur_buffer + 1 = N := by omega
      rw [this, Nat.mod_self]; omega
  have hmix : g1.mixbufs = hd.mixbufs := by rw [a4]
  have hlen1 : g1.mixbufs.length = N := by rw [hmix]; exact hlen
  have hb : g1.mixbufs[g1.next_buffer]? = some (g1.mixbufs[g1.next_buffer]) :=
    List.getElem?_eq_getElem (by omega)
  refine ⟨g1, _, cur, t1, a1, b2, hlt, b1, hne, hb, ?_, c2, by rw [hmix]; exact d1, d2⟩
  unfold OGCAUD_GetDeviceBuf
  rw [a1]
  simp only [hb]

/-- C4 at a concrete input: after `example_events` on `example_open`. -/
theorem C4_write_target_is_not_current_slot_witness :
    ∃ h1 buf cur t, example_final.dev.hidden = some h1 ∧ h1.cur_buffer < 2 ∧
      h1.next_buffer < 2 ∧
      h1.next_buffer = (h1.cur_buffer + 1) % 2 ∧ h1.next_buffer ≠ h1.cur_buffer ∧
      h1.mixbufs[h1.next_buffer]? = some buf ∧
      OGCAUD_GetDeviceBuf example_final = Except.ok buf ∧
      example_final.trace = example_open.trace ++ t ∧ h1.mixbufs[h1.cur_buffer]? = some cur ∧
      (t.filterMap Call.submitBuf).getLast? = some cur :=
  C4_write_target_is_not_current_slot 2 example_env (World.init example_spec) example_open
    example_final example_events (by decide) (by decide) (by rfl) ⟨hw_idle, by decide⟩

/-- C7: in an execution that follows a successful open (with a positive
`NUM_BUFFERS`), if the mixer never reports the voice unused at a submit, the
submits are one arming submit, the first, followed by streaming submits only;
more generally, whatever happened before, a stretch of the execution that
comes after at least one submit and during which no submit finds the voice
unused contains streaming submits only. -/
theorem C7_one_arming_submit (N : Nat) (env : OpenEnv) (w0 w w1 : World)
    (evs : List Event) (hN : 0 < N)
    (hopen : OGCAUD_OpenDevice N env w0 = (0, w)) (hrun : run N w evs = Except.ok w1) :
    (∃ t, w1.trace = w.trace ++ t ∧
      ((∀ hw, Event.play hw ∈ evs → hw.status ≠ SND_UNUSED) →
        submits t =
          (List.replicate (evs.countP Event.isPlay) SubmitKind.streaming).set 0
            SubmitKind.arming)) ∧
    (∀ pre post wm, evs = pre ++ post → run N w pre = Except.ok wm →
      (∃ hw, Event.play hw ∈ pre) →
      (∀ hw, Event.play hw ∈ post → hw.status ≠ SND_UNUSED) →
      ∃ t2, w1.trace = wm.trace ++ t2 ∧
        submits t2 = List.replicate (post.countP Event.isPlay) SubmitKind.streaming) := by
  obtain ⟨hd, hhid, -, hnext, -, hft, -⟩ := OGCAUD_OpenDevice_ok_hidden hopen
  have hn0 : hd.next_buffer < N := by rw [hnext]; exact hN
  constructor
  · obtain ⟨h1, t, -, -, -, -, -, -, -, a8, -, a10⟩ := run_inv evs w w1 hd hhid hn0 hrun
    refine ⟨t, a8, ?_⟩
    intro hno
    rw [a10, hft]
    exact expectedSubmits_unarmed evs hno
  · intro pre post wm hevs hpre hplay hno
    subst hevs
    obtain ⟨wm1, hm1, hm2⟩ := (run_append pre post w w1).mp hrun
    rw [hpre] at hm1
    simp only [Except.ok.injEq] at hm1
    subst hm1
    obtain ⟨hm, tm, b1, -, -, -, b5, -, b7, -⟩ := run_inv pre w wm hd hhid hn0 hpre
    obtain ⟨-, -, bft⟩ := b7 (countP_isPlay_pos hplay)
    have hnm : hm.next_buffer < N := by rw [b5]; exact Nat.mod_lt _ hN
    obtain ⟨h1, t2, -, -, -, -, -, -, -, c8, -, c10⟩ := run_inv post wm w1 hm b1 hnm hm2
    refine ⟨t2, c8, ?_⟩
    rw [c10, bft]
    exact expectedSubmits_armed post hno

/-- C7 at a concrete input: the three submits of `example_stream_events` are one
arming submit followed by two streaming submits. -/
theorem C7_one_arming_submit_witness :
    submits (example_stream_final.trace.drop example_open.trace.length) =
      [SubmitKind.arming, SubmitKind.streaming, SubmitKind.streaming] ∧
    ((∃ t, example_stream_final.trace = example_open.trace ++ t ∧
      ((∀ hw, Event.play hw ∈ example_stream_events → hw.status ≠ SND_UNUSED) →
        submits t =
          (List.replicate (example_stream_events.countP Event.isPlay) SubmitKind.streaming).set 0
            SubmitKind.arming)) ∧
    (∀ pre post wm, example_stream_events = pre ++ post →
      run 2 example_open pre = Except.ok wm →
      (∃ hw, Event.play hw ∈ pre) →
      (∀ hw, Event.play hw ∈ post → hw.status ≠ SND_UNUSED) →
      ∃ t2, example_stream_final.trace = wm.trace ++ t2 ∧
        submits t2 = List.replicate (post.countP Event.isPlay) SubmitKind.streaming)) :=
  ⟨by decide,
    C7_one_arming_submit 2 example_env (World.init example_spec) example_open
      example_stream_final example_stream_events (by decide) (by decide) (by rfl)⟩

/-! ## The claims about `OGCAUD_WaitDevice` -/

/-- C8, counterexample: after the first submit on `example_open` the producer
calls `OGCAUD_WaitDevice` while the mixer holds slot 0 and the voice is playing,
and sleeps.  The callback of voice 0 then arrives while the mixer is in the same
state.  The producer is awake afterwards, that is `OGCAUD_WaitDevice` has
returned, the only call logged since the sleep is the signal (no status query),
and the mixer still holds `cur_buffer` with the voice playing. -/
theorem C8_counterexample :
    ∃ w1 w2 w3 h buf,
      run 2 example_open [Event.play hw_idle] = Except.ok w1 ∧
      step 2 w1 (Event.wait hw_busy) = Except.ok w2 ∧ w2.asleep = some 7 ∧
      step 2 w2 (Event.callback 0 hw_busy) = Except.ok w3 ∧ w3.asleep = none ∧
      w3.trace = w2.trace ++ [Call.LWP_ThreadSignal 7] ∧
      w3.dev.hidden = some h ∧ h.mixbufs[h.cur_buffer]? = some buf ∧
      ASND_TestPointer w3.hw h.channel buf ≠ 0 ∧
      ASND_StatusVoice w3.hw h.channel ≠ SND_UNUSED :=
  ⟨_, _, _, _, _, rfl, rfl, by decide, rfl, by decide, by decide, rfl, rfl, by decide, by decide⟩

/-- C8, amended: `OGCAUD_WaitDevice`, called by the awake producer on an open
device, consults the mixer once, on entry.  If the mixer no longer holds slot
`cur_buffer` (`ASND_TestPointer` is zero) or the voice is unused, it returns at
once without sleeping.  Otherwise it sleeps on the queue of the device, and the
first signal on that queue (posted by `ogc_play_callback` for a registered
voice) makes it return whatever state the mixer is in then, with no further
query of the mixer and no change to the device. -/
theorem C8_wait_checks_mixer_once (w : World) (h : SDL_PrivateAudioData) (buf : Nat)
    (hh : w.dev.hidden = some h) (hb : h.mixbufs[h.cur_buffer]? = some buf)
    (hawake : w.asleep = none) :
    ∃ w1, OGCAUD_WaitDevice w = Except.ok w1 ∧ w1.dev = w.dev ∧
      ((ASND_TestPointer w.hw h.channel buf = 0 ∨ ASND_StatusVoice w.hw h.channel = SND_UNUSED) →
        w1.asleep = none ∧ ∀ q, Call.LWP_ThreadSleep q ∉ w1.trace.drop w.trace.length) ∧
      (¬ (ASND_TestPointer w.hw h.channel buf = 0 ∨
            ASND_StatusVoice w.hw h.channel = SND_UNUSED) →
        w1.asleep = some h.queue ∧
        w1.trace = w.trace ++ [Call.ASND_TestPointer h.channel buf,
          Call.ASND_StatusVoice h.channel, Call.LWP_ThreadSleep h.queue] ∧
        ∀ voice hw1, w.s_callback_data[voice]? = some true →
          ∃ w2, ogc_play_callback voice { w1 with hw := hw1 } = Except.ok w2 ∧
            w2.asleep = none ∧ w2.hw = hw1 ∧ w2.dev = w.dev ∧
            w2.trace = w1.trace ++ [Call.LWP_ThreadSignal h.queue]) := by
  refine ⟨_, OGCAUD_WaitDevice_eq w h buf hh hb, ?_, ?_, ?_⟩
  · split
    · split <;> rfl
    · rfl
  · intro hc
    by_cases htp : ASND_TestPointer w.hw h.channel buf = 0
    · simp [htp, World.log, hawake]
    · rcases hc with hc | hc
      · exact absurd hc htp
      · simp [htp, hc, World.log, hawake]
  · intro hc
    simp only [not_or] at hc
    obtain ⟨htp, hst⟩ := hc
    simp only [bne_iff_ne, ne_eq, htp, hst, not_false_eq_true, ite_true]
    refine ⟨rfl, by simp [LWP_ThreadSleep, World.log], ?_⟩
    intro voice hw1 hreg
    refine ⟨LWP_ThreadSignal h.queue
      { LWP_ThreadSleep h.queue ((w.log (Call.ASND_TestPointer h.channel buf)).log
          (Call.ASND_StatusVoice h.channel)) with hw := hw1 }, ?_, ?_, ?_, ?_, ?_⟩
    · unfold ogc_play_callback
      simp [LWP_ThreadSleep, World.log, hreg, hh]
    all_goals simp [LWP_ThreadSignal, LWP_ThreadSleep, World.log]

/-- C8 (amended) at a concrete input: the wait of `example_armed`, whose mixer
still holds the slot just submitted. -/
theorem C8_wait_checks_mixer_once_witness :
    ∃ w1, OGCAUD_WaitDevice example_armed = Except.ok w1 ∧ w1.dev = example_armed.dev ∧
      ((ASND_TestPointer example_armed.hw 0 4096 = 0 ∨
          ASND_StatusVoice example_armed.hw 0 = SND_UNUSED) →
        w1.asleep = none ∧
          ∀ q, Call.LWP_ThreadSleep q ∉ w1.trace.drop example_armed.trace.length) ∧
      (¬ (ASND_TestPointer example_armed.hw 0 4096 = 0 ∨
            ASND_StatusVoice example_armed.hw 0 = SND_UNUSED) →
        w1.asleep = some 7 ∧
        w1.trace = example_armed.trace ++ [Call.ASND_TestPointer 0 4096,
          Call.ASND_StatusVoice 0, Call.LWP_ThreadSleep 7] ∧
        ∀ voice hw1, example_armed.s_callback_data[voice]? = some true →
          ∃ w2, ogc_play_callback voice { w1 with hw := hw1 } = Except.ok w2 ∧
            w2.asleep = none ∧ w2.hw = hw1 ∧ w2.dev = example_armed.dev ∧
            w2.trace = w1.trace ++ [Call.LWP_ThreadSignal 7]) :=
  C8_wait_checks_mixer_once example_armed example_armed_hidden 4096
    (by decide) (by decide) (by decide)

/-- C9, counterexample: on `example_open` the producer submits and then calls
`OGCAUD_WaitDevice` while the mixer reports the voice unused and holds no
buffer.  The call returns at once (the producer is awake afterwards), although
the execution contains no invocation of the completion callback and the log
contains no signal on any queue. -/
theorem C9_counterexample :
    ∃ w1, run 2 example_open [Event.play hw_idle, Event.wait hw_idle] = Except.ok w1 ∧
      w1.asleep = none ∧
      [Event.play hw_idle, Event.wait hw_idle].countP Event.isCallback = 0 ∧
      Call.LWP_ThreadSignal 7 ∉ w1.trace ∧
      w1.trace.drop example_open.trace.length =
        [Call.ASND_StatusVoice 0,
          Call.ASND_SetVoice 0 VoiceType.VOICE_STEREO_16BIT 32000 0 4096 512 255 255,
          Call.ASND_TestPointer 0 4096] :=
  ⟨_, rfl, by decide, by decide, by decide, by decide⟩

/-- C9, amended: take any call of `OGCAUD_WaitDevice` in an execution of the
play loop and any continuation of the execution, which may contain the close
of the device.  If the call found on entry that the mixer no longer holds slot
`cur_buffer` or that the voice is unused, it has returned at once and has
posted or needed no signal.  If it went to sleep and the producer is awake at
the end of the continuation, then the continuation contains a step before
which the producer still sleeps and which posts the signal on the queue the
producer sleeps on and wakes it; that step is an invocation of
`ogc_play_callback`, or it is the call of `OGCAUD_CloseDevice`, which signals
the gate after stopping the voice and leaves `hidden` null. -/
theorem C9_sleeping_wait_returns_on_signal (N : Nat) (wa wb w1 : World) (hw : Hardware)
    (post : List DeviceEvent)
    (hwait : step N wa (Event.wait hw) = Except.ok wb)
    (hpost : run_with_close N wb post = Except.ok w1) :
    (wb.asleep = none →
      ∃ h buf, wa.dev.hidden = some h ∧ h.mixbufs[h.cur_buffer]? = some buf ∧
        (ASND_TestPointer hw h.channel buf = 0 ∨ ASND_StatusVoice hw h.channel = SND_UNUSED) ∧
        ∀ q, Call.LWP_ThreadSignal q ∉ wb.trace.drop wa.trace.length) ∧
    (∀ q, wb.asleep = some q → w1.asleep = none →
      ∃ p1 ev p2 wc wd, post = p1 ++ ev :: p2 ∧
        run_with_close N wb p1 = Except.ok wc ∧ wc.asleep = some q ∧
        step_with_close N wc ev = Except.ok wd ∧ wd.asleep = none ∧
        ((∃ v hwc, ev = DeviceEvent.loop (Event.callback v hwc) ∧
            wd.trace = wc.trace ++ [Call.LWP_ThreadSignal q]) ∨
          (ev = DeviceEvent.close ∧ wd.dev.hidden = none ∧
            ∃ h rest, wc.dev.hidden = some h ∧ h.queue = q ∧
              wd.trace = wc.trace ++ [Call.ASND_StopVoice h.channel,
                Call.LWP_ThreadSignal q, Call.LWP_CloseQueue q] ++ rest)) ∧
        run_with_close N wd p2 = Except.ok w1) := by
  constructor
  · intro hawake
    simp only [step] at hwait
    split at hwait
    · simp at hwait
    · cases hh : wa.dev.hidden with
      | none => simp [OGCAUD_WaitDevice, hh] at hwait
      | some h =>
        cases hb : h.mixbufs[h.cur_buffer]? with
        | none => simp [OGCAUD_WaitDevice, hh, hb] at hwait
        | some buf =>
          rw [OGCAUD_WaitDevice_eq { wa with hw := hw } h buf hh hb] at hwait
          simp only [Except.ok.injEq] at hwait
          subst hwait
          refine ⟨h, buf, rfl, hb, ?_, ?_⟩
          · by_contra hcon
            simp only [not_or] at hcon
            simp [hcon.1, hcon.2, LWP_ThreadSleep] at hawake
          · intro q
            split
            · split <;> simp [LWP_ThreadSleep, World.log]
            · simp [World.log]
  · intro q hq hret
    exact run_with_close_asleep_woken post wb w1 q hq hpost hret

/-- C9 (amended) at two concrete inputs: the sleeping wait of `example_armed`
followed by the callback that wakes it, and the same wait followed by the close
of the device, which wakes it with no callback. -/
theorem C9_sleeping_wait_returns_on_signal_witness :
    example_sleeping.asleep = some 7 ∧ example_woken.asleep = none ∧
    example_closed_while_sleeping.asleep = none ∧
    (∀ q, example_sleeping.asleep = some q → example_woken.asleep = none →
      ∃ p1 ev p2 wc wd,
        [DeviceEvent.loop (Event.callback 0 hw_busy)] = p1 ++ ev :: p2 ∧
        run_with_close 2 example_sleeping p1 = Except.ok wc ∧ wc.asleep = some q ∧
        step_with_close 2 wc ev = Except.ok wd ∧ wd.asleep = none ∧
        ((∃ v hwc, ev = DeviceEvent.loop (Event.callback v hwc) ∧
            wd.trace = wc.trace ++ [Call.LWP_ThreadSignal q]) ∨
          (ev = DeviceEvent.close ∧ wd.dev.hidden = none ∧
            ∃ h rest, wc.dev.hidden = some h ∧ h.queue = q ∧
              wd.trace = wc.trace ++ [Call.ASND_StopVoice h.channel,
                Call.LWP_ThreadSignal q, Call.LWP_CloseQueue q] ++ rest)) ∧
        run_with_close 2 wd p2 = Except.ok example_woken) ∧
    (∀ q, example_sleeping.asleep = some q → example_closed_while_sleeping.asleep = none →
      ∃ p1 ev p2 wc wd, [DeviceEvent.close] = p1 ++ ev :: p2 ∧
        run_with_close 2 example_sleeping p1 = Except.ok wc ∧ wc.asleep = some q ∧
        step_with_close 2 wc ev = Except.ok wd ∧ wd.asleep = none ∧
        ((∃ v hwc, ev = DeviceEvent.loop (Event.callback v hwc) ∧
            wd.trace = wc.trace ++ [Call.LWP_ThreadSignal q]) ∨
          (ev = DeviceEvent.close ∧ wd.dev.hidden = none ∧
            ∃ h rest, wc.dev.hidden = some h ∧ h.queue = q ∧
              wd.trace = wc.trace ++ [Call.ASND_StopVoice h.channel,
                Call.LWP_ThreadSignal q, Call.LWP_CloseQueue q] ++ rest)) ∧
        run_with_close 2 wd p2 = Except.ok example_closed_while_sleeping) :=
  ⟨by decide, by decide, by decide,
    (C9_sleeping_wait_returns_on_signal 2 example_armed example_sleeping example_woken hw_busy
      [DeviceEvent.loop (Event.callback 0 hw_busy)] (by rfl) (by rfl)).2,
    (C9_sleeping_wait_returns_on_signal 2 example_armed example_sleeping
      example_closed_while_sleeping hw_busy [DeviceEvent.close] (by rfl) (by rfl)).2⟩

/-! ## The claim about the cursor and the completion callback -/

/-- C10, counterexample: after the first submit on `example_open`, with no
completion callback invoked yet, `next_buffer` is 1, not `0 mod 2`. -/
theorem C10_counterexample :
    ∃ w1 h1, run 2 example_open [Event.play hw_idle] = Except.ok w1 ∧
      w1.dev.hidden = some h1 ∧
      [Event.play hw_idle].countP Event.isCallback = 0 ∧
      h1.next_buffer = 1 ∧
      h1.next_buffer ≠ [Event.play hw_idle].countP Event.isCallback % 2 :=
  ⟨_, _, rfl, rfl, by decide, by decide, by decide⟩

/-- C10, amended: `next_buffer` is 0 immediately after a successful open (with a
positive `NUM_BUFFERS`), and after an execution with `k` submits, whatever the
number of completion callbacks in it, `next_buffer` equals
`k mod NUM_BUFFERS`. -/
theorem C10_cursor_counts_submits (N : Nat) (env : OpenEnv) (w0 w w1 : World)
    (evs : List Event) (hN : 0 < N)
    (hopen : OGCAUD_OpenDevice N env w0 = (0, w)) (hrun : run N w evs = Except.ok w1) :
    ∃ hd h1, w.dev.hidden = some hd ∧ hd.next_buffer = 0 ∧ w1.dev.hidden = some h1 ∧
      h1.next_buffer = evs.countP Event.isPlay % N := by
  obtain ⟨hd, hhid, -, hnext, -⟩ := OGCAUD_OpenDevice_ok_hidden hopen
  obtain ⟨h1, t, a1, -, -, -, a5, -⟩ := run_inv evs w w1 hd hhid (by rw [hnext]; exact hN) hrun
  refine ⟨hd, h1, hhid, hnext, a1, ?_⟩
  rw [a5, hnext, Nat.zero_add]

/-- C10 (amended) at a concrete input: `example_events` has two submits and one
callback, and leaves `next_buffer = 2 mod 2`. -/
theorem C10_cursor_counts_submits_witness :
    example_events.countP Event.isPlay = 2 ∧ example_events.countP Event.isCallback = 1 ∧
    ∃ hd h1, example_open.dev.hidden = some hd ∧ hd.next_buffer = 0 ∧
      example_final.dev.hidden = some h1 ∧
      h1.next_buffer = example_events.countP Event.isPlay % 2 :=
  ⟨by decide, by decide,
    C10_cursor_counts_submits 2 example_env (World.init example_spec) example_open
      example_final example_events (by decide) (by decide) (by rfl)⟩

/-! ## The claims about `OGCAUD_CloseDevice` -/

/-- The result of `OGCAUD_CloseDevice` on a device that has a pool and a gate:
the five external calls in source order, the producer released if it sleeps on
the gate, the table entry of the channel cleared and the record gone. -/
theorem OGCAUD_CloseDevice_eq (w : World) (h : SDL_PrivateAudioData)
    (hh : w.dev.hidden = some h) (hraw : h.rawbuf ≠ 0) (hq : h.queue ≠ LWP_TQUEUE_NULL) :
    OGCAUD_CloseDevice w = Except.ok
      { dev := { w.dev with hidden := none },
        s_callback_data := w.s_callback_data.set h.channel false,
        asleep := if w.asleep = some h.queue then none else w.asleep,
        hw := w.hw,
        trace := w.trace ++ [Call.ASND_StopVoice h.channel, Call.LWP_ThreadSignal h.queue,
          Call.LWP_CloseQueue h.queue, Call.free h.rawbuf, Call.SDL_free] } := by
  unfold OGCAUD_CloseDevice
  rw [hh]
  simp only [bne_iff_ne, ne_eq, hq, not_false_eq_true, ite_true, hraw]
  by_cases hs : w.asleep = some h.queue
  · simp [LWP_ThreadSignal, World.log, World.setHidden, hs]
  · simp [LWP_ThreadSignal, World.log, World.setHidden, hs]

/-- The result of `OGCAUD_CloseDevice` on a device that has a pool but whose
queue handle is `LWP_TQUEUE_NULL`: the guard of line 211 skips the signal and
the closing of the queue. -/
theorem OGCAUD_CloseDevice_eq_nogate (w : World) (h : SDL_PrivateAudioData)
    (hh : w.dev.hidden = some h) (hraw : h.rawbuf ≠ 0) (hq : h.queue = LWP_TQUEUE_NULL) :
    OGCAUD_CloseDevice w = Except.ok
      { dev := { w.dev with hidden := none },
        s_callback_data := w.s_callback_data.set h.channel false,
        asleep := w.asleep,
        hw := w.hw,
        trace := w.trace ++ [Call.ASND_StopVoice h.channel, Call.free h.rawbuf, Call.SDL_free] } := by
  unfold OGCAUD_CloseDevice
  rw [hh]
  simp [hq, hraw, World.log, World.setHidden]

/-- The private record in a state reached from a successful open: the channel,
the pool address and the queue handle are the ones the open stored, the slot
table has `NUM_BUFFERS` entries, and the table entry of channel 0 is set. -/
theorem run_open_hidden {N : Nat} {env : OpenEnv} {w0 w w1 : World} {evs : List Event}
    (hN : 0 < N) (hopen : OGCAUD_OpenDevice N env w0 = (0, w))
    (hrun : run N w evs = Except.ok w1) :
    ∃ h1, w1.dev.hidden = some h1 ∧ h1.channel = 0 ∧ h1.rawbuf = env.rawbuf ∧
      env.rawbuf ≠ 0 ∧ h1.queue = env.queue ∧ h1.mixbufs.length = N ∧
      w1.s_callback_data = w0.s_callback_data.set 0 true ∧ w1.dev.spec = w.dev.spec := by
  obtain ⟨hd, -, -, hraw, -, hhid, hreg, -⟩ := OGCAUD_OpenDevice_ok hopen
  obtain ⟨h1, t, a1, a2, a3, a4, -⟩ := run_inv evs w w1 _ hhid (by simpa using hN) hrun
  refine ⟨h1, a1, ?_, ?_, hraw, ?_, ?_, by rw [a3, hreg], a2⟩
  all_goals rw [a4]
  simp

/-- C12, counterexample: `example_open_nogate` is an open device (the open
returned 0) whose queue handle is `LWP_TQUEUE_NULL`.  Closing it stops the
voice, frees the pool and releases the record, but posts no signal and closes
no queue: the guard of line 211 skips both. -/
theorem C12_counterexample :
    (OGCAUD_OpenDevice 2 example_env_nogate (World.init example_spec)).1 = 0 ∧
    ∃ w2 h, example_open_nogate.dev.hidden = some h ∧
      OGCAUD_CloseDevice example_open_nogate = Except.ok w2 ∧
      w2.trace = example_open_nogate.trace ++
        [Call.ASND_StopVoice 0, Call.free 4096, Call.SDL_free] ∧
      Call.LWP_ThreadSignal h.queue ∉ w2.trace ∧ w2.dev.hidden = none :=
  ⟨by decide, _, _, rfl, rfl, by decide, by decide, by decide⟩

/-- C12, amended: in every state reached from a successful open (with a positive
`NUM_BUFFERS` and the eight-entry callback table) by any execution of the play
loop, whether or not the mixer has completed a slot, `OGCAUD_CloseDevice`
returns, leaves `hidden` null and the table entry of the channel empty, and
performs its external calls in this order.  When the gate exists (the queue
handle is not `LWP_TQUEUE_NULL`): stop the voice, signal the gate, close the
gate, free the pool, release the record; the signal precedes the freeing of
the pool and a producer sleeping on the gate is awake afterwards.  When the
gate was never created: stop the voice, free the pool, release the record. -/
theorem C12_close_order (N : Nat) (env : OpenEnv) (w0 w w1 : World) (evs : List Event)
    (hN : 0 < N) (hreg : w0.s_callback_data.length = 8)
    (hopen : OGCAUD_OpenDevice N env w0 = (0, w)) (hrun : run N w evs = Except.ok w1) :
    ∃ w2, OGCAUD_CloseDevice w1 = Except.ok w2 ∧ w2.dev.hidden = none ∧
      w1.s_callback_data[0]? = some true ∧ w2.s_callback_data[0]? = some false ∧
      (env.queue ≠ LWP_TQUEUE_NULL →
        w2.trace = w1.trace ++ [Call.ASND_StopVoice 0, Call.LWP_ThreadSignal env.queue,
          Call.LWP_CloseQueue env.queue, Call.free env.rawbuf, Call.SDL_free] ∧
        (w1.asleep = some env.queue → w2.asleep = none)) ∧
      (env.queue = LWP_TQUEUE_NULL →
        w2.trace = w1.trace ++ [Call.ASND_StopVoice 0, Call.free env.rawbuf, Call.SDL_free]) := by
  obtain ⟨h1, a1, hch, hraw, hraw0, hq, -, hcb, -⟩ := run_open_hidden hN hopen hrun
  have hreg1 : w1.s_callback_data[0]? = some true := by
    rw [hcb]; simp [List.getElem?_set, hreg]
  by_cases hgate : env.queue = LWP_TQUEUE_NULL
  · refine ⟨_, OGCAUD_CloseDevice_eq_nogate w1 h1 a1 (by rw [hraw]; exact hraw0)
      (by rw [hq]; exact hgate), rfl, hreg1, ?_, ?_, ?_⟩
    · simp [hch, hcb, List.getElem?_set, hreg]
    · intro hne; exact absurd hgate hne
    · intro _; simp [hch, hraw]
  · refine ⟨_, OGCAUD_CloseDevice_eq w1 h1 a1 (by rw [hraw]; exact hraw0)
      (by rw [hq]; exact hgate), rfl, hreg1, ?_, ?_, ?_⟩
    · simp [hch, hcb, List.getElem?_set, hreg]
    · intro _
      refine ⟨by simp [hch, hraw, hq], ?_⟩
      intro hs
      simp [hq, hs]
    · intro he; exact absurd he hgate

/-- C12 (amended) at a concrete input: closing `example_sleeping`, reached from
`example_open` by a submit and a wait that went to sleep. -/
theorem C12_close_order_witness :
    example_sleeping.asleep = some 7 ∧ example_closed_while_sleeping.asleep = none ∧
    ∃ w2, OGCAUD_CloseDevice example_sleeping = Except.ok w2 ∧ w2.dev.hidden = none ∧
      example_sleeping.s_callback_data[0]? = some true ∧
      w2.s_callback_data[0]? = some false ∧
      (example_env.queue ≠ LWP_TQUEUE_NULL →
        w2.trace = example_sleeping.trace ++ [Call.ASND_StopVoice 0,
          Call.LWP_ThreadSignal example_env.queue, Call.LWP_CloseQueue example_env.queue,
          Call.free example_env.rawbuf, Call.SDL_free] ∧
        (example_sleeping.asleep = some example_env.queue → w2.asleep = none)) ∧
      (example_env.queue = LWP_TQUEUE_NULL →
        w2.trace = example_sleeping.trace ++
          [Call.ASND_StopVoice 0, Call.free example_env.rawbuf, Call.SDL_free]) :=
  ⟨by decide, by decide,
    C12_close_order 2 example_env (World.init example_spec) example_open example_sleeping
      [Event.play hw_idle, Event.wait hw_busy] (by decide) (by decide) (by decide) (by rfl)⟩

/-! ## More claims about `OGCAUD_OpenDevice` -/

/-- What a failed `OGCAUD_OpenDevice` leaves behind, by cause of the failure:
the result is `-1`, `hidden` is null, the table, the producer and the mixer are
untouched, and the external calls are those of the path taken. -/
theorem OGCAUD_OpenDevice_fail {N : Nat} {env : OpenEnv} {w0 w : World} {r : Int}
    (h : OGCAUD_OpenDevice N env w0 = (r, w)) (hr : r ≠ 0) :
    r = SDL_ERROR_RETURN ∧ w.dev.hidden = none ∧ w.s_callback_data = w0.s_callback_data ∧
      w.asleep = w0.asleep ∧ w.hw = w0.hw ∧
      ((env.hidden_ok = false ∧
          w.trace = w0.trace ++ [Call.SDL_malloc, Call.SDL_SetError ErrorMsg.out_of_memory]) ∨
        (env.hidden_ok = true ∧
          (OGCAUD_OpenDevice_switch w0.dev.spec (zeroed_hidden N)).2 = none ∧
          w.trace = w0.trace ++ [Call.SDL_malloc, Call.SDL_free,
            Call.SDL_SetError ErrorMsg.unsupported_format]) ∨
        (env.hidden_ok = true ∧ env.rawbuf = 0 ∧
          (OGCAUD_OpenDevice_switch w0.dev.spec (zeroed_hidden N)).2 ≠ none ∧
          w.trace = w0.trace ++ [Call.SDL_malloc,
            Call.memalign 64 ((w.dev.spec.size * N) % 2 ^ 32), Call.SDL_free,
            Call.SDL_SetError ErrorMsg.mixbuf_alloc])) := by
  unfold OGCAUD_OpenDevice at h
  simp only [] at h
  split at h
  · rename_i hok
    simp only [Prod.mk.injEq] at h
    obtain ⟨h1, h2⟩ := h
    subst h2
    refine ⟨h1.symm, rfl, rfl, rfl, rfl, Or.inl ⟨by simpa using hok, ?_⟩⟩
    simp [World.log, World.setHidden]
  · rename_i hok
    split at h
    · rename_i hsw
      simp only [Prod.mk.injEq] at h
      obtain ⟨h1, h2⟩ := h
      subst h2
      refine ⟨h1.symm, rfl, rfl, rfl, rfl, Or.inr (Or.inl ⟨by simpa using hok, ?_, ?_⟩)⟩
      · simpa [World.log, World.setSpec] using hsw
      · simp [World.log, World.setHidden, World.setSpec]
    · rename_i hd hsw
      split at h
      · rename_i hraw
        simp only [Prod.mk.injEq] at h
        obtain ⟨h1, h2⟩ := h
        subst h2
        refine ⟨h1.symm, rfl, rfl, rfl, rfl,
          Or.inr (Or.inr ⟨by simpa using hok, by simpa using hraw, ?_, ?_⟩)⟩
        · have hsw1 : (OGCAUD_OpenDevice_switch w0.dev.spec (zeroed_hidden N)).2 = some hd := by
            simpa [World.log, World.setSpec] using hsw
          rw [hsw1]
          simp
        · simp [World.log, World.setHidden, World.setSpec]
      · simp only [Prod.mk.injEq] at h
        exact absurd h.1.symm hr

/-- The result of `OGCAUD_OpenDevice` is `0` or `-1`. -/
theorem OGCAUD_OpenDevice_result (N : Nat) (env : OpenEnv) (w0 : World) :
    (OGCAUD_OpenDevice N env w0).1 = 0 ∨ (OGCAUD_OpenDevice N env w0).1 = SDL_ERROR_RETURN := by
  unfold OGCAUD_OpenDevice
  simp only []
  split
  · exact Or.inr rfl
  · split
    · exact Or.inr rfl
    · split
      · exact Or.inr rfl
      · exact Or.inl rfl

/-- C13: whenever `OGCAUD_OpenDevice` fails (returns a non-zero result), the
result is negative, the cause is one of three (the record could not be
allocated, the format switch rejected the request, or `memalign` returned
null), and the failure is rolled back: `hidden` is null, the callback table is
unchanged, no queue has been created (`LWP_InitQueue` is not called), a record
that was allocated has been released by `SDL_free`, and no pool remains
(`memalign` was either not called or returned null). -/
theorem C13_failed_open_rolls_back (N : Nat) (env : OpenEnv) (w0 w : World) (r : Int)
    (hopen : OGCAUD_OpenDevice N env w0 = (r, w)) (hfail : r ≠ 0) :
    r < 0 ∧ w.dev.hidden = none ∧ w.s_callback_data = w0.s_callback_data ∧
      (env.hidden_ok = false ∨
        (OGCAUD_OpenDevice_switch w0.dev.spec (zeroed_hidden N)).2 = none ∨ env.rawbuf = 0) ∧
      ∃ t, w.trace = w0.trace ++ t ∧ Call.LWP_InitQueue ∉ t ∧
        (env.hidden_ok = true → Call.SDL_free ∈ t) ∧
        (∀ a sz, Call.memalign a sz ∈ t → env.rawbuf = 0) ∧
        (∀ c ∈ t, c.submitKind = none) := by
  obtain ⟨hr, hhid, hcb, -, -, hcase⟩ := OGCAUD_OpenDevice_fail hopen hfail
  refine ⟨by rw [hr]; decide, hhid, hcb, ?_, ?_⟩
  · rcases hcase with ⟨h1, -⟩ | ⟨-, h2, -⟩ | ⟨-, h3, -⟩
    · exact Or.inl h1
    · exact Or.inr (Or.inl h2)
    · exact Or.inr (Or.inr h3)
  · rcases hcase with ⟨h1, ht⟩ | ⟨h1, -, ht⟩ | ⟨h1, h3, -, ht⟩
    · exact ⟨_, ht, by simp, by simp [h1], by simp, by simp [Call.submitKind]⟩
    · exact ⟨_, ht, by simp, by simp, by simp, by simp [Call.submitKind]⟩
    · exact ⟨_, ht, by simp, by simp, by simp [h3], by simp [Call.submitKind]⟩

/-- C13 at concrete inputs: the open of the unsigned 8-bit request
`example_spec_u8` fails in the format switch, and the open of `example_spec`
fails when `memalign` returns null. -/
theorem C13_failed_open_rolls_back_witness :
    ((-1 : Int) < 0 ∧ example_failed_open.dev.hidden = none ∧
      example_failed_open.s_callback_data = (World.init example_spec_u8).s_callback_data ∧
      (example_env.hidden_ok = false ∨
        (OGCAUD_OpenDevice_switch (World.init example_spec_u8).dev.spec (zeroed_hidden 2)).2 = none ∨
        example_env.rawbuf = 0) ∧
      ∃ t, example_failed_open.trace = (World.init example_spec_u8).trace ++ t ∧
        Call.LWP_InitQueue ∉ t ∧
        (example_env.hidden_ok = true → Call.SDL_free ∈ t) ∧
        (∀ a sz, Call.memalign a sz ∈ t → example_env.rawbuf = 0) ∧
        (∀ c ∈ t, c.submitKind = none)) ∧
    (OGCAUD_OpenDevice 2 example_env_nopool (World.init example_spec)).1 = -1 ∧
    (OGCAUD_OpenDevice 2 example_env_nopool (World.init example_spec)).2.dev.hidden = none ∧
    (OGCAUD_OpenDevice 2 example_env_nomem (World.init example_spec)).1 = -1 :=
  ⟨C13_failed_open_rolls_back 2 example_env (World.init example_spec_u8) example_failed_open
      (-1) (by decide) (by decide),
    by decide, by decide, by decide⟩

/-! ## The claims about the completion callback and the frame of the play loop -/

/-- C14: in every state reached from a successful open (with a positive
`NUM_BUFFERS` and the eight-entry callback table) by any execution of the play
loop, an invocation of `ogc_play_callback` for the voice of the device,
whatever the state of the mixer and whether or not the producer sleeps, returns
and logs exactly one external call, `LWP_ThreadSignal` on the queue of the
device; it changes neither the device (spec, `next_buffer`, `cur_buffer`,
`first_time`, pool and slot table) nor the callback table.  The device and the
table are also unchanged by an invocation for any other voice. -/
theorem C14_callback_only_signals (N : Nat) (env : OpenEnv) (w0 w w1 : World)
    (evs : List Event) (hw : Hardware)
    (hN : 0 < N) (hreg : w0.s_callback_data.length = 8)
    (hopen : OGCAUD_OpenDevice N env w0 = (0, w)) (hrun : run N w evs = Except.ok w1) :
    (∃ h1 w2, w1.dev.hidden = some h1 ∧
      ogc_play_callback h1.channel { w1 with hw := hw } = Except.ok w2 ∧
      w2.trace = w1.trace ++ [Call.LWP_ThreadSignal h1.queue] ∧
      w2.dev = w1.dev ∧ w2.s_callback_data = w1.s_callback_data ∧ w2.hw = hw ∧
      w2.asleep = (if w1.asleep = some h1.queue then none else w1.asleep)) ∧
    (∀ voice w2, ogc_play_callback voice { w1 with hw := hw } = Except.ok w2 →
      w2.dev = w1.dev ∧ w2.s_callback_data = w1.s_callback_data) := by
  obtain ⟨h1, a1, hch, -, -, -, -, hcb, -⟩ := run_open_hidden hN hopen hrun
  constructor
  · refine ⟨h1, LWP_ThreadSignal h1.queue { w1 with hw := hw }, a1, ?_, ?_, ?_, ?_, ?_, ?_⟩
    · unfold ogc_play_callback
      have : w1.s_callback_data[h1.channel]? = some true := by
        rw [hch, hcb]; simp [List.getElem?_set, hreg]
      simp [this, a1]
    · simp [LWP_ThreadSignal, World.log]
      split <;> rfl
    · simp only [LWP_ThreadSignal, World.log]
      split <;> rfl
    · simp only [LWP_ThreadSignal, World.log]
      split <;> rfl
    · simp only [LWP_ThreadSignal, World.log]
      split <;> rfl
    · simp only [LWP_ThreadSignal, World.log]
      split <;> rfl
  · intro voice w2 hc
    rcases ogc_play_callback_cases hc with e | ⟨h, -, -, e⟩
    · rw [e]; exact ⟨rfl, rfl⟩
    · rw [e]
      simp only [LWP_ThreadSignal, World.log]
      split <;> exact ⟨rfl, rfl⟩

/-- C14 at a concrete input: the callback of voice 0 in `example_sleeping`, where
the producer sleeps on the queue of the device. -/
theorem C14_callback_only_signals_witness :
    example_woken.trace = example_sleeping.trace ++ [Call.LWP_ThreadSignal 7] ∧
    ((∃ h1 w2, example_sleeping.dev.hidden = some h1 ∧
      ogc_play_callback h1.channel { example_sleeping with hw := hw_busy } = Except.ok w2 ∧
      w2.trace = example_sleeping.trace ++ [Call.LWP_ThreadSignal h1.queue] ∧
      w2.dev = example_sleeping.dev ∧
      w2.s_callback_data = example_sleeping.s_callback_data ∧ w2.hw = hw_busy ∧
      w2.asleep =
        (if example_sleeping.asleep = some h1.queue then none else example_sleeping.asleep)) ∧
    (∀ voice w2, ogc_play_callback voice { example_sleeping with hw := hw_busy } = Except.ok w2 →
      w2.dev = example_sleeping.dev ∧
      w2.s_callback_data = example_sleeping.s_callback_data)) :=
  ⟨by decide,
    C14_callback_only_signals 2 example_env (World.init example_spec) example_open
      example_sleeping [Event.play hw_idle, Event.wait hw_busy] hw_busy
      (by decide) (by decide) (by decide) (by rfl)⟩

/-- The sample rate `OGCAUD_OpenDevice` stores: the requested one when it is
32000 or 48000, and 32000 otherwise. -/
theorem OGCAUD_OpenDevice_ok_freq {N : Nat} {env : OpenEnv} {w0 w : World}
    (h : OGCAUD_OpenDevice N env w0 = (0, w)) :
    w.dev.spec.freq =
      (if w0.dev.spec.freq = 32000 ∨ w0.dev.spec.freq = 48000 then w0.dev.spec.freq
        else 32000) := by
  obtain ⟨hd, hsw, -, -, hspec, -⟩ := OGCAUD_OpenDevice_ok h
  obtain ⟨-, -, hs1, -⟩ := OGCAUD_OpenDevice_switch_some hsw
  rw [hspec, hs1]
  unfold OGCAUD_OpenDevice_spec SDL_CalculateAudioSpec
  by_cases h1 : w0.dev.spec.freq = 32000
  · simp [h1]
  · by_cases h2 : w0.dev.spec.freq = 48000
    · simp [h2]
    · simp [h1, h2]

/-- C15, counterexample: the request of 44100 Hz of `example_spec` is opened
with 32000 Hz, although 48000 is the closer of the two supported rates. -/
theorem C15_counterexample :
    example_spec.freq = 44100 ∧
    (OGCAUD_OpenDevice 2 example_env (World.init example_spec)).1 = 0 ∧
    example_open.dev.spec.freq = 32000 ∧
    (48000 - example_spec.freq).natAbs < (32000 - example_spec.freq).natAbs := by
  decide

/-- C15, amended: after a successful `OGCAUD_OpenDevice` the sample rate is
32000 or 48000; a request of 32000 or 48000 is kept unchanged, and every other
request becomes 32000 (which is the closer supported rate only for requests
below 40000). -/
theorem C15_rate_falls_back_to_32000 (N : Nat) (env : OpenEnv) (w0 w : World)
    (hopen : OGCAUD_OpenDevice N env w0 = (0, w)) :
    (w.dev.spec.freq = 32000 ∨ w.dev.spec.freq = 48000) ∧
      (w0.dev.spec.freq = 32000 ∨ w0.dev.spec.freq = 48000 →
        w.dev.spec.freq = w0.dev.spec.freq) ∧
      (w0.dev.spec.freq ≠ 32000 → w0.dev.spec.freq ≠ 48000 → w.dev.spec.freq = 32000) ∧
      (w0.dev.spec.freq < 40000 →
        (32000 - w0.dev.spec.freq).natAbs ≤ (48000 - w0.dev.spec.freq).natAbs ∧
        (w0.dev.spec.freq ≠ 48000 → w.dev.spec.freq = 32000)) := by
  have hf := OGCAUD_OpenDevice_ok_freq hopen
  by_cases h1 : w0.dev.spec.freq = 32000
  · rw [if_pos (Or.inl h1)] at hf
    refine ⟨Or.inl (hf.trans h1), fun _ => hf, fun h => absurd h1 h, fun _ => ⟨by omega, ?_⟩⟩
    intro _; exact hf.trans h1
  · by_cases h2 : w0.dev.spec.freq = 48000
    · rw [if_pos (Or.inr h2)] at hf
      refine ⟨Or.inr (hf.trans h2), fun _ => hf, fun _ h => absurd h2 h,
        fun _ => ⟨by omega, fun h => absurd h2 h⟩⟩
    · rw [if_neg (by simp [h1, h2])] at hf
      refine ⟨Or.inl hf, ?_, fun _ _ => hf, fun _ => ⟨by omega, fun _ => hf⟩⟩
      intro h
      rcases h with h | h
      · exact absurd h h1
      · exact absurd h h2

/-- C15 (amended) at a concrete input: the request of 44100 Hz of
`example_spec`. -/
theorem C15_rate_falls_back_to_32000_witness :
    (example_open.dev.spec.freq = 32000 ∨ example_open.dev.spec.freq = 48000) ∧
      ((44100 : Int) = 32000 ∨ (44100 : Int) = 48000 → example_open.dev.spec.freq = 44100) ∧
      ((44100 : Int) ≠ 32000 → (44100 : Int) ≠ 48000 → example_open.dev.spec.freq = 32000) ∧
      ((44100 : Int) < 40000 →
        (32000 - (44100 : Int)).natAbs ≤ (48000 - (44100 : Int)).natAbs ∧
        ((44100 : Int) ≠ 48000 → example_open.dev.spec.freq = 32000)) :=
  C15_rate_falls_back_to_32000 2 example_env (World.init example_spec) example_open
    (by decide)

/-- The voice format a successful `OGCAUD_OpenDevice` stores: the 16-bit mono
format for one requested channel, the 16-bit stereo format otherwise. -/
theorem OGCAUD_OpenDevice_ok_output_type {N : Nat} {env : OpenEnv} {w0 w : World}
    (h : OGCAUD_OpenDevice N env w0 = (0, w)) :
    ∃ hd, w.dev.hidden = some hd ∧
      hd.output_type = (if w0.dev.spec.channels = 1 then VoiceType.VOICE_MONO_16BIT
        else VoiceType.VOICE_STEREO_16BIT) := by
  obtain ⟨hd, hsw, -, -, -, hhid, -⟩ := OGCAUD_OpenDevice_ok h
  obtain ⟨-, -, -, hs2⟩ := OGCAUD_OpenDevice_switch_some hsw
  refine ⟨_, hhid, ?_⟩
  rw [hs2]

/-- C16: after every successful `OGCAUD_OpenDevice` the channel count is 1 if 1
was requested and 2 otherwise, and the voice format in `output_type` agrees
with the final spec: it is a mono format if and only if the channel count is
1, and its bit depth and signedness are those of the final `spec.format`. -/
theorem C16_channels_and_voice_type (N : Nat) (env : OpenEnv) (w0 w : World)
    (hopen : OGCAUD_OpenDevice N env w0 = (0, w)) :
    w.dev.spec.channels = (if w0.dev.spec.channels = 1 then 1 else 2) ∧
    ∃ hd, w.dev.hidden = some hd ∧
      (hd.output_type.isMono = true ↔ w.dev.spec.channels = 1) ∧
      hd.output_type.bits = SDL_AUDIO_BITSIZE w.dev.spec.format ∧
      hd.output_type.isSigned = SDL_AUDIO_ISSIGNED w.dev.spec.format := by
  obtain ⟨hfmt, hch, -, -, -⟩ := OGCAUD_OpenDevice_ok_spec hopen
  obtain ⟨hd, hhid, hot⟩ := OGCAUD_OpenDevice_ok_output_type hopen
  refine ⟨hch, hd, hhid, ?_, ?_, ?_⟩
  · rw [hot, hch]
    by_cases h1 : w0.dev.spec.channels = 1 <;> simp [h1, VoiceType.isMono]
  · rw [hot, hfmt]
    by_cases h1 : w0.dev.spec.channels = 1 <;> simp [h1, VoiceType.bits] <;> decide
  · rw [hot, hfmt]
    by_cases h1 : w0.dev.spec.channels = 1 <;> simp [h1, VoiceType.isSigned] <;> decide

/-- C16 at a concrete input: the stereo request `example_spec`. -/
theorem C16_channels_and_voice_type_witness :
    example_open.dev.spec.channels = (if (2 : Nat) = 1 then 1 else 2) ∧
    ∃ hd, example_open.dev.hidden = some hd ∧
      (hd.output_type.isMono = true ↔ example_open.dev.spec.channels = 1) ∧
      hd.output_type.bits = SDL_AUDIO_BITSIZE example_open.dev.spec.format ∧
      hd.output_type.isSigned = SDL_AUDIO_ISSIGNED example_open.dev.spec.format :=
  C16_channels_and_voice_type 2 example_env (World.init example_spec) example_open
    (by decide)

/-- The buffer byte size after a successful open is at most 65535 frames of two
channels of two bytes. -/
theorem OGCAUD_OpenDevice_ok_size_le {N : Nat} {env : OpenEnv} {w0 w : World}
    (h : OGCAUD_OpenDevice N env w0 = (0, w)) : w.dev.spec.size ≤ 262140 := by
  obtain ⟨hfmt, hch, hsamp, hsize, -⟩ := OGCAUD_OpenDevice_ok_spec h
  have hbits : SDL_AUDIO_BITSIZE AUDIO_S16SYS / 8 = 2 := by decide
  have h1 : w.dev.spec.samples ≤ 65535 := by
    rw [hsamp]
    have := Nat.mod_lt (OGC_AUDIO_SAMPLE_ALIGN w0.dev.spec.samples) (by norm_num : 0 < 2 ^ 16)
    omega
  have h2 : w.dev.spec.channels ≤ 2 := by
    rw [hch]; split <;> omega
  rw [hsize, hfmt, hbits]
  have h3 : w.dev.spec.samples * w.dev.spec.channels ≤ 65535 * 2 := Nat.mul_le_mul h1 h2
  omega

/-- C17: after every successful `OGCAUD_OpenDevice` with `NUM_BUFFERS = N` at
most 8192, the pool is the single allocation of `N * spec.size` bytes that
`memalign(64, ...)` returned, it is zero-filled over that length, and for every
index `i < N` the lookup `mixbufs[i]` succeeds and gives the address at byte
offset `i * spec.size` of the pool; that offset is a multiple of 64, the slot
of `spec.size` bytes starting there ends inside the pool, and the slots of two
different indices do not overlap. -/
theorem C17_slots_tile_the_pool (N : Nat) (env : OpenEnv) (w0 w : World)
    (hN : N ≤ 8192) (hopen : OGCAUD_OpenDevice N env w0 = (0, w)) :
    ∃ hd, w.dev.hidden = some hd ∧ hd.rawbuf = env.rawbuf ∧ env.rawbuf ≠ 0 ∧
      hd.mixbufs.length = N ∧
      w.trace = w0.trace ++ [Call.SDL_malloc, Call.memalign 64 (N * w.dev.spec.size),
        Call.LWP_InitQueue, Call.SDL_memset env.rawbuf 0 (N * w.dev.spec.size),
        Call.ASND_Init, Call.ASND_ChangeVolumeVoice 0 OGC_AUDIO_MAX_VOLUME OGC_AUDIO_MAX_VOLUME,
        Call.ASND_Pause 0] ∧
      ∀ i, i < N →
        hd.mixbufs[i]? = some (env.rawbuf + i * w.dev.spec.size) ∧
        64 ∣ i * w.dev.spec.size ∧
        env.rawbuf + i * w.dev.spec.size + w.dev.spec.size ≤ env.rawbuf + N * w.dev.spec.size ∧
        ∀ j, j < N → i < j →
          env.rawbuf + i * w.dev.spec.size + w.dev.spec.size ≤ env.rawbuf + j * w.dev.spec.size := by
  obtain ⟨hd0, -, -, hraw0, -, hhid, -, -, -, htr⟩ := OGCAUD_OpenDevice_ok hopen
  obtain ⟨-, -, -, -, hdvd⟩ := OGCAUD_OpenDevice_ok_spec hopen
  have hsz := OGCAUD_OpenDevice_ok_size_le hopen
  have hpool : N * w.dev.spec.size < 2 ^ 32 := by
    have h1 : N * w.dev.spec.size ≤ 8192 * 262140 := Nat.mul_le_mul hN hsz
    have h2 : 8192 * 262140 < 2 ^ 32 := by norm_num
    omega
  have hmod : (w.dev.spec.size * N) % 2 ^ 32 = N * w.dev.spec.size := by
    rw [Nat.mul_comm, Nat.mod_eq_of_lt hpool]
  rw [hmod] at htr
  refine ⟨_, hhid, rfl, hraw0, by simp, htr, ?_⟩
  intro i hi
  have hle : (i + 1) * w.dev.spec.size ≤ N * w.dev.spec.size :=
    Nat.mul_le_mul_right _ (by omega)
  have hi1 : (i + 1) * w.dev.spec.size = i * w.dev.spec.size + w.dev.spec.size := Nat.succ_mul _ _
  have hlt : i * w.dev.spec.size < 2 ^ 32 := by omega
  refine ⟨?_, Dvd.dvd.mul_left hdvd i, by omega, ?_⟩
  · simp only [List.getElem?_map, List.getElem?_range hi, Option.map_some']
    rw [Nat.mod_eq_of_lt hlt]
  · intro j _ hij
    have hle2 : (i + 1) * w.dev.spec.size ≤ j * w.dev.spec.size :=
      Nat.mul_le_mul_right _ (by omega)
    omega

/-- C17 at a concrete input: the two 512-byte slots of `example_open`, at
addresses 4096 and 4608 of the 1024-byte pool at 4096. -/
theorem C17_slots_tile_the_pool_witness :
    example_open.dev.spec.size = 512 ∧
    ∃ hd, example_open.dev.hidden = some hd ∧ hd.rawbuf = example_env.rawbuf ∧
      example_env.rawbuf ≠ 0 ∧ hd.mixbufs.length = 2 ∧
      example_open.trace = (World.init example_spec).trace ++
        [Call.SDL_malloc, Call.memalign 64 (2 * example_open.dev.spec.size),
        Call.LWP_InitQueue, Call.SDL_memset example_env.rawbuf 0 (2 * example_open.dev.spec.size),
        Call.ASND_Init, Call.ASND_ChangeVolumeVoice 0 OGC_AUDIO_MAX_VOLUME OGC_AUDIO_MAX_VOLUME,
        Call.ASND_Pause 0] ∧
      ∀ i, i < 2 →
        hd.mixbufs[i]? = some (example_env.rawbuf + i * example_open.dev.spec.size) ∧
        64 ∣ i * example_open.dev.spec.size ∧
        example_env.rawbuf + i * example_open.dev.spec.size + example_open.dev.spec.size ≤
          example_env.rawbuf + 2 * example_open.dev.spec.size ∧
        ∀ j, j < 2 → i < j →
          example_env.rawbuf + i * example_open.dev.spec.size + example_open.dev.spec.size ≤
            example_env.rawbuf + j * example_open.dev.spec.size :=
  ⟨by decide,
    C17_slots_tile_the_pool 2 example_env (World.init example_spec) example_open
      (by decide) (by decide)⟩

/-- An execution without submits leaves the device alone. -/
theorem run_noplay_dev {N : Nat} : ∀ (evs : List Event) (w w1 : World),
    evs.countP Event.isPlay = 0 → run N w evs = Except.ok w1 → w1.dev = w.dev := by
  intro evs
  induction evs with
  | nil =>
    intro w w1 _ hr
    simp only [run, Except.ok.injEq] at hr
    rw [hr]
  | cons e es ih =>
    intro w w1 hc hr
    simp only [run] at hr
    cases hs : step N w e with
    | error f => simp [hs] at hr
    | ok w2 =>
      simp only [hs] at hr
      have hp : e.isPlay = false := by
        cases hp : e.isPlay with
        | false => rfl
        | true => simp [List.countP_cons, hp] at hc
      have hc2 : es.countP Event.isPlay = 0 := by
        simpa [List.countP_cons, hp] using hc
      rw [ih w2 w1 hc2 hr]
      exact (step_nonplay hp hs).1

/-- C18: on an open device, `OGCAUD_GetDeviceBuf` returns exactly the slot at
`next_buffer` and, as a step of the play loop, leaves the whole state as it
is; `OGCAUD_WaitDevice`, whether it returns at once or goes to sleep, and
whatever signal wakes it afterwards, leaves the device (and with it
`next_buffer`, `cur_buffer` and `first_time`) as it is, and so does
`ogc_play_callback` for every voice.  Hence every step other than a submit,
and every execution without a submit, leaves the device as it is. -/
theorem C18_only_submit_moves_cursor (N : Nat) (w : World) (h : SDL_PrivateAudioData)
    (hh : w.dev.hidden = some h) :
    (∀ buf, OGCAUD_GetDeviceBuf w = Except.ok buf ↔ h.mixbufs[h.next_buffer]? = some buf) ∧
    (∀ w1, step N w Event.getbuf = Except.ok w1 → w1 = w) ∧
    (∀ w1, OGCAUD_WaitDevice w = Except.ok w1 →
      w1.dev = w.dev ∧ ∀ q, (LWP_ThreadSignal q w1).dev = w.dev) ∧
    (∀ voice w1, ogc_play_callback voice w = Except.ok w1 → w1.dev = w.dev) ∧
    (∀ e w1, e.isPlay = false → step N w e = Except.ok w1 →
      w1.dev.hidden = some h ∧ w1.dev.spec = w.dev.spec) ∧
    (∀ evs w1, evs.countP Event.isPlay = 0 → run N w evs = Except.ok w1 →
      w1.dev.hidden = some h ∧ w1.dev.spec = w.dev.spec) := by
  have hsig : ∀ (q : Nat) (w1 : World), (LWP_ThreadSignal q w1).dev = w1.dev := by
    intro q w1
    simp only [LWP_ThreadSignal, World.log]
    split <;> rfl
  refine ⟨?_, ?_, ?_, ?_, ?_, ?_⟩
  · intro buf
    unfold OGCAUD_GetDeviceBuf
    rw [hh]
    cases hb : h.mixbufs[h.next_buffer]? with
    | none => simp only [hb]; simp
    | some b => simp only [hb]; simp
  · intro w1 hs
    simp only [step] at hs
    split at hs
    · simp at hs
    · split at hs
      · simp at hs
      · simp only [Except.ok.injEq] at hs
        exact hs.symm
  · intro w1 hwt
    cases hb : h.mixbufs[h.cur_buffer]? with
    | none => simp [OGCAUD_WaitDevice, hh, hb] at hwt
    | some buf =>
      rw [OGCAUD_WaitDevice_eq w h buf hh hb] at hwt
      simp only [Except.ok.injEq] at hwt
      have hdev : w1.dev = w.dev := by
        rw [← hwt]
        split
        · split <;> rfl
        · rfl
      exact ⟨hdev, fun q => by rw [hsig, hdev]⟩
  · intro voice w1 hc
    rcases ogc_play_callback_cases hc with e | ⟨h2, -, -, e⟩
    · rw [e]
    · rw [e, hsig]
  · intro e w1 hp hs
    have hd := (step_nonplay hp hs).1
    rw [hd]
    exact ⟨hh, rfl⟩
  · intro evs w1 hc hr
    rw [run_noplay_dev evs w w1 hc hr]
    exact ⟨hh, rfl⟩

/-- C18 at a concrete input: `example_armed`, the device after its first
submit. -/
theorem C18_only_submit_moves_cursor_witness :
    (∀ buf, OGCAUD_GetDeviceBuf example_armed = Except.ok buf ↔
      example_armed_hidden.mixbufs[example_armed_hidden.next_buffer]? = some buf) ∧
    (∀ w1, step 2 example_armed Event.getbuf = Except.ok w1 → w1 = example_armed) ∧
    (∀ w1, OGCAUD_WaitDevice example_armed = Except.ok w1 →
      w1.dev = example_armed.dev ∧ ∀ q, (LWP_ThreadSignal q w1).dev = example_armed.dev) ∧
    (∀ voice w1, ogc_play_callback voice example_armed = Except.ok w1 →
      w1.dev = example_armed.dev) ∧
    (∀ e w1, e.isPlay = false → step 2 example_armed e = Except.ok w1 →
      w1.dev.hidden = some example_armed_hidden ∧ w1.dev.spec = example_armed.dev.spec) ∧
    (∀ evs w1, evs.countP Event.isPlay = 0 → run 2 example_armed evs = Except.ok w1 →
      w1.dev.hidden = some example_armed_hidden ∧ w1.dev.spec = example_armed.dev.spec) :=
  C18_only_submit_moves_cursor 2 example_armed example_armed_hidden (by decide)

/-- C19: in every state reached from a successful open (with a positive
`NUM_BUFFERS = N`) by any execution of submits, waits, write-target lookups
and completion callbacks, `next_buffer` equals the number of submits modulo
`N`, `next_buffer` and `cur_buffer` are below `N`, the slot table has `N`
entries, and therefore `OGCAUD_PlayDevice`, `OGCAUD_WaitDevice` and
`OGCAUD_GetDeviceBuf` called in that state all return a result: none of their
slot-table lookups is out of bounds. -/
theorem C19_cursors_stay_in_bounds (N : Nat) (env : OpenEnv) (w0 w w1 : World)
    (evs : List Event) (hN : 0 < N)
    (hopen : OGCAUD_OpenDevice N env w0 = (0, w)) (hrun : run N w evs = Except.ok w1) :
    ∃ h1, w1.dev.hidden = some h1 ∧
      h1.next_buffer = evs.countP Event.isPlay % N ∧
      h1.next_buffer < N ∧ h1.cur_buffer < N ∧ h1.mixbufs.length = N ∧
      (∃ w2, OGCAUD_PlayDevice N w1 = Except.ok w2) ∧
      (∃ w2, OGCAUD_WaitDevice w1 = Except.ok w2) ∧
      (∃ buf, OGCAUD_GetDeviceBuf w1 = Except.ok buf) := by
  obtain ⟨hd, hhid, hlen, hnext, hcur, -⟩ := OGCAUD_OpenDevice_ok_hidden hopen
  obtain ⟨h1, t, a1, -, -, a4, a5, a6, a7, -⟩ :=
    run_inv evs w w1 hd hhid (by rw [hnext]; exact hN) hrun
  have hn1 : h1.next_buffer < N := by rw [a5]; exact Nat.mod_lt _ hN
  have hc1 : h1.cur_buffer < N := by
    rcases Nat.eq_zero_or_pos (evs.countP Event.isPlay) with hz | hp
    · rw [(a6 hz).1, hcur]; exact hN
    · exact (a7 hp).2.1
  have hlen1 : h1.mixbufs.length = N := by rw [a4]; exact hlen
  have hbn : h1.mixbufs[h1.next_buffer]? = some (h1.mixbufs[h1.next_buffer]) :=
    List.getElem?_eq_getElem (by omega)
  have hbc : h1.mixbufs[h1.cur_buffer]? = some (h1.mixbufs[h1.cur_buffer]) :=
    List.getElem?_eq_getElem (by omega)
  refine ⟨h1, a1, by rw [a5, hnext, Nat.zero_add], hn1, hc1, hlen1,
    ⟨_, OGCAUD_PlayDevice_eq N w1 h1 _ a1 hbn⟩, ⟨_, OGCAUD_WaitDevice_eq w1 h1 _ a1 hbc⟩, ?_⟩
  refine ⟨h1.mixbufs[h1.next_buffer], ?_⟩
  unfold OGCAUD_GetDeviceBuf
  rw [a1]
  simp only [hbn]

/-- C19 at a concrete input: the state `example_events` leads to from
`example_open`, after two submits. -/
theorem C19_cursors_stay_in_bounds_witness :
    ∃ h1, example_final.dev.hidden = some h1 ∧
      h1.next_buffer = example_events.countP Event.isPlay % 2 ∧
      h1.next_buffer < 2 ∧ h1.cur_buffer < 2 ∧ h1.mixbufs.length = 2 ∧
      (∃ w2, OGCAUD_PlayDevice 2 example_final = Except.ok w2) ∧
      (∃ w2, OGCAUD_WaitDevice example_final = Except.ok w2) ∧
      (∃ buf, OGCAUD_GetDeviceBuf example_final = Except.ok buf) :=
  C19_cursors_stay_in_bounds 2 example_env (World.init example_spec) example_open
    example_final example_events (by decide) (by decide) (by rfl)

/-! ## The claim about polling a semaphore -/

/-- C20: `SDL_SemWaitTimeout` with timeout 0, and hence `SDL_SemTryWait`, on a
non-null semaphore only polls: whatever the clock, it returns after reading
the count once.  When the count is 0 it returns `SDL_MUTEX_TIMEDOUT` and the
count is still 0; when the count is positive it returns 0 after one
`LWP_SemWait`, and the count is lower by exactly one.  It never blocks and
never reads the clock. -/
theorem C20_timeout_zero_polls (s : SDL_semaphore) (clock : List Nat) (w : SemWorld) :
    SDL_SemTryWait (some s) clock w = SDL_SemWaitTimeout (some s) 0 clock w ∧
    (w.count = 0 →
      SDL_SemWaitTimeout (some s) 0 clock w =
        SemResult.returned SDL_MUTEX_TIMEDOUT
          { count := 0, calls := w.calls ++ [SemCall.LWP_SemGetValue s.semid] }) ∧
    (0 < w.count →
      ∃ w1, SDL_SemWaitTimeout (some s) 0 clock w = SemResult.returned 0 w1 ∧
        w1.count + 1 = w.count ∧
        w1.calls = w.calls ++ [SemCall.LWP_SemGetValue s.semid, SemCall.LWP_SemWait s.semid]) := by
  refine ⟨rfl, ?_, ?_⟩
  · intro h0
    simp [SDL_SemWaitTimeout, LWP_SemGetValue, SemWorld.log, h0]
  · intro hpos
    have hne : w.count ≠ 0 := by omega
    refine ⟨{ count := w.count - 1,
              calls := w.calls ++ [SemCall.LWP_SemGetValue s.semid, SemCall.LWP_SemWait s.semid] },
      ?_, by simp only []; omega, rfl⟩
    simp [SDL_SemWaitTimeout, LWP_SemGetValue, LWP_SemWait, SemWorld.log, hne, hpos]

/-- C20 at concrete inputs: polling a semaphore of count 0 and one of count 3. -/
theorem C20_timeout_zero_polls_witness :
    SDL_SemWaitTimeout (some { semid := 5 }) 0 [] { count := 0, calls := [] } =
      SemResult.returned SDL_MUTEX_TIMEDOUT { count := 0, calls := [SemCall.LWP_SemGetValue 5] } ∧
    SDL_SemTryWait (some { semid := 5 }) [] { count := 3, calls := [] } =
      SemResult.returned 0
        { count := 2, calls := [SemCall.LWP_SemGetValue 5, SemCall.LWP_SemWait 5] } ∧
    (SDL_SemTryWait (some { semid := 5 }) [] { count := 3, calls := [] } =
        SDL_SemWaitTimeout (some { semid := 5 }) 0 [] { count := 3, calls := [] } ∧
      ((3 : Nat) = 0 →
        SDL_SemWaitTimeout (some { semid := 5 }) 0 [] { count := 3, calls := [] } =
          SemResult.returned SDL_MUTEX_TIMEDOUT
            { count := 0, calls := [] ++ [SemCall.LWP_SemGetValue 5] }) ∧
      (0 < 3 →
        ∃ w1, SDL_SemWaitTimeout (some { semid := 5 }) 0 [] { count := 3, calls := [] } =
            SemResult.returned 0 w1 ∧
          w1.count + 1 = 3 ∧
          w1.calls = [] ++ [SemCall.LWP_SemGetValue 5, SemCall.LWP_SemWait 5])) :=
  ⟨by decide, by decide,
    C20_timeout_zero_polls { semid := 5 } [] { count := 3, calls := [] }⟩

/-! ## The claim about the bit depth `OGCAUD_OpenDevice` keeps -/

/-- C21: evaluation of `OGCAUD_OpenDevice` at a signed 8-bit mono request with
both allocations succeeding.  `case 8:` stores `AUDIO_S8` and
`VOICE_MONO_8BIT`, control falls through into `case 16:`, which overwrites
them: the device opens with `spec.format = AUDIO_S16SYS` and voice type
`VOICE_MONO_16BIT`, and the buffer holds two bytes per frame.  The requested
bit depth is not kept. -/
theorem C21_signed_8bit_opens_as_16bit :
    SDL_AUDIO_BITSIZE example_spec_s8.format = 8 ∧
    SDL_AUDIO_ISSIGNED example_spec_s8.format = true ∧
    (OGCAUD_OpenDevice 2 example_env (World.init example_spec_s8)).1 = 0 ∧
    example_open_s8.dev.spec.format = AUDIO_S16SYS ∧
    example_open_s8.dev.spec.format ≠ AUDIO_S8 ∧
    SDL_AUDIO_BITSIZE example_open_s8.dev.spec.format = 16 ∧
    example_open_s8.dev.hidden.map SDL_PrivateAudioData.output_type =
      some VoiceType.VOICE_MONO_16BIT ∧
    example_open_s8.dev.spec.size = 2 * example_open_s8.dev.spec.samples := by
  decide

/-! ## The claims about thread creation and null semaphores -/

/-- C25: evaluation of `SDL_SYS_CreateThread`.  A request of 0 creates the thread
with the default stack size `0x10000`, and a request above the maximum with
`0x2000000`; but a request of `0x8000`, inside the range, and a request of
`0x100`, below the minimum, both create it with `0x2000000`: the first
comparison of line 68 tests and assigns `OGC_THREAD_STACK_MAX_SIZE`, so every
request other than 0 is raised to the maximum and
`OGC_THREAD_STACK_MIN_SIZE` is never used. -/
theorem C25_nonzero_stack_size_becomes_maximum :
    (SDL_SYS_CreateThread { handle := 0, has_name := false, stacksize := 0 } 0 1).2.2 =
      [ThreadCall.LWP_CreateThread 0x10000 80] ∧
    (SDL_SYS_CreateThread { handle := 0, has_name := false, stacksize := 0x4000000 } 0 1).2.2 =
      [ThreadCall.LWP_CreateThread 0x2000000 80] ∧
    OGC_THREAD_STACK_MIN_SIZE ≤ 0x8000 ∧ 0x8000 ≤ OGC_THREAD_STACK_MAX_SIZE ∧
    (SDL_SYS_CreateThread { handle := 0, has_name := false, stacksize := 0x8000 } 0 1).2.2 =
      [ThreadCall.LWP_CreateThread 0x2000000 80] ∧
    (SDL_SYS_CreateThread { handle := 0, has_name := false, stacksize := 0x100 } 0 1).2.2 =
      [ThreadCall.LWP_CreateThread 0x2000000 80] ∧
    (∀ (thread : SDL_Thread) (ret : Int) (handle : Nat),
      (SDL_SYS_CreateThread thread ret handle).2.2 =
        [ThreadCall.LWP_CreateThread
          (if thread.stacksize = 0 then OGC_THREAD_STACK_SIZE_DEFAULT
            else OGC_THREAD_STACK_MAX_SIZE) OGC_THREAD_PRIORITY_NORMAL]) := by
  refine ⟨by decide, by decide, by decide, by decide, by decide, by decide, ?_⟩
  intro thread ret handle
  unfold SDL_SYS_CreateThread
  by_cases h0 : thread.stacksize = 0
  · simp only [h0]
    split <;> simp
  · by_cases h1 : thread.stacksize < OGC_THREAD_STACK_MAX_SIZE
    · simp only [bne_iff_ne, ne_eq, h0, not_false_eq_true, ite_true, h1, ite_false]
      split <;> simp
    · simp only [bne_iff_ne, ne_eq, h0, not_false_eq_true, ite_true, h1, ite_false]
      by_cases h2 : thread.stacksize > OGC_THREAD_STACK_MAX_SIZE
      · simp only [h2, ite_true]
        split <;> simp
      · have h3 : thread.stacksize = OGC_THREAD_STACK_MAX_SIZE := by omega
        simp only [h2, ite_false]
        split <;> simp [h3]

/-- C26: evaluation of the semaphore functions on a null semaphore.  None of
them makes a libogc call: the only external call is
`SDL_InvalidParamError`.  `SDL_SemPost` returns its negative result and
`SDL_SemValue` returns 0; but `SDL_SemWaitTimeout`, for every timeout, and with
it `SDL_SemTryWait` and `SDL_SemWait`, discards that result and returns 0, the
value of success (lines 87-90). -/
theorem C26_wait_on_null_semaphore_returns_zero :
    (∀ (timeout : Nat) (clock : List Nat) (w : SemWorld),
      SDL_SemWaitTimeout none timeout clock w =
        SemResult.returned 0 (w.log SemCall.SDL_InvalidParamError)) ∧
    (∀ (clock : List Nat) (w : SemWorld),
      SDL_SemTryWait none clock w =
        SemResult.returned 0 (w.log SemCall.SDL_InvalidParamError)) ∧
    (∀ (clock : List Nat) (w : SemWorld),
      SDL_SemWait none clock w =
        SemResult.returned 0 (w.log SemCall.SDL_InvalidParamError)) ∧
    (∀ (res : Int) (count : Nat) (w : SemWorld),
      SDL_SemPost none res count w = (-1, w.log SemCall.SDL_InvalidParamError)) ∧
    (∀ (w : SemWorld), SDL_SemValue none w = (0, w.log SemCall.SDL_InvalidParamError)) ∧
    SDL_SemWaitTimeout none 100 [0, 50, 100] { count := 3, calls := [] } =
      SemResult.returned 0 { count := 3, calls := [SemCall.SDL_InvalidParamError] } :=
  ⟨fun _ _ _ => rfl, fun _ _ => rfl, fun _ _ => rfl, fun _ _ _ => rfl, fun _ => rfl, by decide⟩


/-! ## Facts about the joystick driver -/

theorem Wii_JoystickUpdate_wii_remote (hw : PadHardware) (js : SDL_Joystick)
    (h : joystick_hwdata) (hh : js.hwdata = some h) (ht : h.type = 0) :
    Wii_JoystickUpdate hw (some js)
      = (some { js with
          hwdata := some (_HandleWiiJoystickUpdate hw
            { hwdata := h, log := [JoyCall.WPAD_ScanPads, JoyCall.PAD_ScanPads] }
            h.index).hwdata },
        (_HandleWiiJoystickUpdate hw
          { hwdata := h, log := [JoyCall.WPAD_ScanPads, JoyCall.PAD_ScanPads] } h.index).log) := by
  simp [Wii_JoystickUpdate, hh, ht, __jswpad_enabled]

theorem axis_block_log (st : JoyState) (prev axis : Int) (number : Nat) (value : Int)
    (f : joystick_wpaddata → joystick_wpaddata) :
    ∃ l, (axis_block st prev axis number value (fun s => s.setWiimote f)).log = st.log ++ l := by
  unfold axis_block
  split
  · exact ⟨[JoyCall.SDL_PrivateJoystickAxis number value], rfl⟩
  · exact ⟨[], by simp⟩

theorem axis_block_roll (st : JoyState) (prev axis : Int) (number : Nat) (value : Int)
    (f : joystick_wpaddata → joystick_wpaddata)
    (hf : ∀ p, (f p).wiimote_roll = p.wiimote_roll) :
    (axis_block st prev axis number value
      (fun s => s.setWiimote f)).hwdata.wiimote.wiimote_roll
      = st.hwdata.wiimote.wiimote_roll := by
  unfold axis_block
  split
  · simp [JoyState.setWiimote, JoyState.call, hf]
  · rfl

theorem wii_orient_block_roll (st : JoyState) (data : WiiReading) (hr : data.roll = 128)
    (hp : st.hwdata.wiimote.wiimote_roll ≠ 128) :
    JoyCall.SDL_PrivateJoystickAxis 7 32768 ∈ (wii_orient_block st data).log ∧
      (wii_orient_block st data).hwdata.wiimote.wiimote_roll = -128 := by
  have e : WPAD_Roll data = 128 := by
    simp [WPAD_Roll, WPAD_Orient, hr, to_s16]
  have hp2 : (axis_block st st.hwdata.wiimote.wiimote_pitch (WPAD_Pitch data) 6
      (-(WPAD_Pitch data * 256))
      (fun s => s.setWiimote
        (fun p => { p with wiimote_pitch := to_s8 (WPAD_Pitch data) }))).hwdata.wiimote.wiimote_roll
      ≠ 128 := by
    rewrite [axis_block_roll]
    · exact hp
    · exact fun _ => rfl
  simp only [wii_orient_block, e]
  generalize (axis_block st st.hwdata.wiimote.wiimote_pitch (WPAD_Pitch data) 6
      (-(WPAD_Pitch data * 256))
      (fun s => s.setWiimote
        (fun p => { p with wiimote_pitch := to_s8 (WPAD_Pitch data) }))) = st1 at hp2 ⊢
  have e2 : axis_block st1 st1.hwdata.wiimote.wiimote_roll 128 7 (128 * 256)
      (fun s => s.setWiimote (fun p => { p with wiimote_roll := to_s8 128 }))
      = (st1.call (JoyCall.SDL_PrivateJoystickAxis 7 32768)).setWiimote
          (fun p => { p with wiimote_roll := -128 }) := by
    unfold axis_block
    rw [if_pos hp2]
    rfl
  rw [e2]
  constructor
  · obtain ⟨l, hl⟩ := axis_block_log
      ((st1.call (JoyCall.SDL_PrivateJoystickAxis 7 32768)).setWiimote
          (fun p => { p with wiimote_roll := -128 }))
      ((st1.call (JoyCall.SDL_PrivateJoystickAxis 7 32768)).setWiimote
          (fun p => { p with wiimote_roll := -128 })).hwdata.wiimote.wiimote_yaw
      (WPAD_Yaw data) 8 (WPAD_Yaw data * 256)
      (fun p => { p with wiimote_yaw := to_s8 (WPAD_Yaw data) })
    rw [hl]
    simp [JoyState.setWiimote, JoyState.call]
  · rewrite [axis_block_roll]
    · rfl
    · exact fun _ => rfl

theorem wii_blocks_keep_roll (hw : PadHardware) (st : JoyState) (i : Int) :
    ∃ st2 : JoyState, _HandleWiiJoystickUpdate hw st i = wii_orient_block st2 (hw.wii i) ∧
      st2.hwdata.wiimote.wiimote_roll = st.hwdata.wiimote.wiimote_roll := by
  refine ⟨_, rfl, ?_⟩
  have h1 : ∀ (s : JoyState) (e c b : Nat),
      (wii_hat_block s e c b).hwdata = s.hwdata := by
    intro s e c b
    simp only [wii_hat_block, JoyState.call]
    split_ifs <;> rfl
  have h2 : ∀ (s : JoyState) (e c b : Nat),
      (wii_button_block s e c b).hwdata.wiimote.wiimote_roll
        = s.hwdata.wiimote.wiimote_roll := by
    intro s e c b
    rfl
  have h3 : ∀ (s : JoyState) (d e : WiiReading),
      (wii_classic_block s d e).hwdata.wiimote.wiimote_roll
        = s.hwdata.wiimote.wiimote_roll := by
    intro s d e
    simp only [wii_classic_block]
    iterate 6 (rewrite [axis_block_roll]; rotate_left; exact fun _ => rfl)
    rfl
  have h4 : ∀ (s : JoyState) (d : WiiReading),
      (wii_nunchuk_block s d).hwdata.wiimote.wiimote_roll
        = s.hwdata.wiimote.wiimote_roll := by
    intro s d
    simp only [wii_nunchuk_block]
    iterate 2 (rewrite [axis_block_roll]; rotate_left; exact fun _ => rfl)
    rfl
  split_ifs <;>
    first
      | (rw [h3, h2, h1]; rfl)
      | (rw [h4, h2, h1]; rfl)
      | (rw [h2, h1]; rfl)


theorem axis_block_index (st : JoyState) (prev axis : Int) (number : Nat) (value : Int)
    (f : joystick_wpaddata → joystick_wpaddata) :
    (axis_block st prev axis number value (fun s => s.setWiimote f)).hwdata.index
        = st.hwdata.index ∧
      (axis_block st prev axis number value (fun s => s.setWiimote f)).hwdata.type
        = st.hwdata.type := by
  unfold axis_block
  split <;> exact ⟨rfl, rfl⟩

theorem wii_handler_index (hw : PadHardware) (st : JoyState) (i : Int) :
    (_HandleWiiJoystickUpdate hw st i).hwdata.index = st.hwdata.index ∧
      (_HandleWiiJoystickUpdate hw st i).hwdata.type = st.hwdata.type := by
  have h1 : ∀ (s : JoyState) (e c b : Nat),
      (wii_hat_block s e c b).hwdata = s.hwdata := by
    intro s e c b
    simp only [wii_hat_block, JoyState.call]
    split_ifs <;> rfl
  have h2 : ∀ (s : JoyState) (e c b : Nat),
      (wii_button_block s e c b).hwdata.index = s.hwdata.index ∧
        (wii_button_block s e c b).hwdata.type = s.hwdata.type := by
    intro s e c b
    exact ⟨rfl, rfl⟩
  have h3 : ∀ (s : JoyState) (d e : WiiReading),
      (wii_classic_block s d e).hwdata.index = s.hwdata.index ∧
        (wii_classic_block s d e).hwdata.type = s.hwdata.type := by
    intro s d e
    simp only [wii_classic_block, axis_block_index]
    trivial
  have h4 : ∀ (s : JoyState) (d : WiiReading),
      (wii_nunchuk_block s d).hwdata.index = s.hwdata.index ∧
        (wii_nunchuk_block s d).hwdata.type = s.hwdata.type := by
    intro s d
    simp only [wii_nunchuk_block, axis_block_index]
    trivial
  have h5 : ∀ (s : JoyState) (d : WiiReading),
      (wii_orient_block s d).hwdata.index = s.hwdata.index ∧
        (wii_orient_block s d).hwdata.type = s.hwdata.type := by
    intro s d
    simp only [wii_orient_block, axis_block_index]
    trivial
  simp only [_HandleWiiJoystickUpdate]
  rw [(h5 _ _).1, (h5 _ _).2]
  split_ifs <;>
    first
      | (rw [(h3 _ _ _).1, (h3 _ _ _).2, (h2 _ _ _ _).1, (h2 _ _ _ _).2, h1]; exact ⟨rfl, rfl⟩)
      | (rw [(h4 _ _).1, (h4 _ _).2, (h2 _ _ _ _).1, (h2 _ _ _ _).2, h1]; exact ⟨rfl, rfl⟩)
      | (rw [(h2 _ _ _ _).1, (h2 _ _ _ _).2, h1]; exact ⟨rfl, rfl⟩)

/-- C23: an update is not pure change detection at a full-scale reading.  For
a Wii remote joystick whose roll reading is 128 (a roll of 180 degrees) and
whose remembered roll is any value an `s8` can hold, the update reports the
roll axis and remembers -128, the `s8` that 128 converts to; the remembered
index and type are kept, so the next update with the same hardware state
reports the axis again, and so does every later one.  In the two examples (a
remote rolled to 180 degrees, and a classic controller with its left stick
fully up) the second of two updates with the same hardware state makes the
same report as the first. -/
theorem C23_full_scale_reading_reported_on_every_update (hw : PadHardware)
    (js : SDL_Joystick) (h : joystick_hwdata) (hh : js.hwdata = some h) (ht : h.type = 0)
    (hr : (hw.wii h.index).roll = 128) (hp : h.wiimote.wiimote_roll ≠ 128) :
    (JoyCall.SDL_PrivateJoystickAxis 7 32768 ∈ (Wii_JoystickUpdate hw (some js)).2 ∧
      ∃ js2 h2, (Wii_JoystickUpdate hw (some js)).1 = some js2 ∧ js2.hwdata = some h2 ∧
        h2.type = 0 ∧ h2.index = h.index ∧ h2.wiimote.wiimote_roll = -128) ∧
    (Wii_JoystickUpdate example_pads_rolled
        (Wii_JoystickUpdate example_pads_rolled (some example_wii_joystick)).1).2
      = [JoyCall.WPAD_ScanPads, JoyCall.PAD_ScanPads, JoyCall.WPAD_ButtonsHeld 0,
          JoyCall.WPAD_Probe 0, JoyCall.WPAD_Data 0, JoyCall.WPAD_Expansion 0,
          JoyCall.SDL_PrivateJoystickAxis 7 32768] ∧
    (Wii_JoystickUpdate example_pads_classic_up
        (Wii_JoystickUpdate example_pads_classic_up (some example_wii_joystick)).1).2
      = [JoyCall.WPAD_ScanPads, JoyCall.PAD_ScanPads, JoyCall.WPAD_ButtonsHeld 0,
          JoyCall.WPAD_Probe 0, JoyCall.WPAD_Data 0, JoyCall.WPAD_Expansion 0,
          JoyCall.SDL_PrivateJoystickAxis 1 (-32767)] := by
  refine ⟨?_, by decide, by decide⟩
  rw [Wii_JoystickUpdate_wii_remote hw js h hh ht]
  obtain ⟨st2, e, hroll⟩ := wii_blocks_keep_roll hw
    { hwdata := h, log := [JoyCall.WPAD_ScanPads, JoyCall.PAD_ScanPads] } h.index
  have hp2 : st2.hwdata.wiimote.wiimote_roll ≠ 128 := by
    rw [hroll]
    exact hp
  have key := wii_orient_block_roll st2 (hw.wii h.index) hr hp2
  have hidx := wii_handler_index hw
    { hwdata := h, log := [JoyCall.WPAD_ScanPads, JoyCall.PAD_ScanPads] } h.index
  refine ⟨?_, _, _, rfl, rfl, ?_, ?_, ?_⟩
  · rw [e]
    exact key.1
  · rw [hidx.2]
    exact ht
  · rw [hidx.1]
  · rw [e]
    exact key.2

theorem C23_full_scale_reading_reported_on_every_update_witness :
    JoyCall.SDL_PrivateJoystickAxis 7 32768 ∈
      (Wii_JoystickUpdate example_pads_rolled (some example_wii_joystick)).2 :=
  (C23_full_scale_reading_reported_on_every_update example_pads_rolled example_wii_joystick
    zeroed_hwdata rfl rfl rfl (by decide)).1.1

/-- C24: at a full-scale reading the value an update passes to
`SDL_PrivateJoystickAxis` is 32768, above `AXIS_MAX`, and the `Sint16` the
callee receives is -32768.  This happens for a reading of 128 on an x axis
without clamping (right stick of a classic controller, line 313; also roll and
yaw), and for a reading of -128 on a y axis (left stick of a classic
controller, where `-value` negates `AXIS_MIN`, line 307; main stick of a
GameCube pad, where `(-axis) << 8` is `128 << 8`, line 419): a positive x
reading and a negated negative y reading are both delivered as the most
negative value.  The clamped x path delivers `AXIS_MAX` for the same
reading. -/
theorem C24_full_scale_axis_value_wraps :
    (Wii_JoystickUpdate example_pads_classic_right (some example_wii_joystick)).2
      = [JoyCall.WPAD_ScanPads, JoyCall.PAD_ScanPads, JoyCall.WPAD_ButtonsHeld 0,
          JoyCall.WPAD_Probe 0, JoyCall.WPAD_Data 0, JoyCall.WPAD_Expansion 0,
          JoyCall.SDL_PrivateJoystickAxis 2 32768] ∧
    (Wii_JoystickUpdate example_pads_rolled (some example_wii_joystick)).2
      = [JoyCall.WPAD_ScanPads, JoyCall.PAD_ScanPads, JoyCall.WPAD_ButtonsHeld 0,
          JoyCall.WPAD_Probe 0, JoyCall.WPAD_Data 0, JoyCall.WPAD_Expansion 0,
          JoyCall.SDL_PrivateJoystickAxis 7 32768] ∧
    (Wii_JoystickUpdate example_pads_classic_down (some example_wii_joystick)).2
      = [JoyCall.WPAD_ScanPads, JoyCall.PAD_ScanPads, JoyCall.WPAD_ButtonsHeld 0,
          JoyCall.WPAD_Probe 0, JoyCall.WPAD_Data 0, JoyCall.WPAD_Expansion 0,
          JoyCall.SDL_PrivateJoystickAxis 1 32768] ∧
    (Wii_JoystickUpdate example_pads_gc_down (some example_gc_joystick)).2
      = [JoyCall.WPAD_ScanPads, JoyCall.PAD_ScanPads, JoyCall.PAD_ButtonsHeld (-4),
          JoyCall.PAD_StickX (-4), JoyCall.PAD_StickY (-4),
          JoyCall.SDL_PrivateJoystickAxis 1 32768, JoyCall.PAD_SubStickX (-4),
          JoyCall.PAD_SubStickY (-4), JoyCall.PAD_TriggerL (-4), JoyCall.PAD_TriggerR (-4)] ∧
    AXIS_MAX < 32768 ∧ to_s16 32768 = AXIS_MIN ∧
    clamped_value 128 = AXIS_MAX ∧ -(clamped_value (-128)) = 32768 := by
  refine ⟨by decide, by decide, by decide, by decide, by decide, by decide, by decide,
    by decide⟩

end OGC
